import Mathlib

/-!
Verification of the Adobe Commerce security-scraper spec against the code.

Strings are modelled as lists of Unicode code points (`Str := List Nat`),
so that character-class reasoning (digits, whitespace, case folding) is
arithmetic.  `chars` converts a Lean string literal to this representation.
-/

/-- Strings are lists of character codes. -/
abbrev Str : Type := List Nat

/-- Convert a Lean string literal to its code-point list. -/
def chars (s : String) : Str := s.data.map Char.toNat

/-- Python `str.isdigit` / regex `\d` for ASCII digits (codes 48-57). -/
def isDigitC (c : Nat) : Prop := 48 ≤ c ∧ c ≤ 57

instance (c : Nat) : Decidable (isDigitC c) := by
  unfold isDigitC
  infer_instance

/-- Boolean form of `isDigitC`. -/
def isDigitB (c : Nat) : Bool := decide (isDigitC c)

/-- Python regex `\s` whitespace class: space, tab, newline, vtab, formfeed, CR. -/
def isWsC (c : Nat) : Prop := c = 32 ∨ c = 9 ∨ c = 10 ∨ c = 11 ∨ c = 12 ∨ c = 13

instance (c : Nat) : Decidable (isWsC c) := by
  unfold isWsC
  infer_instance

/-- Boolean form of `isWsC`. -/
def isWsB (c : Nat) : Bool := decide (isWsC c)

/-- ASCII lower-casing of one code point (Python `str.lower` on ASCII). -/
def lowerC (c : Nat) : Nat := if 65 ≤ c ∧ c ≤ 90 then c + 32 else c

/-- Numeric value of a digit code point. -/
def digitVal (c : Nat) : Nat := c - 48

/-!
### clean_text (src/utils.py)

`clean_text` pipes the input through four regex substitutions:
`re.sub(r'\s+', ' ')`, `str.strip()`, `re.sub(r'[\r\n\t]+', ' ')`,
`re.sub(r' {2,}', ' ')`.  Each run-collapsing substitution is modelled by a
recursion that keeps the last character of a run (emitting the replacement
there), which produces the same output string.
-/

/-- Carriage return / newline / tab class of `re.sub(r'[\r\n\t]+', ' ')`. -/
def isRntC (c : Nat) : Prop := c = 13 ∨ c = 10 ∨ c = 9

instance (c : Nat) : Decidable (isRntC c) := by
  unfold isRntC
  infer_instance

/-- Boolean form of `isRntC`. -/
def isRntB (c : Nat) : Bool := decide (isRntC c)

/-- Collapse each maximal whitespace run to a single space (`re.sub(r'\s+', ' ')`). -/
def collapseWs : Str → Str
  | [] => []
  | [c] => if isWsB c then [32] else [c]
  | c :: d :: rest =>
    if isWsB c && isWsB d then collapseWs (d :: rest)
    else (if isWsB c then 32 else c) :: collapseWs (d :: rest)

/-- Collapse each maximal `[\r\n\t]` run to a single space. -/
def collapseRNT : Str → Str
  | [] => []
  | [c] => if isRntB c then [32] else [c]
  | c :: d :: rest =>
    if isRntB c && isRntB d then collapseRNT (d :: rest)
    else (if isRntB c then 32 else c) :: collapseRNT (d :: rest)

/-- Collapse each run of two or more spaces to a single space (`re.sub(r' {2,}', ' ')`). -/
def collapseSp2 : Str → Str
  | [] => []
  | [c] => [c]
  | c :: d :: rest =>
    if c = 32 && d = 32 then collapseSp2 (d :: rest)
    else c :: collapseSp2 (d :: rest)

/-- Python `str.strip()`: drop leading and trailing whitespace. -/
def stripStr (s : Str) : Str := (((s.dropWhile isWsB).reverse.dropWhile isWsB)).reverse

/-- Model of `clean_text` from src/utils.py. -/
def cleanText (s : Str) : Str :=
  if s = [] then []
  else collapseSp2 (collapseRNT (stripStr (collapseWs s)))

/-- A string is tidy when its only whitespace is single interior spaces and the
last character is not whitespace.  `clean_text` fixes such strings (given a
non-whitespace head, handled separately). -/
def tidy : Str → Prop
  | [] => True
  | [c] => ¬ isWsC c
  | c :: d :: rest => (¬ isWsC c ∨ (c = 32 ∧ ¬ isWsC d)) ∧ tidy (d :: rest)

/-- The head (if any) is not whitespace. -/
def tidyHeadP (s : Str) : Prop := ∀ c, s.head? = some c → ¬ isWsC c

/-!
### Calendar dates

`datetime` values carry no time-of-day anywhere relevant here, so a date is a
(year, month, day) triple, ordered lexicographically like Python `datetime`
comparison.
-/

/-- A calendar date. -/
structure Date where
  year : Nat
  month : Nat
  day : Nat
deriving DecidableEq, Repr

/-- Python `datetime` ordering restricted to dates: lexicographic. -/
def dateLe (a b : Date) : Prop :=
  a.year < b.year ∨ (a.year = b.year ∧
    (a.month < b.month ∨ (a.month = b.month ∧ a.day ≤ b.day)))

instance (a b : Date) : Decidable (dateLe a b) := by
  unfold dateLe
  infer_instance

/-- Strict version of `dateLe`. -/
def dateLt (a b : Date) : Prop :=
  a.year < b.year ∨ (a.year = b.year ∧
    (a.month < b.month ∨ (a.month = b.month ∧ a.day < b.day)))

instance (a b : Date) : Decidable (dateLt a b) := by
  unfold dateLt
  infer_instance

/-- Gregorian leap-year rule, as implemented by Python `datetime`. -/
def isLeap (y : Nat) : Prop := y % 4 = 0 ∧ (y % 100 ≠ 0 ∨ y % 400 = 0)

instance (y : Nat) : Decidable (isLeap y) := by
  unfold isLeap
  infer_instance

/-- Days in a month, as validated by the Python `datetime` constructor. -/
def daysInMonth (y m : Nat) : Nat :=
  if m = 2 then (if isLeap y then 29 else 28)
  else if m = 4 ∨ m = 6 ∨ m = 9 ∨ m = 11 then 30
  else 31

/-- The (y, m, d) triples accepted by the Python `datetime` constructor,
restricted to 4-digit years as required by the `%Y` directive of `strptime`. -/
def validDate (y m d : Nat) : Prop :=
  1 ≤ y ∧ y ≤ 9999 ∧ 1 ≤ m ∧ m ≤ 12 ∧ 1 ≤ d ∧ d ≤ daysInMonth y m

instance (y m d : Nat) : Decidable (validDate y m d) := by
  unfold validDate
  infer_instance

/-- Boolean form of `validDate`. -/
def validDateB (y m d : Nat) : Bool := decide (validDate y m d)

/-!
### Pattern matchers for parse_date (src/utils.py)

`parse_date` pairs regular expressions with `strptime` formats.  Each regex is
modelled by a matcher `Str → Option Nat` returning the length of the match at
the start of the string; `re.search` semantics (leftmost match, `re.I`) is
`searchWith`, which returns the matched substring.
-/

/-- Case-insensitive literal prefix match (`re.I`). -/
def ciPrefix : Str → Str → Bool
  | [], _ => true
  | _ :: _, [] => false
  | p :: ps, c :: cs => (lowerC p = lowerC c) && ciPrefix ps cs

/-- Leftmost-match search: try the matcher at every position, left to right,
and return the matched substring (`re.search(...).group()`). -/
def searchWith (m : Str → Option Nat) : Str → Option Str
  | [] =>
    match m [] with
    | some n => some (([] : Str).take n)
    | none => none
  | c :: rest =>
    match m (c :: rest) with
    | some n => some ((c :: rest).take n)
    | none => searchWith m rest

/-- Matcher for `\d{4}-\d{2}-\d{2}`. -/
def matchIsoAt : Str → Option Nat
  | a :: b :: c :: d :: e :: f :: g :: h :: i :: j :: _ =>
    if isDigitB a && isDigitB b && isDigitB c && isDigitB d && e = 45 &&
       isDigitB f && isDigitB g && h = 45 && isDigitB i && isDigitB j
    then some 10 else none
  | _ => none

/-- Matcher for `\d{2}/\d{2}/\d{4}`. -/
def matchSlash22At : Str → Option Nat
  | a :: b :: c :: d :: e :: f :: g :: h :: i :: j :: _ =>
    if isDigitB a && isDigitB b && c = 47 && isDigitB d && isDigitB e &&
       f = 47 && isDigitB g && isDigitB h && isDigitB i && isDigitB j
    then some 10 else none
  | _ => none

/-- Shape `\d\d/\d\d/\d{4}` used by `matchSlash12At`. -/
def matchShape22 : Str → Option Nat
  | a :: b :: c :: d :: e :: f :: g :: h :: i :: j :: _ =>
    if isDigitB a && isDigitB b && c = 47 && isDigitB d && isDigitB e &&
       f = 47 && isDigitB g && isDigitB h && isDigitB i && isDigitB j
    then some 10 else none
  | _ => none

/-- Shape `\d\d/\d/\d{4}` used by `matchSlash12At`. -/
def matchShape21 : Str → Option Nat
  | a :: b :: c :: d :: e :: f :: g :: h :: i :: _ =>
    if isDigitB a && isDigitB b && c = 47 && isDigitB d && e = 47 &&
       isDigitB f && isDigitB g && isDigitB h && isDigitB i
    then some 9 else none
  | _ => none

/-- Shape `\d/\d\d/\d{4}` used by `matchSlash12At`. -/
def matchShape12 : Str → Option Nat
  | a :: b :: c :: d :: e :: f :: g :: h :: i :: _ =>
    if isDigitB a && b = 47 && isDigitB c && isDigitB d && e = 47 &&
       isDigitB f && isDigitB g && isDigitB h && isDigitB i
    then some 9 else none
  | _ => none

/-- Shape `\d/\d/\d{4}` used by `matchSlash12At`. -/
def matchShape11 : Str → Option Nat
  | a :: b :: c :: d :: e :: f :: g :: h :: _ =>
    if isDigitB a && b = 47 && isDigitB c && d = 47 &&
       isDigitB e && isDigitB f && isDigitB g && isDigitB h
    then some 8 else none
  | _ => none

/-- Matcher for `\d{1,2}/\d{1,2}/\d{4}`.  The four digit-count shapes are
mutually exclusive (a position cannot be both a digit and a slash), so the
backtracking order of the regex engine is immaterial. -/
def matchSlash12At (s : Str) : Option Nat :=
  (matchShape22 s).orElse (fun _ =>
    (matchShape21 s).orElse (fun _ =>
      (matchShape12 s).orElse (fun _ => matchShape11 s)))

/-- Full month names of the regex alternation, with their month numbers. -/
def monthsFull : List (Str × Nat) :=
  [(chars "January", 1), (chars "February", 2), (chars "March", 3),
   (chars "April", 4), (chars "May", 5), (chars "June", 6),
   (chars "July", 7), (chars "August", 8), (chars "September", 9),
   (chars "October", 10), (chars "November", 11), (chars "December", 12)]

/-- Abbreviated month names of the regex alternation. -/
def monthsAbbr : List (Str × Nat) :=
  [(chars "Jan", 1), (chars "Feb", 2), (chars "Mar", 3), (chars "Apr", 4),
   (chars "May", 5), (chars "Jun", 6), (chars "Jul", 7), (chars "Aug", 8),
   (chars "Sep", 9), (chars "Oct", 10), (chars "Nov", 11), (chars "Dec", 12)]

/-- Match one month name of `table` as a case-insensitive prefix; return its
month number, its length, and the rest of the input.  No table name is a
prefix of another, so at most one alternative of the regex alternation can
match at a given position and first-match equals the regex semantics. -/
def monthFromPrefix : List (Str × Nat) → Str → Option (Nat × Nat × Str)
  | [], _ => none
  | (name, num) :: table, s =>
    if ciPrefix name s then some (num, name.length, s.drop name.length)
    else monthFromPrefix table s

/-- Consume `\s+` greedily: one or more whitespace characters.  In every
pattern used here the token after `\s+` cannot match whitespace, so greedy
consumption without backtracking coincides with the regex semantics. -/
def spaces1 (s : Str) : Option (Nat × Str) :=
  match s with
  | c :: _ =>
    if isWsB c then some ((s.takeWhile isWsB).length, s.dropWhile isWsB)
    else none
  | [] => none

/-- Consume `,?`: an optional comma.  If a comma is present, skipping it can
never help (the following `\s+` would fail on the comma), so consuming it
when present coincides with the regex semantics. -/
def optComma (s : Str) : Nat × Str :=
  match s with
  | c :: rest => if c = 44 then (1, rest) else (0, c :: rest)
  | [] => (0, [])

/-- Consume `\d{1,2}` with regex backtracking: try two digits, and if the
continuation `k` fails retry with one digit.  `k` gets the rest and the
number of digits consumed. -/
def digits12 (s : Str) (k : Str → Nat → Option Nat) : Option Nat :=
  match s with
  | a :: b :: rest =>
    if isDigitB a then
      if isDigitB b then
        match k rest 2 with
        | some n => some n
        | none => k (b :: rest) 1
      else k (b :: rest) 1
    else none
  | [a] => if isDigitB a then k [] 1 else none
  | [] => none

/-- Consume exactly `n` digits (`\d{n}`), returning the rest. -/
def exactDigits : Nat → Str → Option Str
  | 0, s => some s
  | n + 1, c :: rest => if isDigitB c then exactDigits n rest else none
  | _ + 1, [] => none

/-- Matcher for `(Month...)\s+\d{1,2},?\s+\d{4}` (patterns 4 and 5 of
`parse_date`, with `table` the full or abbreviated month alternation). -/
def matchMonthDYAt (table : List (Str × Nat)) (s : Str) : Option Nat :=
  match monthFromPrefix table s with
  | none => none
  | some (_, nl, r1) =>
    match spaces1 r1 with
    | none => none
    | some (ns, r2) =>
      digits12 r2 (fun r3 nd =>
        match optComma r3 with
        | (nc, r4) =>
          match spaces1 r4 with
          | none => none
          | some (ns2, r5) =>
            match exactDigits 4 r5 with
            | some _ => some (nl + ns + nd + nc + ns2 + 4)
            | none => none)

/-- Matcher for `\d{1,2}\s+(Month...)\s+\d{4}` (patterns 6 and 7 of
`parse_date`). -/
def matchDMonthYAt (table : List (Str × Nat)) (s : Str) : Option Nat :=
  digits12 s (fun r1 nd =>
    match spaces1 r1 with
    | none => none
    | some (ns, r2) =>
      match monthFromPrefix table r2 with
      | none => none
      | some (_, nl, r3) =>
        match spaces1 r3 with
        | none => none
        | some (ns2, r4) =>
          match exactDigits 4 r4 with
          | some _ => some (nd + ns + nl + ns2 + 4)
          | none => none)

/-!
### strptime models

`datetime.strptime(text, fmt)` compiles `fmt` to a regex in which a run of
whitespace becomes `\s+`, other literals must match exactly, `%Y` is exactly
four digits, `%m`/`%d` are one or two digits, and `%B`/`%b` are the
case-insensitive month-name alternations; the whole input must be consumed,
and the resulting numbers must form a date the `datetime` constructor
accepts.  Number tokens are consumed greedily; on the inputs produced by the
`parse_date` regexes a greedy parse and the backtracking regex parse agree
(after a two-digit number the format never continues with a digit).
-/

/-- Consume `%m` / `%d`: one or two digits, greedily, with their value. -/
def take12val : Str → Option (Nat × Str)
  | a :: b :: rest =>
    if isDigitB a then
      if isDigitB b then some (digitVal a * 10 + digitVal b, rest)
      else some (digitVal a, b :: rest)
    else none
  | [a] => if isDigitB a then some (digitVal a, []) else none
  | [] => none

/-- Consume `%Y`: exactly four digits, with their value. -/
def exact4val : Str → Option (Nat × Str)
  | a :: b :: c :: d :: rest =>
    if isDigitB a && isDigitB b && isDigitB c && isDigitB d then
      some (((digitVal a * 10 + digitVal b) * 10 + digitVal c) * 10 + digitVal d, rest)
    else none
  | _ => none

/-- Consume one expected literal character. -/
def expectC (ch : Nat) : Str → Option Str
  | c :: rest => if c = ch then some rest else none
  | [] => none

/-- strptime with format `'%Y-%m-%d'`. -/
def strpYmd (s : Str) : Option Date :=
  match exact4val s with
  | none => none
  | some (y, r1) =>
    match expectC 45 r1 with
    | none => none
    | some r2 =>
      match take12val r2 with
      | none => none
      | some (m, r3) =>
        match expectC 45 r3 with
        | none => none
        | some r4 =>
          match take12val r4 with
          | none => none
          | some (d, r5) =>
            if r5 = [] ∧ validDate y m d then some ⟨y, m, d⟩ else none

/-- strptime with format `'%m/%d/%Y'`. -/
def strpMdY (s : Str) : Option Date :=
  match take12val s with
  | none => none
  | some (m, r1) =>
    match expectC 47 r1 with
    | none => none
    | some r2 =>
      match take12val r2 with
      | none => none
      | some (d, r3) =>
        match expectC 47 r3 with
        | none => none
        | some r4 =>
          match exact4val r4 with
          | none => none
          | some (y, r5) =>
            if r5 = [] ∧ validDate y m d then some ⟨y, m, d⟩ else none

/-- strptime with format `'%B %d, %Y'` (or `'%b %d, %Y'` with the
abbreviated table): note the comma is a required literal. -/
def strpBdY (table : List (Str × Nat)) (s : Str) : Option Date :=
  match monthFromPrefix table s with
  | none => none
  | some (m, _, r1) =>
    match spaces1 r1 with
    | none => none
    | some (_, r2) =>
      match take12val r2 with
      | none => none
      | some (d, r3) =>
        match expectC 44 r3 with
        | none => none
        | some r4 =>
          match spaces1 r4 with
          | none => none
          | some (_, r5) =>
            match exact4val r5 with
            | none => none
            | some (y, r6) =>
              if r6 = [] ∧ validDate y m d then some ⟨y, m, d⟩ else none

/-- strptime with format `'%d %B %Y'` (or `'%d %b %Y'`). -/
def strpDBY (table : List (Str × Nat)) (s : Str) : Option Date :=
  match take12val s with
  | none => none
  | some (d, r1) =>
    match spaces1 r1 with
    | none => none
    | some (_, r2) =>
      match monthFromPrefix table r2 with
      | none => none
      | some (m, _, r3) =>
        match spaces1 r3 with
        | none => none
        | some (_, r4) =>
          match exact4val r4 with
          | none => none
          | some (y, r5) =>
            if r5 = [] ∧ validDate y m d then some ⟨y, m, d⟩ else none

/-!
### parse_date (src/utils.py)
-/

/-- Python `match.group().replace(',', '')`. -/
def removeCommas (s : Str) : Str := s.filter (fun c => decide (c ≠ 44))

/-- One (pattern, format) entry of `parse_date`: search for the pattern; on a
match, strip commas from the matched text and run strptime; a parse failure
falls through to the next entry (`none` here). -/
def tryOne (m : Str → Option Nat) (strp : Str → Option Date) (s : Str) : Option Date :=
  match searchWith m s with
  | some g => strp (removeCommas g)
  | none => none

/-- The ordered `date_patterns` loop of `parse_date`. -/
def tryPatterns (s : Str) : Option Date :=
  (tryOne matchIsoAt strpYmd s).orElse (fun _ =>
  (tryOne matchSlash22At strpMdY s).orElse (fun _ =>
  (tryOne matchSlash12At strpMdY s).orElse (fun _ =>
  (tryOne (matchMonthDYAt monthsFull) (strpBdY monthsFull) s).orElse (fun _ =>
  (tryOne (matchMonthDYAt monthsAbbr) (strpBdY monthsAbbr) s).orElse (fun _ =>
  (tryOne (matchDMonthYAt monthsFull) (strpDBY monthsFull) s).orElse (fun _ =>
  tryOne (matchDMonthYAt monthsAbbr) (strpDBY monthsAbbr) s))))))

/-- Model of `parse_date` from src/utils.py.  The Python function returns
`datetime.now()` when the input is falsy and when every pattern fails; the
ambient current date is passed explicitly as `now`. -/
def parse_date (s : Str) (now : Date) : Date :=
  if s = [] then now
  else
    match tryPatterns (cleanText s) with
    | some d => d
    | none => now

/-!
### Date formatters (spec side)

The round-trip property of the spec composes `parse_date` with
`format(d, f)`; these model the `strftime` renderings of the supported
format names, with the zero-padding `strftime` produces.
-/

/-- Two-digit zero-padded decimal rendering (`%m`, `%d`). -/
def pad2 (n : Nat) : Str := [48 + n / 10 % 10, 48 + n % 10]

/-- Four-digit zero-padded decimal rendering (`%Y`, for years up to 9999). -/
def pad4 (n : Nat) : Str :=
  [48 + n / 1000 % 10, 48 + n / 100 % 10, 48 + n / 10 % 10, 48 + n % 10]

/-- strftime `%B`. -/
def monthName : Nat → Str
  | 1 => chars "January"
  | 2 => chars "February"
  | 3 => chars "March"
  | 4 => chars "April"
  | 5 => chars "May"
  | 6 => chars "June"
  | 7 => chars "July"
  | 8 => chars "August"
  | 9 => chars "September"
  | 10 => chars "October"
  | 11 => chars "November"
  | 12 => chars "December"
  | _ => []

/-- Rendering of format "YYYY-MM-DD" (strftime `'%Y-%m-%d'`). -/
def fmtIso (d : Date) : Str := pad4 d.year ++ [45] ++ pad2 d.month ++ [45] ++ pad2 d.day

/-- Rendering of format "MM/DD/YYYY" (strftime `'%m/%d/%Y'`). -/
def fmtMdY (d : Date) : Str := pad2 d.month ++ [47] ++ pad2 d.day ++ [47] ++ pad4 d.year

/-- Rendering of format "D Month YYYY" (strftime `'%d %B %Y'`). -/
def fmtDMonthY (d : Date) : Str := pad2 d.day ++ [32] ++ monthName d.month ++ [32] ++ pad4 d.year

/-!
### extract_date_from_entry (src/security_scraper.py)

Searches the entry text against its own four patterns (ISO, `MM/DD/YYYY`,
`D Month YYYY`, `Month D, YYYY`, in that order, `re.I`) and feeds the first
match to `parse_date`; with no match it returns today rendered as
`'%Y-%m-%d'`.  Both outcomes denote a calendar date and are modelled by that
date value (the Python function returns a `datetime` in the first case and a
string in the second). -/
def extract_date_from_entry (entryText : Str) (now : Date) : Date :=
  match searchWith matchIsoAt entryText with
  | some g => parse_date g now
  | none =>
    match searchWith matchSlash22At entryText with
    | some g => parse_date g now
    | none =>
      match searchWith (matchDMonthYAt monthsFull) entryText with
      | some g => parse_date g now
      | none =>
        match searchWith (matchMonthDYAt monthsFull) entryText with
        | some g => parse_date g now
        | none => now

/-!
### Relevance check (src/security_scraper.py, scrape_adobe_security_page)

`entry_text = clean_text(entry.get_text().lower())` followed by
`any(keyword.lower() in entry_text for keyword in KEYWORDS)`.
-/

/-- Python substring containment `needle in hay`. -/
def containsSub (needle : Str) : Str → Bool
  | [] => needle.isEmpty
  | c :: rest => needle.isPrefixOf (c :: rest) || containsSub needle rest

/-- The relevance check of the main extractor: it consults only the entry
text, never the link. -/
def isRelevantMain (text : Str) (keywords : List Str) : Bool :=
  keywords.any (fun kw => containsSub (kw.map lowerC) (cleanText (text.map lowerC)))

/-- The KEYWORDS list from src/config.py. -/
def mainKeywords : List Str :=
  [chars "Adobe Commerce", chars "Magento", chars "Security", chars "Patch",
   chars "CVE", chars "Vulnerability", chars "Security Update",
   chars "Security Fix", chars "Security Advisory", chars "Security Bulletin",
   chars "APSB", chars "Commerce", chars "Security Patch"]

/-!
### Link resolution

`extract_patch_info` in src/adobe_commerce_security_scraper_gpt4-1.py:
an href starting with `/` gets the scheme+host `'/'.join(url.split('/')[:3])`
prefixed; otherwise, unless it starts with `http`, it is joined as
`url.rstrip('/') + '/' + link`; otherwise it is returned unchanged.

`scrape_adobe_security_page` in src/security_scraper.py: an href starting
with `/` gets the literal host `https://helpx.adobe.com` prefixed, and the
final record stores `link or url` (the page URL when the href is missing or
empty).
-/

/-- Python `str.split(sep)` (auxiliary: first field and remaining fields). -/
def splitOnNE (sep : Nat) : Str → Str × List Str
  | [] => ([], [])
  | c :: rest =>
    let p := splitOnNE sep rest
    if c = sep then ([], p.1 :: p.2) else (c :: p.1, p.2)

/-- Python `str.split(sep)`. -/
def splitSep (sep : Nat) (s : Str) : List Str :=
  ((splitOnNE sep s).1) :: (splitOnNE sep s).2

/-- Python `'/'.join(url.split('/')[:3])`: the scheme+host part of a URL. -/
def urlRoot (url : Str) : Str := List.intercalate [47] ((splitSep 47 url).take 3)

/-- Python `url.rstrip('/')`. -/
def rstripSlash (s : Str) : Str :=
  (s.reverse.dropWhile (fun c => decide (c = 47))).reverse

/-- Python `str.startswith`. -/
def startsWith (pre s : Str) : Bool := List.isPrefixOf pre s

/-- Link resolution of `extract_patch_info`
(src/adobe_commerce_security_scraper_gpt4-1.py, lines 52-58). -/
def gpt41ResolveLink (href url : Str) : Str :=
  if startsWith [47] href then urlRoot url ++ href
  else if !(startsWith (chars "http") href) then rstripSlash url ++ [47] ++ href
  else href

/-- Link handling of `scrape_adobe_security_page` (src/security_scraper.py):
the `if link.startswith('/')` rewrite plus the `link or url` fallback
(Python `or` takes the page URL for a missing or empty href). -/
def mainResolveLink (href : Option Str) (pageUrl : Str) : Str :=
  match href with
  | none => pageUrl
  | some h =>
    let l := if startsWith [47] h then chars "https://helpx.adobe.com" ++ h else h
    if l = [] then pageUrl else l

/-- Modelled from the spec: a syntactically absolute URL "has a scheme and a
host"; for this corpus that is exactly an `http://` or `https://` prefix. -/
def specAbsUrl (s : Str) : Prop :=
  startsWith (chars "http://") s = true ∨ startsWith (chars "https://") s = true

instance (s : Str) : Decidable (specAbsUrl s) := by
  unfold specAbsUrl
  infer_instance

/-!
### extract_description_from_entry (src/security_scraper.py)
-/

/-- Sentence-ending class of `re.split(r'[.!?]+', ...)`. -/
def isSentB (c : Nat) : Bool := decide (c = 46 ∨ c = 33 ∨ c = 63)

/-- Auxiliary for `re.split(r'[.!?]+', s)`: first piece and remaining pieces. -/
def splitSentNE : Str → Str × List Str
  | [] => ([], [])
  | c :: rest =>
    let p := splitSentNE rest
    if isSentB c then
      if (match rest with | d :: _ => isSentB d | [] => false) then p
      else ([], p.1 :: p.2)
    else (c :: p.1, p.2)

/-- Python `re.split(r'[.!?]+', s)` (empty boundary pieces included). -/
def splitSent (s : Str) : List Str := ((splitSentNE s).1) :: (splitSentNE s).2

/-- The 2-3-sentence soft cap: `'. '.join(sentences[:3]) + '.'` when the
split yields more than three pieces. -/
def capSentences (s : Str) : Str :=
  let sentences := splitSent s
  if sentences.length > 3 then List.intercalate (chars ". ") (sentences.take 3) ++ [46]
  else s

/-- Python `s.replace(needle, '')`: remove every (left-to-right,
non-overlapping) occurrence; the empty needle leaves the string unchanged. -/
def removeSub (needle : Str) : Str → Str
  | [] => []
  | c :: rest =>
    if needle ≠ [] ∧ needle.isPrefixOf (c :: rest) then
      removeSub needle (rest.drop (needle.length - 1))
    else c :: removeSub needle rest
termination_by s => s.length
decreasing_by
  all_goals simp [List.length_drop]
  all_goals omega

/-- Model of `extract_description_from_entry`: description element text if
present, else the first paragraph, else the entry text with the cleaned
title removed, stripped and truncated to 200 characters; then the sentence
cap; then the generic default for an empty result. -/
def extract_description_from_entry (descText : Option Str) (paragraphs : List Str)
    (entryText : Str) (title : Str) : Str :=
  let description :=
    match descText with
    | some t => cleanText t
    | none =>
      match paragraphs with
      | p :: _ => cleanText p
      | [] => (stripStr (removeSub (cleanText title) (cleanText entryText))).take 200
  let capped := capSentences description
  if capped = [] then chars "Security update for Adobe Commerce." else capped

/-!
### The per-entry record extraction of scrape_adobe_security_page
(src/security_scraper.py, lines 63-97)

A fragment abstracts the external document-model queries on one entry
element: the text of the first `h1`-`h4`/`a` element (`none` when the
element search fails), the entry text, the first `a[href]` href, the text of
a description-classed element, and the paragraph texts.
-/

/-- One candidate entry element, through the document-model interface. -/
structure Fragment where
  titleText : Option Str
  text : Str
  href : Option Str
  descText : Option Str
  paragraphs : List Str

/-- One extracted bulletin record. -/
structure Bulletin where
  title : Str
  link : Str
  date : Date
  description : Str
  source : Str
deriving DecidableEq

/-- The body of the `for entry in security_entries` loop: skip when no title
element is found, skip when the keyword check rejects the entry text, and
otherwise always build a record. -/
def extractRecord (frag : Fragment) (pageUrl : Str) (keywords : List Str)
    (now : Date) : Option Bulletin :=
  match frag.titleText with
  | none => none
  | some tt =>
    let title := cleanText tt
    if isRelevantMain frag.text keywords then
      some { title := title
             link := mainResolveLink frag.href pageUrl
             date := extract_date_from_entry frag.text now
             description := extract_description_from_entry frag.descText
               frag.paragraphs frag.text title
             source := chars "Adobe Security" }
    else none

/-!
### Deduplication (src/security_scraper.py, scrape_all_sources, lines 316-326)
-/

/-- The dedup identity key `(bulletin['title'], bulletin['link'])`. -/
def bulletinKey (b : Bulletin) : Str × Str := (b.title, b.link)

/-- The dedup loop with its `seen` set. -/
def dedupAux (seen : List (Str × Str)) : List Bulletin → List Bulletin
  | [] => []
  | b :: rest =>
    if bulletinKey b ∈ seen then dedupAux seen rest
    else b :: dedupAux (bulletinKey b :: seen) rest

/-- Model of the duplicate-removal pass of `scrape_all_sources`. -/
def dedupBulletins (l : List Bulletin) : List Bulletin := dedupAux [] l

/-!
### Date-window filtering (src/adobe_commerce_security_scraper_gpt4-1.py,
filter_and_print, lines 66-83)
-/

/-- One entry of the gpt4-1 pipeline. -/
structure Entry where
  date : Option Date
  title : Str
  link : Str
deriving DecidableEq

/-- Model of `date_in_range`: `from_date <= date_obj <= to_date` (inclusive bounds). -/
def dateInRange (fromD toD d : Date) : Bool := decide (dateLe fromD d ∧ dateLe d toD)

/-- The `filter_and_print` collection loop: skip dateless entries, skip
entries outside the window, skip links already seen, keep the rest. -/
def filterWindowAux (fromD toD : Date) (seen : List Str) : List Entry → List Entry
  | [] => []
  | e :: rest =>
    match e.date with
    | none => filterWindowAux fromD toD seen rest
    | some d =>
      if !(dateInRange fromD toD d) then filterWindowAux fromD toD seen rest
      else if e.link ∈ seen then filterWindowAux fromD toD seen rest
      else e :: filterWindowAux fromD toD (e.link :: seen) rest

/-- The window filter applied with an empty `seen` set. -/
def filterWindow (fromD toD : Date) (l : List Entry) : List Entry :=
  filterWindowAux fromD toD [] l

/-!
### Sorting (src/security_scraper.py, generate_markdown_report, lines 327-336)

`generate_markdown_report` sorts with
`sorted(bulletins, key=lambda x: parse_date(x['date']), reverse=True)`.
The stored `bulletin['date']` is the raw return value of
`extract_date_from_entry`: the `datetime` object `parse_date(match.group())`
when one of its four patterns matched, and the *string*
`datetime.now().strftime('%Y-%m-%d')` otherwise.  The sort key therefore
re-applies `parse_date` to a value that may be a `datetime`; `parse_date`
begins with `clean_text(date_string)`, whose `re.sub` accepts only strings
and raises `TypeError` on a `datetime` (the only `try` in `parse_date`
catches `ValueError`, around `strptime`), so the `sorted` call raises.  The
model keeps the stored representation and the error path: the sort returns
`Except.error ()` for the raised `TypeError`.  When every key computation
succeeds, `sorted(..., reverse=True)` is a stable descending sort, modelled
by insertion in front of the first strictly larger key (an element lands
after every earlier element with the same key).
-/

/-- The value held in `bulletin['date']`: a `datetime` object or a string. -/
inductive DateVal where
  | dt (d : Date)
  | str (s : Str)
deriving DecidableEq

/-- A record as `generate_markdown_report` receives it: the `date` field
holds the stored value, `datetime` or string. -/
structure BulletinV where
  title : Str
  link : Str
  date : DateVal
  description : Str
  source : Str
deriving DecidableEq

/-- `extract_date_from_entry` with the stored representation kept (compare
`extract_date_from_entry` above, which returns the denoted calendar date):
the first matching pattern's group goes through `parse_date` and a
`datetime` is stored; with no match today's `'%Y-%m-%d'` string is
stored. -/
def extract_date_value (entryText : Str) (now : Date) : DateVal :=
  match searchWith matchIsoAt entryText with
  | some g => .dt (parse_date g now)
  | none =>
    match searchWith matchSlash22At entryText with
    | some g => .dt (parse_date g now)
    | none =>
      match searchWith (matchDMonthYAt monthsFull) entryText with
      | some g => .dt (parse_date g now)
      | none =>
        match searchWith (matchMonthDYAt monthsFull) entryText with
        | some g => .dt (parse_date g now)
        | none => .str (fmtIso now)

/-- The sort key `lambda x: parse_date(x['date'])` on one stored value: a
string is parsed; a `datetime` makes `clean_text`'s `re.sub` raise
`TypeError`, modelled as `Except.error ()`. -/
def parse_date_val (v : DateVal) (now : Date) : Except Unit Date :=
  match v with
  | .dt _ => .error ()
  | .str s => .ok (parse_date s now)

/-- The keys `sorted` computes, one per record in list order; the first
raised `TypeError` propagates out of the `sorted` call. -/
def sortKeys (now : Date) : List BulletinV → Except Unit (List (BulletinV × Date))
  | [] => .ok []
  | b :: rest =>
    match parse_date_val b.date now with
    | .error e => .error e
    | .ok k =>
      match sortKeys now rest with
      | .error e => .error e
      | .ok ps => .ok ((b, k) :: ps)

/-- Insert a keyed record into a key-descending list, after equal keys. -/
def insertDescK (p : BulletinV × Date) :
    List (BulletinV × Date) → List (BulletinV × Date)
  | [] => [p]
  | q :: rest => if dateLt p.2 q.2 then q :: insertDescK p rest else p :: q :: rest

/-- Stable sort of keyed records, largest key first. -/
def sortDescK : List (BulletinV × Date) → List (BulletinV × Date)
  | [] => []
  | p :: rest => insertDescK p (sortDescK rest)

/-- The sort of `generate_markdown_report`:
`sorted(bulletins, key=lambda x: parse_date(x['date']), reverse=True)`.
The keys are computed first; a `TypeError` aborts the call, otherwise the
records come back stably sorted by key, descending. -/
def generate_markdown_report_sorted (now : Date) (bs : List BulletinV) :
    Except Unit (List BulletinV) :=
  match sortKeys now bs with
  | .error e => .error e
  | .ok ps => .ok ((sortDescK ps).map Prod.fst)

/-- The date a stored value denotes: the `datetime` itself, or the parse of
the string.  On the no-`TypeError` path this is exactly the sort key. -/
def storedKey (now : Date) (b : BulletinV) : Date :=
  match b.date with
  | .dt d => d
  | .str s => parse_date s now

/-!
### retry_request (src/utils.py, lines 24-58)

The HTTP layer is the external page fetcher; an `oracle` gives the outcome
of each attempt (`some` a response after `raise_for_status` passes, `none`
for a raised `RequestException`).  The loop body runs for
`attempt in range(max_retries + 1)`, returns the first success, sleeps and
retries on failure while `attempt < max_retries`, and returns `None` once
the last attempt fails.
-/

/-- The retry loop from `attempt` on. -/
def retryGo {α : Type} (oracle : Nat → Option α) (maxRetries attempt : Nat) : Option α :=
  match oracle attempt with
  | some r => some r
  | none => if attempt < maxRetries then retryGo oracle maxRetries (attempt + 1) else none
termination_by maxRetries - attempt

/-- Model of `retry_request`. -/
def retry_request {α : Type} (oracle : Nat → Option α) (maxRetries : Nat) : Option α :=
  retryGo oracle maxRetries 0

/-!
### Spec-side comparison definitions and concrete material for the theorems
-/

/-- Modelled from the spec: `k` is a case-insensitive substring of `s`. -/
def ciSubstr (k s : Str) : Prop := containsSub (k.map lowerC) (s.map lowerC) = true

instance (k s : Str) : Decidable (ciSubstr k s) := by
  unfold ciSubstr
  infer_instance

/-- Modelled from the spec: the claimed Relevance Classifier rule — true iff
some keyword of `K` is a case-insensitive substring of the text or of the
link. -/
def specIsRelevant (text link : Str) (K : List Str) : Prop :=
  ∃ k ∈ K, ciSubstr k text ∨ ciSubstr k link

instance (text link : Str) (K : List Str) : Decidable (specIsRelevant text link K) := by
  unfold specIsRelevant
  infer_instance

/-- Example record dated 2025-03-01 (spec sort test), the date stored as
`extract_date_from_entry` stores a matched date: a `datetime` object. -/
def exMar : BulletinV :=
  { title := chars "A", link := chars "a", date := DateVal.dt ⟨2025, 3, 1⟩,
    description := chars "", source := chars "s" }

/-- Example record dated 2025-01-10 (spec sort test), `datetime`-valued. -/
def exJan : BulletinV :=
  { title := chars "B", link := chars "b", date := DateVal.dt ⟨2025, 1, 10⟩,
    description := chars "", source := chars "s" }

/-- Example record dated 2025-02-20 (spec sort test), `datetime`-valued. -/
def exFeb : BulletinV :=
  { title := chars "C", link := chars "c", date := DateVal.dt ⟨2025, 2, 20⟩,
    description := chars "", source := chars "s" }

/-- A record whose date is the string "2025-01-10". -/
def exStrJan : BulletinV :=
  { title := chars "B", link := chars "b", date := DateVal.str (chars "2025-01-10"),
    description := chars "", source := chars "s" }

/-- A record whose date is the string "2025-03-01". -/
def exStrMar : BulletinV :=
  { title := chars "A", link := chars "a", date := DateVal.str (chars "2025-03-01"),
    description := chars "", source := chars "s" }

/-- A record whose date is the string "2025-02-20". -/
def exStrFeb : BulletinV :=
  { title := chars "C", link := chars "c", date := DateVal.str (chars "2025-02-20"),
    description := chars "", source := chars "s" }

/-- Three string-dated records, in the spec's encounter order. -/
def exStrRecs : List BulletinV := [exStrMar, exStrJan, exStrFeb]

/-- The same three records in descending date order. -/
def exStrOut : List BulletinV := [exStrMar, exStrFeb, exStrJan]

/-- A fetch oracle whose first attempt fails and second succeeds. -/
def witnessOracle : Nat → Option Nat := fun i => if i = 1 then some 7 else none

/-!
## Theorems
-/

theorem isDigitB_eq_true {c : Nat} (h : isDigitC c) : isDigitB c = true := by
  simp [isDigitB, h]

theorem isDigitB_eq_false {c : Nat} (h : ¬ isDigitC c) : isDigitB c = false := by
  simp [isDigitB, h]

theorem isWsB_digit {c : Nat} (h : isDigitC c) : isWsB c = false := by
  rcases h with ⟨h1, h2⟩
  simp [isWsB, isWsC]
  omega

theorem lowerC_digit {c : Nat} (h : isDigitC c) : lowerC c = c := by
  rcases h with ⟨h1, h2⟩
  simp [lowerC]
  omega

theorem digit_ne_of_ge {c d : Nat} (h : isDigitC c) (hd : 58 ≤ d) : c ≠ d := by
  rcases h with ⟨h1, h2⟩
  omega

theorem digit_ne_of_lt {c d : Nat} (h : isDigitC c) (hd : d < 48) : c ≠ d := by
  rcases h with ⟨h1, h2⟩
  omega

theorem collapseWs_eq {s : Str} (h : tidy s) : collapseWs s = s := by
  induction s with
  | nil => rfl
  | cons c rest ih =>
    cases rest with
    | nil =>
      have hc : ¬ isWsC c := h
      simp [collapseWs, isWsB, hc]
    | cons d rest' =>
      obtain ⟨hcd, ht⟩ := h
      have hrec := ih ht
      rcases hcd with hc | ⟨hc32, hd⟩
      · simp [collapseWs, isWsB, hc, hrec]
      · subst hc32
        have hdb : isWsB d = false := by simp [isWsB, hd]
        simp [collapseWs, hdb, hrec, isWsB, isWsC]
        simpa [isWsC] using hd

theorem collapseRNT_eq {s : Str} (h : tidy s) : collapseRNT s = s := by
  induction s with
  | nil => rfl
  | cons c rest ih =>
    cases rest with
    | nil =>
      have hc : ¬ isWsC c := h
      have hc' : ¬ isRntC c := by
        intro hr
        exact hc (by rcases hr with h1 | h1 | h1 <;> simp [isWsC, h1])
      simp [collapseRNT, isRntB, hc']
    | cons d rest' =>
      obtain ⟨hcd, ht⟩ := h
      have hrec := ih ht
      have hc' : ¬ isRntC c := by
        intro hr
        have hw : isWsC c := by rcases hr with h1 | h1 | h1 <;> simp [isWsC, h1]
        rcases hcd with hc | ⟨hc32, _⟩
        · exact hc hw
        · subst hc32
          rcases hr with h1 | h1 | h1 <;> omega
      simp [collapseRNT, isRntB, hc', hrec]

theorem collapseSp2_eq {s : Str} (h : tidy s) : collapseSp2 s = s := by
  induction s with
  | nil => rfl
  | cons c rest ih =>
    cases rest with
    | nil => rfl
    | cons d rest' =>
      obtain ⟨hcd, ht⟩ := h
      have hrec := ih ht
      have hnot : ¬ (c = 32 ∧ d = 32) := by
        rintro ⟨h1, h2⟩
        rcases hcd with hc | ⟨_, hd⟩
        · exact hc (by simp [isWsC, h1])
        · exact hd (by simp [isWsC, h2])
      by_cases hc32 : c = 32
      · have hd32 : d ≠ 32 := fun h2 => hnot ⟨hc32, h2⟩
        simp [collapseSp2, hc32, hd32, hrec]
      · simp [collapseSp2, hc32, hrec]

theorem tidy_getLast {s : Str} (h : tidy s) : ∀ c, s.getLast? = some c → ¬ isWsC c := by
  induction s with
  | nil => intro c hc; simp at hc
  | cons a rest ih =>
    cases rest with
    | nil =>
      intro c hc
      simp at hc
      subst hc
      exact h
    | cons d rest' =>
      intro c hc
      obtain ⟨_, ht⟩ := h
      exact ih ht c (by simpa using hc)

theorem stripStr_eq {s : Str} (h : tidy s) (hh : tidyHeadP s) : stripStr s = s := by
  have h1 : s.dropWhile isWsB = s := by
    cases s with
    | nil => rfl
    | cons a rest =>
      have ha : ¬ isWsC a := hh a rfl
      simp [List.dropWhile_cons, isWsB, ha]
  have h2 : s.reverse.dropWhile isWsB = s.reverse := by
    cases hrev : s.reverse with
    | nil => rfl
    | cons b rest' =>
      have hb : s.getLast? = some b := by
        rw [List.getLast?_eq_head?_reverse, hrev]
        rfl
      have hbw : ¬ isWsC b := tidy_getLast h b hb
      simp [List.dropWhile_cons, isWsB, hbw]
  unfold stripStr
  rw [h1, h2, List.reverse_reverse]

theorem cleanText_eq {s : Str} (h : tidy s) (hh : tidyHeadP s) : cleanText s = s := by
  unfold cleanText
  by_cases hs : s = []
  · simp [hs]
  · simp only [hs, if_false]
    rw [collapseWs_eq h, stripStr_eq h hh, collapseRNT_eq h, collapseSp2_eq h]

theorem dateLe_refl (a : Date) : dateLe a a := by
  unfold dateLe
  omega

theorem dateLe_trans {a b c : Date} (h1 : dateLe a b) (h2 : dateLe b c) : dateLe a c := by
  unfold dateLe at *
  omega

theorem dateLe_of_not_dateLt {a b : Date} (h : ¬ dateLt a b) : dateLe b a := by
  unfold dateLt at h
  unfold dateLe
  omega

theorem dateLe_of_dateLt {a b : Date} (h : dateLt a b) : dateLe a b := by
  unfold dateLt at h
  unfold dateLe
  omega

theorem dateLt_irrefl (a : Date) : ¬ dateLt a a := by
  unfold dateLt
  omega

/-- Claim C1 (code_bug side): on input where no date pattern matches, the
code substitutes the current date.  `parse_date("not a date")` returns
`datetime.now()`, and `extract_date_from_entry` on the same text returns
today rendered as `'%Y-%m-%d'` — neither returns an absent date as the spec
requires. -/
theorem parse_date_substitutes_now_on_unparseable :
    (∀ now : Date, parse_date (chars "not a date") now = now) ∧
    (∀ now : Date, extract_date_from_entry (chars "not a date") now = now) := by
  constructor
  · intro now
    have hne : chars "not a date" ≠ [] := by decide
    have h : tryPatterns (cleanText (chars "not a date")) = none := by decide
    simp [parse_date, hne, h]
  · intro now
    have h1 : searchWith matchIsoAt (chars "not a date") = none := by decide
    have h2 : searchWith matchSlash22At (chars "not a date") = none := by decide
    have h3 : searchWith (matchDMonthYAt monthsFull) (chars "not a date") = none := by decide
    have h4 : searchWith (matchMonthDYAt monthsFull) (chars "not a date") = none := by decide
    simp [extract_date_from_entry, h1, h2, h3, h4]

/-- Claim C2 (counterexample): a fragment with no `h1`-`h4`/`a` element is
dropped by the extraction loop even though the Relevance Classifier accepts
its text, so "returns none only when relevance fails" is false. -/
theorem extract_drops_titleless_relevant_fragment :
    extractRecord ⟨none, chars "Critical Magento security update", none, none, []⟩
        (chars "https://helpx.adobe.com/security.html") mainKeywords ⟨2025, 1, 1⟩ = none ∧
    isRelevantMain (chars "Critical Magento security update") mainKeywords = true := by
  exact ⟨rfl, by decide⟩

/-- Claim C2 (amended): the extraction loop returns none exactly when the
fragment has no title element or the keyword check rejects its text; a
missing date, description element, or item-level link never causes a drop. -/
theorem extractRecord_none_iff (frag : Fragment) (pageUrl : Str)
    (keywords : List Str) (now : Date) :
    extractRecord frag pageUrl keywords now = none ↔
      frag.titleText = none ∨ isRelevantMain frag.text keywords = false := by
  cases h : frag.titleText with
  | none => simp [extractRecord, h]
  | some tt =>
    by_cases hr : isRelevantMain frag.text keywords = true
    · simp [extractRecord, h, hr]
    · have hr' : isRelevantMain frag.text keywords = false := by
        cases hb : isRelevantMain frag.text keywords
        · rfl
        · exact absurd hb hr
      simp [extractRecord, h, hr']

theorem dedupAux_filter_eq (k : Str × Str) :
    ∀ (l : List Bulletin) (seen : List (Str × Str)),
      (dedupAux seen l).filter (fun b => decide (bulletinKey b = k)) =
        if k ∈ seen then [] else (l.find? (fun b => decide (bulletinKey b = k))).toList := by
  intro l
  induction l with
  | nil =>
    intro seen
    by_cases hk : k ∈ seen <;> simp [dedupAux, hk]
  | cons b rest ih =>
    intro seen
    by_cases hb : bulletinKey b ∈ seen
    · simp only [dedupAux, if_pos hb]
      rw [ih seen]
      by_cases hk : k ∈ seen
      · simp [hk]
      · have hne : bulletinKey b ≠ k := fun he => hk (he ▸ hb)
        simp [hk, List.find?_cons_of_neg, decide_eq_false hne]
    · simp only [dedupAux, if_neg hb]
      by_cases hkb : bulletinKey b = k
      · have hk : k ∉ seen := fun hin => hb (hkb ▸ hin)
        rw [List.filter_cons_of_pos (by simp [hkb]), ih]
        simp [hkb, List.find?_cons_of_pos, hk]
      · rw [List.filter_cons_of_neg (by simp [hkb]), ih]
        by_cases hk : k ∈ seen
        · have hk' : k ∈ bulletinKey b :: seen := List.mem_cons_of_mem _ hk
          simp [hk, hk']
        · have hk' : k ∉ bulletinKey b :: seen := by
            intro hin
            rcases List.mem_cons.mp hin with he | he
            · exact hkb he.symm
            · exact hk he
          simp [hk, hk', List.find?_cons, hkb]

theorem dedupAux_sublist :
    ∀ (l : List Bulletin) (seen : List (Str × Str)), (dedupAux seen l).Sublist l := by
  intro l
  induction l with
  | nil => intro seen; simp [dedupAux]
  | cons b rest ih =>
    intro seen
    by_cases hb : bulletinKey b ∈ seen
    · simp only [dedupAux, if_pos hb]
      exact (ih seen).cons b
    · simp only [dedupAux, if_neg hb]
      exact (ih _).cons₂ b

/-- Claim C6: `scrape_all_sources` deduplication keeps, for every identity
key `(title, link)`, exactly the first record of the input with that key, in
encounter order (the output is a sublist of the input, and its records with
a given key are exactly `find?` of the input). -/
theorem scrape_all_sources_dedup_first_occurrence :
    (∀ (l : List Bulletin) (k : Str × Str),
      (dedupBulletins l).filter (fun b => decide (bulletinKey b = k)) =
        (l.find? (fun b => decide (bulletinKey b = k))).toList) ∧
    (∀ l : List Bulletin, (dedupBulletins l).Sublist l) := by
  constructor
  · intro l k
    have h := dedupAux_filter_eq k l []
    simpa [dedupBulletins] using h
  · intro l
    exact dedupAux_sublist l []

theorem filterWindowAux_mem {fromD toD : Date} :
    ∀ (l : List Entry) (seen : List Str) (e : Entry),
      e ∈ filterWindowAux fromD toD seen l →
      ∃ d, e.date = some d ∧ dateLe fromD d ∧ dateLe d toD := by
  intro l
  induction l with
  | nil =>
    intro seen e he
    simp [filterWindowAux] at he
  | cons a rest ih =>
    intro seen e he
    cases ha : a.date with
    | none =>
      simp only [filterWindowAux, ha] at he
      exact ih seen e he
    | some d =>
      simp only [filterWindowAux, ha] at he
      by_cases hr : dateInRange fromD toD d
      · simp only [hr, Bool.not_true, Bool.false_eq_true, if_false] at he
        by_cases hs : a.link ∈ seen
        · rw [if_pos hs] at he
          exact ih seen e he
        · rw [if_neg hs] at he
          rcases List.mem_cons.mp he with he1 | he1
          · subst he1
            have hd := of_decide_eq_true hr
            exact ⟨d, ha, hd.1, hd.2⟩
          · exact ih _ e he1
      · have hr' : dateInRange fromD toD d = false := by
          cases hb : dateInRange fromD toD d
          · rfl
          · exact absurd hb hr
        simp only [hr', Bool.not_false, if_true] at he
        exact ih seen e he

/-- Claim C7: the date-window filter of `filter_and_print` has inclusive
bounds and drops dateless records: every surviving record has a date inside
`[from, to]`; a single record dated exactly at a bound survives; records one
day outside either bound of the window [2025-03-10, 2025-03-20] are dropped;
a dateless record is always dropped. -/
theorem filter_and_print_window_semantics :
    (∀ (fromD toD : Date) (seen : List Str) (l : List Entry) (e : Entry),
        e ∈ filterWindowAux fromD toD seen l →
        ∃ d, e.date = some d ∧ dateLe fromD d ∧ dateLe d toD) ∧
    (∀ (fromD toD : Date) (e : Entry) (d : Date),
        e.date = some d → dateLe fromD d → dateLe d toD →
        filterWindow fromD toD [e] = [e]) ∧
    (filterWindow ⟨2025, 3, 10⟩ ⟨2025, 3, 20⟩
        [⟨some ⟨2025, 3, 9⟩, chars "t", chars "l"⟩] = []) ∧
    (filterWindow ⟨2025, 3, 10⟩ ⟨2025, 3, 20⟩
        [⟨some ⟨2025, 3, 21⟩, chars "t", chars "l"⟩] = []) ∧
    (∀ (fromD toD : Date) (e : Entry), e.date = none →
        filterWindow fromD toD [e] = []) := by
  refine ⟨?_, ?_, by decide, by decide, ?_⟩
  · intro fromD toD seen l e he
    exact filterWindowAux_mem l seen e he
  · intro fromD toD e d hd h1 h2
    have hr : dateInRange fromD toD d = true := decide_eq_true ⟨h1, h2⟩
    simp [filterWindow, filterWindowAux, hd, hr]
  · intro fromD toD e hd
    simp [filterWindow, filterWindowAux, hd]

/-- Witness for C7: a record dated exactly on the lower bound is included. -/
theorem filter_window_witness :
    filterWindow ⟨2025, 3, 10⟩ ⟨2025, 3, 20⟩
        [⟨some ⟨2025, 3, 10⟩, chars "t", chars "l"⟩] =
      [⟨some ⟨2025, 3, 10⟩, chars "t", chars "l"⟩] :=
  filter_and_print_window_semantics.2.1 ⟨2025, 3, 10⟩ ⟨2025, 3, 20⟩
    ⟨some ⟨2025, 3, 10⟩, chars "t", chars "l"⟩ ⟨2025, 3, 10⟩ rfl
    (by decide) (by decide)

theorem retryGo_unfold {α : Type} (oracle : Nat → Option α) (maxRetries attempt : Nat) :
    retryGo oracle maxRetries attempt =
      match oracle attempt with
      | some r => some r
      | none =>
        if attempt < maxRetries then retryGo oracle maxRetries (attempt + 1) else none := by
  rw [retryGo]

theorem retryGo_all_fail {α : Type} (oracle : Nat → Option α) (maxRetries : Nat) :
    ∀ (fuel attempt : Nat), maxRetries - attempt ≤ fuel → attempt ≤ maxRetries →
      (∀ i, attempt ≤ i → i ≤ maxRetries → oracle i = none) →
      retryGo oracle maxRetries attempt = none := by
  intro fuel
  induction fuel with
  | zero =>
    intro attempt hf ha h
    rw [retryGo_unfold, h attempt le_rfl ha]
    show (if attempt < maxRetries then retryGo oracle maxRetries (attempt + 1) else none) = none
    rw [if_neg (by omega)]
  | succ n ih =>
    intro attempt hf ha h
    rw [retryGo_unfold, h attempt le_rfl ha]
    show (if attempt < maxRetries then retryGo oracle maxRetries (attempt + 1) else none) = none
    by_cases hlt : attempt < maxRetries
    · rw [if_pos hlt]
      exact ih (attempt + 1) (by omega) (by omega) (fun i h1 h2 => h i (by omega) h2)
    · rw [if_neg hlt]

theorem retryGo_first_success {α : Type} (oracle : Nat → Option α)
    (maxRetries : Nat) (r : α) :
    ∀ (fuel attempt i : Nat), maxRetries - attempt ≤ fuel → attempt ≤ i →
      i ≤ maxRetries → oracle i = some r →
      (∀ j, attempt ≤ j → j < i → oracle j = none) →
      retryGo oracle maxRetries attempt = some r := by
  intro fuel
  induction fuel with
  | zero =>
    intro attempt i hf h1 h2 hi hj
    have heq : attempt = i := by omega
    subst heq
    rw [retryGo_unfold, hi]
  | succ n ih =>
    intro attempt i hf h1 h2 hi hj
    by_cases heq : attempt = i
    · subst heq
      rw [retryGo_unfold, hi]
    · have hlt : attempt < i := by omega
      rw [retryGo_unfold, hj attempt le_rfl hlt]
      show (if attempt < maxRetries then retryGo oracle maxRetries (attempt + 1) else none) = some r
      rw [if_pos (by omega)]
      exact ih (attempt + 1) i (by omega) (by omega) h2 hi
        (fun j hj1 hj2 => hj j (by omega) hj2)

theorem retryGo_ext {α : Type} (o o' : Nat → Option α) (maxRetries : Nat) :
    ∀ (fuel attempt : Nat), maxRetries - attempt ≤ fuel → attempt ≤ maxRetries →
      (∀ i, attempt ≤ i → i ≤ maxRetries → o i = o' i) →
      retryGo o maxRetries attempt = retryGo o' maxRetries attempt := by
  intro fuel
  induction fuel with
  | zero =>
    intro attempt hf ha h
    rw [retryGo_unfold o maxRetries attempt, retryGo_unfold o' maxRetries attempt,
      h attempt le_rfl ha]
    cases o' attempt with
    | some r => rfl
    | none =>
      show (if attempt < maxRetries then retryGo o maxRetries (attempt + 1) else none) =
        (if attempt < maxRetries then retryGo o' maxRetries (attempt + 1) else none)
      rw [if_neg (by omega), if_neg (by omega)]
  | succ n ih =>
    intro attempt hf ha h
    rw [retryGo_unfold o maxRetries attempt, retryGo_unfold o' maxRetries attempt,
      h attempt le_rfl ha]
    cases o' attempt with
    | some r => rfl
    | none =>
      show (if attempt < maxRetries then retryGo o maxRetries (attempt + 1) else none) =
        (if attempt < maxRetries then retryGo o' maxRetries (attempt + 1) else none)
      by_cases hlt : attempt < maxRetries
      · rw [if_pos hlt, if_pos hlt]
        exact ih (attempt + 1) (by omega) (by omega) (fun i h1 h2 => h i (by omega) h2)
      · rw [if_neg hlt, if_neg hlt]

/-- Claim C10: `retry_request` returns the response of the first successful
attempt; when every attempt in `0..max_retries` fails it returns `None`
instead of raising; and its result depends only on the outcomes of attempts
`0..max_retries` — it never performs more than `max_retries + 1` attempts. -/
theorem retry_request_behavior :
    (∀ (α : Type) (oracle : Nat → Option α) (maxRetries i : Nat) (r : α),
        i ≤ maxRetries → oracle i = some r → (∀ j, j < i → oracle j = none) →
        retry_request oracle maxRetries = some r) ∧
    (∀ (α : Type) (oracle : Nat → Option α) (maxRetries : Nat),
        (∀ i, i ≤ maxRetries → oracle i = none) →
        retry_request oracle maxRetries = none) ∧
    (∀ (α : Type) (o o' : Nat → Option α) (maxRetries : Nat),
        (∀ i, i ≤ maxRetries → o i = o' i) →
        retry_request o maxRetries = retry_request o' maxRetries) := by
  refine ⟨?_, ?_, ?_⟩
  · intro α oracle maxRetries i r hi hr hj
    exact retryGo_first_success oracle maxRetries r maxRetries 0 i (by omega)
      (by omega) hi hr (fun j _ h2 => hj j h2)
  · intro α oracle maxRetries h
    exact retryGo_all_fail oracle maxRetries maxRetries 0 (by omega) (by omega)
      (fun i _ h2 => h i h2)
  · intro α o o' maxRetries h
    exact retryGo_ext o o' maxRetries maxRetries 0 (by omega) (by omega)
      (fun i _ h2 => h i h2)

/-- Witness for C10: with an oracle failing on attempt 0 and succeeding on
attempt 1 under `max_retries = 2`, the first success is returned. -/
theorem retry_request_witness : retry_request witnessOracle 2 = some 7 :=
  retry_request_behavior.1 Nat witnessOracle 2 1 7 (by omega) rfl
    (by
      intro j hj
      interval_cases j
      rfl)

theorem lowerC_32 : lowerC 32 = 32 := by decide

theorem lowerC_eq_32 (c : Nat) : lowerC c = 32 ↔ c = 32 := by
  unfold lowerC
  split <;> omega

theorem isWsB_lowerC (c : Nat) : isWsB (lowerC c) = isWsB c := by
  unfold lowerC
  split
  · have h1 : isWsB (c + 32) = false := by
      simp [isWsB, isWsC]
      omega
    have h2 : isWsB c = false := by
      simp [isWsB, isWsC]
      omega
    rw [h1, h2]
  · rfl

theorem isRntB_lowerC (c : Nat) : isRntB (lowerC c) = isRntB c := by
  unfold lowerC
  split
  · have h1 : isRntB (c + 32) = false := by
      have hn : ¬ isRntC (c + 32) := by unfold isRntC; omega
      simp [isRntB, hn]
    have h2 : isRntB c = false := by
      have hn : ¬ isRntC c := by unfold isRntC; omega
      simp [isRntB, hn]
    rw [h1, h2]
  · rfl

theorem collapseWs_map_lowerC : ∀ s : Str, collapseWs (s.map lowerC) = (collapseWs s).map lowerC := by
  intro s
  induction s with
  | nil => rfl
  | cons c rest ih =>
    cases rest with
    | nil =>
      simp only [List.map_cons, List.map_nil, collapseWs, isWsB_lowerC]
      by_cases hc : isWsB c = true
      · simp [hc, lowerC_32]
      · simp [hc]
    | cons d rest' =>
      simp only [List.map_cons] at ih ⊢
      simp only [collapseWs, isWsB_lowerC, ih]
      by_cases hc : isWsB c = true <;> by_cases hd : isWsB d = true <;>
        simp [hc, hd, lowerC_32]

theorem collapseRNT_map_lowerC : ∀ s : Str, collapseRNT (s.map lowerC) = (collapseRNT s).map lowerC := by
  intro s
  induction s with
  | nil => rfl
  | cons c rest ih =>
    cases rest with
    | nil =>
      simp only [List.map_cons, List.map_nil, collapseRNT, isRntB_lowerC]
      by_cases hc : isRntB c = true
      · simp [hc, lowerC_32]
      · simp [hc]
    | cons d rest' =>
      simp only [List.map_cons] at ih ⊢
      simp only [collapseRNT, isRntB_lowerC, ih]
      by_cases hc : isRntB c = true <;> by_cases hd : isRntB d = true <;>
        simp [hc, hd, lowerC_32]

theorem collapseSp2_map_lowerC : ∀ s : Str, collapseSp2 (s.map lowerC) = (collapseSp2 s).map lowerC := by
  intro s
  induction s with
  | nil => rfl
  | cons c rest ih =>
    cases rest with
    | nil => rfl
    | cons d rest' =>
      simp only [List.map_cons] at ih ⊢
      simp only [collapseSp2, lowerC_eq_32, ih]
      by_cases hc : c = 32 <;> by_cases hd : d = 32 <;>
        simp [hc, hd, lowerC_eq_32, lowerC_32]

theorem dropWhile_isWsB_map_lowerC (s : Str) :
    (s.map lowerC).dropWhile isWsB = (s.dropWhile isWsB).map lowerC := by
  induction s with
  | nil => rfl
  | cons c rest ih =>
    simp only [List.map_cons, List.dropWhile_cons, isWsB_lowerC]
    by_cases hc : isWsB c = true
    · simp [hc, ih]
    · simp [hc]

theorem stripStr_map_lowerC (s : Str) : stripStr (s.map lowerC) = (stripStr s).map lowerC := by
  unfold stripStr
  rw [dropWhile_isWsB_map_lowerC, ← List.map_reverse, dropWhile_isWsB_map_lowerC,
    ← List.map_reverse]

theorem cleanText_map_lowerC (s : Str) : cleanText (s.map lowerC) = (cleanText s).map lowerC := by
  unfold cleanText
  by_cases hs : s = []
  · simp [hs]
  · have hs' : s.map lowerC ≠ [] := by simpa using hs
    rw [if_neg hs', if_neg hs, collapseWs_map_lowerC, stripStr_map_lowerC,
      collapseRNT_map_lowerC, collapseSp2_map_lowerC]

/-- Claim C3 (counterexample): the main extractor's relevance check examines
only the fragment text, so a keyword occurring only in the link is missed;
the claimed rule (text OR link) says this input is relevant. -/
theorem relevance_link_keyword_not_detected :
    isRelevantMain (chars "weekly digest") [chars "magento"] = false ∧
    specIsRelevant (chars "weekly digest")
      (chars "https://helpx.adobe.com/security/products/magento.html")
      [chars "magento"] := by
  exact ⟨by decide, by decide⟩

/-- Claim C3 (amended): the main relevance check is true iff some keyword of
`K` is a case-insensitive substring of the cleaned fragment text (the link
plays no part), and its result is unchanged under any change of letter case
in the keywords. -/
theorem relevance_main_characterization :
    (∀ (text : Str) (K : List Str),
        isRelevantMain text K = true ↔ ∃ k ∈ K, ciSubstr k (cleanText text)) ∧
    (∀ (text : Str) (K K' : List Str),
        K.map (fun k => k.map lowerC) = K'.map (fun k => k.map lowerC) →
        isRelevantMain text K = isRelevantMain text K') := by
  constructor
  · intro text K
    unfold isRelevantMain ciSubstr
    rw [List.any_eq_true, cleanText_map_lowerC]
  · intro text K K' hKK
    have h1 : ∀ L : List Str, isRelevantMain text L =
        (L.map (fun k => k.map lowerC)).any
          (fun lk => containsSub lk (cleanText (text.map lowerC))) := by
      intro L
      unfold isRelevantMain
      rw [List.any_map]
      rfl
    rw [h1 K, h1 K', hKK]

/-- Witness for C3: the amended case-stability conjunct at a concrete input. -/
theorem relevance_case_stability_witness :
    isRelevantMain (chars "A Magento bulletin") [chars "MAGENTO"] =
      isRelevantMain (chars "A Magento bulletin") [chars "magento"] :=
  relevance_main_characterization.2 (chars "A Magento bulletin")
    [chars "MAGENTO"] [chars "magento"] (by decide)

/-- Claim C4 (counterexample): resolving an empty href against
`https://x.com/c` yields `https://x.com/c/` — the base with a trailing slash
appended — not the base URL itself as the claim states. -/
theorem resolve_empty_href_not_base :
    gpt41ResolveLink [] (chars "https://x.com/c") = chars "https://x.com/c/" ∧
    gpt41ResolveLink [] (chars "https://x.com/c") ≠ chars "https://x.com/c" := by
  exact ⟨by decide, by decide⟩

/-- Claim C4 (amended): an href starting with `http` is returned unchanged;
an href starting with `/` is concatenated with the scheme+host of the base
(so `resolve("/a/b", "https://x.com/c") = "https://x.com/a/b"`); a relative
path joins against the base; but an empty href yields the base stripped of
trailing slashes plus `/`, not the base itself. -/
theorem gpt41_resolve_characterization :
    (∀ href url : Str, startsWith (chars "http") href = true →
        gpt41ResolveLink href url = href) ∧
    (∀ href url : Str, startsWith [47] href = true →
        gpt41ResolveLink href url = urlRoot url ++ href) ∧
    (gpt41ResolveLink (chars "/a/b") (chars "https://x.com/c") = chars "https://x.com/a/b") ∧
    (∀ url : Str, gpt41ResolveLink [] url = rstripSlash url ++ [47]) ∧
    (gpt41ResolveLink (chars "rel/path") (chars "https://x.com/c/") =
      chars "https://x.com/c/rel/path") := by
  refine ⟨?_, ?_, by decide, ?_, by decide⟩
  · intro href url h
    cases href with
    | nil => simp [startsWith, chars, List.isPrefixOf] at h
    | cons c rest =>
      have hc : c = 104 := by
        simp [startsWith, chars, List.isPrefixOf] at h
        omega
      have h47 : startsWith [47] (c :: rest) = false := by
        simp [startsWith, List.isPrefixOf, hc]
      simp [gpt41ResolveLink, h47, h]
  · intro href url h
    simp [gpt41ResolveLink, h]
  · intro url
    have h1 : startsWith [47] ([] : Str) = false := by decide
    have h2 : startsWith (chars "http") ([] : Str) = false := by decide
    simp [gpt41ResolveLink, h1, h2]

/-- Witness for C4: the scheme-preserving and slash-resolving conjuncts at
concrete inputs. -/
theorem gpt41_resolve_witness :
    gpt41ResolveLink (chars "https://y.com/z") (chars "https://x.com/c") =
      chars "https://y.com/z" ∧
    gpt41ResolveLink (chars "/a/b") (chars "https://x.com/c") =
      urlRoot (chars "https://x.com/c") ++ chars "/a/b" :=
  ⟨gpt41_resolve_characterization.1 (chars "https://y.com/z")
      (chars "https://x.com/c") (by decide),
    gpt41_resolve_characterization.2.1 (chars "/a/b")
      (chars "https://x.com/c") (by decide)⟩

/-- Claim C5 (counterexample): an href that is a relative path without a
leading slash leaves the main extractor unresolved — the record's link has
no scheme, so it is not a syntactically absolute URL. -/
theorem main_extractor_link_not_absolute :
    mainResolveLink (some (chars "rel/path"))
        (chars "https://helpx.adobe.com/security.html") = chars "rel/path" ∧
    ¬ specAbsUrl (mainResolveLink (some (chars "rel/path"))
        (chars "https://helpx.adobe.com/security.html")) := by
  exact ⟨by decide, by decide⟩

/-- Claim C5 (amended): the record link of the main extractor is absolute
whenever the fragment has no href, an empty href, an href starting with `/`,
or an href that is itself absolute (given an absolute page URL); a relative
path without a leading slash escapes unresolved. -/
theorem main_extractor_link_absolute_cases :
    ∀ (href : Option Str) (pageUrl : Str), specAbsUrl pageUrl →
      (href = none ∨ href = some [] ∨
        (∃ h, href = some h ∧ (startsWith [47] h = true ∨
          startsWith (chars "http://") h = true ∨
          startsWith (chars "https://") h = true))) →
      specAbsUrl (mainResolveLink href pageUrl) := by
  intro href pageUrl hp hcases
  rcases hcases with h | h | ⟨h, hh, hcase⟩
  · subst h
    simpa [mainResolveLink] using hp
  · subst h
    have h47 : startsWith [47] ([] : Str) = false := by decide
    simpa [mainResolveLink, h47] using hp
  · subst hh
    rcases hcase with hc | hc | hc
    · have hne : chars "https://helpx.adobe.com" ++ h ≠ [] := by simp [chars]
      have habs : startsWith (chars "https://") (chars "https://helpx.adobe.com" ++ h) = true := rfl
      simp [mainResolveLink, hc, hne, specAbsUrl, habs]
    · cases h with
      | nil => simp [startsWith, chars, List.isPrefixOf] at hc
      | cons c rest =>
        have hcc : c = 104 := by
          simp [startsWith, chars, List.isPrefixOf] at hc
          omega
        have h47 : startsWith [47] (c :: rest) = false := by
          simp [startsWith, List.isPrefixOf, hcc]
        simp [mainResolveLink, h47, specAbsUrl, hc]
    · cases h with
      | nil => simp [startsWith, chars, List.isPrefixOf] at hc
      | cons c rest =>
        have hcc : c = 104 := by
          simp [startsWith, chars, List.isPrefixOf] at hc
          omega
        have h47 : startsWith [47] (c :: rest) = false := by
          simp [startsWith, List.isPrefixOf, hcc]
        simp [mainResolveLink, h47, specAbsUrl, hc]

/-- Witness for C5: a slash-rooted href resolves to an absolute link. -/
theorem main_extractor_link_witness :
    specAbsUrl (mainResolveLink (some (chars "/security/apsb25-08.html"))
      (chars "https://helpx.adobe.com/security.html")) :=
  main_extractor_link_absolute_cases (some (chars "/security/apsb25-08.html"))
    (chars "https://helpx.adobe.com/security.html") (by decide)
    (Or.inr (Or.inr ⟨chars "/security/apsb25-08.html", rfl, Or.inl (by decide)⟩))

theorem sortKeys_error_iff (now : Date) :
    ∀ bs : List BulletinV,
      sortKeys now bs = Except.error () ↔ ∃ b ∈ bs, ∃ d, b.date = DateVal.dt d := by
  intro bs
  induction bs with
  | nil => simp [sortKeys]
  | cons b rest ih =>
    cases hb : b.date with
    | dt d =>
      have hs : sortKeys now (b :: rest) = Except.error () := by
        simp [sortKeys, parse_date_val, hb]
      rw [hs]
      exact ⟨fun _ => ⟨b, List.mem_cons_self b rest, d, hb⟩, fun _ => rfl⟩
    | str s =>
      cases hrest : sortKeys now rest with
      | error e =>
        cases e
        have hs : sortKeys now (b :: rest) = Except.error () := by
          simp [sortKeys, parse_date_val, hb, hrest]
        rw [hs]
        constructor
        · intro _
          obtain ⟨x, hx, hd⟩ := ih.mp hrest
          exact ⟨x, List.mem_cons_of_mem b hx, hd⟩
        · intro _
          rfl
      | ok ps =>
        have hs : sortKeys now (b :: rest)
            = Except.ok ((b, parse_date s now) :: ps) := by
          simp [sortKeys, parse_date_val, hb, hrest]
        rw [hs]
        constructor
        · intro h
          exact absurd h (by simp)
        · rintro ⟨x, hx, d, hd⟩
          rcases List.mem_cons.mp hx with hxb | hxr
          · subst hxb
            rw [hb] at hd
            exact DateVal.noConfusion hd
          · have herr := ih.mpr ⟨x, hxr, d, hd⟩
            rw [hrest] at herr
            exact Except.noConfusion herr

theorem sortKeys_ok (now : Date) :
    ∀ (bs : List BulletinV) (ps : List (BulletinV × Date)),
      sortKeys now bs = Except.ok ps →
      ps = bs.map (fun b => (b, storedKey now b)) := by
  intro bs
  induction bs with
  | nil =>
    intro ps h
    simp only [sortKeys, Except.ok.injEq] at h
    simp [← h]
  | cons b rest ih =>
    intro ps h
    cases hb : b.date with
    | dt d =>
      have hs : sortKeys now (b :: rest) = Except.error () := by
        simp [sortKeys, parse_date_val, hb]
      rw [hs] at h
      exact Except.noConfusion h
    | str s =>
      cases hrest : sortKeys now rest with
      | error e =>
        cases e
        have hs : sortKeys now (b :: rest) = Except.error () := by
          simp [sortKeys, parse_date_val, hb, hrest]
        rw [hs] at h
        exact Except.noConfusion h
      | ok qs =>
        have hs : sortKeys now (b :: rest)
            = Except.ok ((b, parse_date s now) :: qs) := by
          simp [sortKeys, parse_date_val, hb, hrest]
        rw [hs] at h
        simp only [Except.ok.injEq] at h
        have hk : storedKey now b = parse_date s now := by
          unfold storedKey
          rw [hb]
        rw [← h, List.map_cons, ← ih qs hrest, hk]

theorem mem_keyed_map {now : Date} {bs : List BulletinV} {x : BulletinV × Date}
    (hx : x ∈ bs.map (fun b => (b, storedKey now b))) : x.2 = storedKey now x.1 := by
  obtain ⟨b, _, hb⟩ := List.mem_map.mp hx
  rw [← hb]

theorem map_fst_keyed (now : Date) :
    ∀ bs : List BulletinV, (bs.map (fun b => (b, storedKey now b))).map Prod.fst = bs := by
  intro bs
  induction bs with
  | nil => rfl
  | cons b rest ih => simp [ih]

theorem insertDescK_mem (p x : BulletinV × Date) :
    ∀ l, x ∈ insertDescK p l ↔ x = p ∨ x ∈ l := by
  intro l
  induction l with
  | nil => simp [insertDescK]
  | cons q rest ih =>
    by_cases hlt : dateLt p.2 q.2
    · simp only [insertDescK, if_pos hlt, List.mem_cons, ih]
      tauto
    · simp [insertDescK, if_neg hlt, List.mem_cons]

theorem sortDescK_mem (x : BulletinV × Date) :
    ∀ l, x ∈ sortDescK l ↔ x ∈ l := by
  intro l
  induction l with
  | nil => simp [sortDescK]
  | cons p rest ih =>
    simp [sortDescK, insertDescK_mem, ih]

theorem insertDescK_pairwise (p : BulletinV × Date) :
    ∀ l, l.Pairwise (fun x y => dateLe y.2 x.2) →
      (insertDescK p l).Pairwise (fun x y => dateLe y.2 x.2) := by
  intro l
  induction l with
  | nil =>
    intro _
    simp [insertDescK]
  | cons q rest ih =>
    intro h
    rw [List.pairwise_cons] at h
    obtain ⟨hq, hrest⟩ := h
    by_cases hlt : dateLt p.2 q.2
    · simp only [insertDescK, if_pos hlt]
      rw [List.pairwise_cons]
      refine ⟨?_, ih hrest⟩
      intro x hx
      rcases (insertDescK_mem p x rest).mp hx with hxp | hxr
      · subst hxp
        exact dateLe_of_dateLt hlt
      · exact hq x hxr
    · simp only [insertDescK, if_neg hlt]
      rw [List.pairwise_cons]
      refine ⟨?_, ?_⟩
      · intro x hx
        rcases List.mem_cons.mp hx with hxq | hxr
        · subst hxq
          exact dateLe_of_not_dateLt hlt
        · exact dateLe_trans (hq x hxr) (dateLe_of_not_dateLt hlt)
      · rw [List.pairwise_cons]
        exact ⟨hq, hrest⟩

theorem insertDescK_filter (p : BulletinV × Date) (k : Date) :
    ∀ l, (insertDescK p l).filter (fun x => decide (x.2 = k)) =
      if p.2 = k then p :: l.filter (fun x => decide (x.2 = k))
      else l.filter (fun x => decide (x.2 = k)) := by
  intro l
  induction l with
  | nil =>
    by_cases hp : p.2 = k <;> simp [insertDescK, List.filter, hp]
  | cons q rest ih =>
    by_cases hlt : dateLt p.2 q.2
    · simp only [insertDescK, if_pos hlt]
      by_cases hp : p.2 = k
      · have hqk : q.2 ≠ k := by
          intro hqq
          rw [hp, hqq] at hlt
          exact dateLt_irrefl k hlt
        rw [List.filter_cons_of_neg (by simp [hqk]), ih, if_pos hp, if_pos hp,
          List.filter_cons_of_neg (by simp [hqk])]
      · by_cases hqk : q.2 = k
        · rw [List.filter_cons_of_pos (by simp [hqk]), ih, if_neg hp, if_neg hp,
            List.filter_cons_of_pos (by simp [hqk])]
        · rw [List.filter_cons_of_neg (by simp [hqk]), ih, if_neg hp, if_neg hp,
            List.filter_cons_of_neg (by simp [hqk])]
    · simp only [insertDescK, if_neg hlt]
      by_cases hp : p.2 = k
      · rw [List.filter_cons_of_pos (by simp [hp]), if_pos hp]
      · rw [List.filter_cons_of_neg (by simp [hp]), if_neg hp]

theorem sortDescK_pairwise :
    ∀ l : List (BulletinV × Date),
      (sortDescK l).Pairwise (fun x y => dateLe y.2 x.2) := by
  intro l
  induction l with
  | nil => simp [sortDescK]
  | cons p rest ih => exact insertDescK_pairwise p (sortDescK rest) ih

theorem sortDescK_filter (k : Date) :
    ∀ l : List (BulletinV × Date),
      (sortDescK l).filter (fun x => decide (x.2 = k)) =
        l.filter (fun x => decide (x.2 = k)) := by
  intro l
  induction l with
  | nil => simp [sortDescK]
  | cons p rest ih =>
    simp only [sortDescK]
    rw [insertDescK_filter, ih]
    by_cases hp : p.2 = k
    · rw [if_pos hp, List.filter_cons_of_pos (by simp [hp])]
    · rw [if_neg hp, List.filter_cons_of_neg (by simp [hp])]

theorem pairwise_key_transfer (now : Date) :
    ∀ l : List (BulletinV × Date), (∀ x ∈ l, x.2 = storedKey now x.1) →
      l.Pairwise (fun x y => dateLe y.2 x.2) →
      (l.map Prod.fst).Pairwise
        (fun x y => dateLe (storedKey now y) (storedKey now x)) := by
  intro l
  induction l with
  | nil =>
    intro _ _
    simp
  | cons p rest ih =>
    intro hinv h
    rw [List.pairwise_cons] at h
    obtain ⟨hp, hrest⟩ := h
    rw [List.map_cons, List.pairwise_cons]
    constructor
    · intro y hy
      obtain ⟨q, hq, hqy⟩ := List.mem_map.mp hy
      have h1 : p.2 = storedKey now p.1 := hinv p (List.mem_cons_self p rest)
      have h2 : q.2 = storedKey now q.1 := hinv q (List.mem_cons_of_mem p hq)
      rw [← hqy, ← h1, ← h2]
      exact hp q hq
    · exact ih (fun x hx => hinv x (List.mem_cons_of_mem p hx)) hrest

theorem filter_map_fst (now k : Date) :
    ∀ l : List (BulletinV × Date), (∀ x ∈ l, x.2 = storedKey now x.1) →
      (l.map Prod.fst).filter (fun b => decide (storedKey now b = k)) =
        (l.filter (fun x => decide (x.2 = k))).map Prod.fst := by
  intro l
  induction l with
  | nil =>
    intro _
    simp
  | cons p rest ih =>
    intro h
    have hp : p.2 = storedKey now p.1 := h p (List.mem_cons_self p rest)
    have hrest := ih (fun x hx => h x (List.mem_cons_of_mem p hx))
    by_cases hk : storedKey now p.1 = k
    · rw [List.map_cons, List.filter_cons_of_pos (by simp [hk]),
        List.filter_cons_of_pos (by simp [hp, hk]), List.map_cons, hrest]
    · rw [List.map_cons, List.filter_cons_of_neg (by simp [hk]),
        List.filter_cons_of_neg (by simp [hp, hk]), hrest]

/-- Claim C8 (amended): the report sort raises `TypeError` exactly when some
record's stored date is a `datetime` object — the case whenever
`extract_date_from_entry` matched a date in the entry text — and produces no
output at all; when every stored date is a string the sort succeeds and its
output is a stable descending sort by the parsed date: every pair of the
output is date-descending, and for each date value the records carrying it
keep their input order and multiplicity (filtering output and input by any
date agree), the record fields untouched. -/
theorem generate_report_sort_typed (now : Date) (bs : List BulletinV) :
    (generate_markdown_report_sorted now bs = Except.error ()
      ↔ ∃ b ∈ bs, ∃ d, b.date = DateVal.dt d)
    ∧ ∀ out, generate_markdown_report_sorted now bs = Except.ok out →
        out.Pairwise (fun x y => dateLe (storedKey now y) (storedKey now x))
        ∧ ∀ k : Date, out.filter (fun x => decide (storedKey now x = k))
            = bs.filter (fun x => decide (storedKey now x = k)) := by
  constructor
  · cases hsk : sortKeys now bs with
    | error e =>
      cases e
      have hs : generate_markdown_report_sorted now bs = Except.error () := by
        simp [generate_markdown_report_sorted, hsk]
      rw [hs]
      exact ⟨fun _ => (sortKeys_error_iff now bs).mp hsk, fun _ => rfl⟩
    | ok ps =>
      have hs : generate_markdown_report_sorted now bs
          = Except.ok ((sortDescK ps).map Prod.fst) := by
        simp [generate_markdown_report_sorted, hsk]
      rw [hs]
      constructor
      · intro h
        exact absurd h (by simp)
      · intro hex
        have herr := (sortKeys_error_iff now bs).mpr hex
        rw [hsk] at herr
        exact Except.noConfusion herr
  · intro out hout
    cases hsk : sortKeys now bs with
    | error e =>
      cases e
      have hs : generate_markdown_report_sorted now bs = Except.error () := by
        simp [generate_markdown_report_sorted, hsk]
      rw [hs] at hout
      exact Except.noConfusion hout
    | ok ps =>
      have hs : generate_markdown_report_sorted now bs
          = Except.ok ((sortDescK ps).map Prod.fst) := by
        simp [generate_markdown_report_sorted, hsk]
      rw [hs] at hout
      simp only [Except.ok.injEq] at hout
      have hps := sortKeys_ok now bs ps hsk
      subst hps
      subst hout
      have hinvsorted : ∀ x ∈ sortDescK (bs.map (fun b => (b, storedKey now b))),
          x.2 = storedKey now x.1 := by
        intro x hx
        exact mem_keyed_map ((sortDescK_mem x _).mp hx)
      refine ⟨?_, ?_⟩
      · exact pairwise_key_transfer now _ hinvsorted (sortDescK_pairwise _)
      · intro k
        rw [filter_map_fst now k _ hinvsorted, sortDescK_filter,
          ← filter_map_fst now k _ (fun x hx => mem_keyed_map hx), map_fst_keyed]

/-- Claim C8, counterexample to the claimed order: on the claim's three
records dated 2025-03-01, 2025-01-10, 2025-02-20 — stored as the pipeline
stores them, as `datetime` objects, which is what `extract_date_from_entry`
produces whenever it matches a date in the entry text (second conjunct) —
the sort of `generate_markdown_report` raises `TypeError` instead of
producing any output order. -/
theorem generate_report_sort_raises_typeerror :
    generate_markdown_report_sorted ⟨2026, 10, 12⟩ [exMar, exJan, exFeb]
      = Except.error ()
    ∧ extract_date_value (chars "Posted 2025-03-01") ⟨2026, 10, 12⟩
      = DateVal.dt ⟨2025, 3, 1⟩ := by
  exact ⟨rfl, by decide⟩

/-- Concrete run of the no-`TypeError` branch of the amended sort theorem:
three string-dated records are accepted and come back pairwise
date-descending. -/
theorem generate_report_sort_typed_witness :
    exStrOut.Pairwise (fun x y =>
      dateLe (storedKey ⟨2026, 10, 12⟩ y) (storedKey ⟨2026, 10, 12⟩ x)) :=
  ((generate_report_sort_typed ⟨2026, 10, 12⟩ exStrRecs).2 exStrOut rfl).1

theorem digitC_mod (k : Nat) : isDigitC (48 + k % 10) := by
  unfold isDigitC
  omega

theorem not_isWsC_of_digit {c : Nat} (h : isDigitC c) : ¬ isWsC c := by
  unfold isDigitC at h
  unfold isWsC
  omega

theorem tidy_of_all_nonws : ∀ s : Str, (∀ c ∈ s, ¬ isWsC c) → tidy s := by
  intro s
  induction s with
  | nil => intro _; trivial
  | cons c rest ih =>
    intro h
    cases rest with
    | nil => exact h c (by simp)
    | cons d rest' =>
      refine ⟨Or.inl (h c (by simp)), ?_⟩
      exact ih (fun x hx => h x (List.mem_cons_of_mem c hx))

theorem tidyHeadP_cons {c : Nat} {s : Str} (hc : ¬ isWsC c) : tidyHeadP (c :: s) := by
  intro x hx
  simp at hx
  subst hx
  exact hc

theorem tidy_cons32 {s : Str} (hs : tidy s) (hh : tidyHeadP s) (hne : s ≠ []) :
    tidy (32 :: s) := by
  cases s with
  | nil => exact absurd rfl hne
  | cons d rest =>
    exact ⟨Or.inr ⟨rfl, hh d rfl⟩, hs⟩

theorem tidy_join : ∀ xs : Str, xs ≠ [] → (∀ c ∈ xs, ¬ isWsC c) →
    ∀ ys : Str, tidy ys → tidyHeadP ys → ys ≠ [] → tidy (xs ++ 32 :: ys) := by
  intro xs
  induction xs with
  | nil => intro h; exact absurd rfl h
  | cons x xs' ih =>
    intro _ hnw ys hty htyh hyne
    cases xs' with
    | nil =>
      show tidy (x :: 32 :: ys)
      cases ys with
      | nil => exact absurd rfl hyne
      | cons d rest =>
        exact ⟨Or.inl (hnw x (by simp)), tidy_cons32 hty htyh hyne⟩
    | cons x' xs'' =>
      refine ⟨Or.inl (hnw x (by simp)), ?_⟩
      exact ih (by simp) (fun c hc => hnw c (List.mem_cons_of_mem x hc)) ys hty htyh hyne

theorem searchWith_cons_none {m : Str → Option Nat} {c : Nat} {rest : Str}
    (h : m (c :: rest) = none) : searchWith m (c :: rest) = searchWith m rest := by
  simp [searchWith, h]

theorem searchWith_cons_some {m : Str → Option Nat} {c : Nat} {rest : Str} {n : Nat}
    (h : m (c :: rest) = some n) :
    searchWith m (c :: rest) = some ((c :: rest).take n) := by
  simp [searchWith, h]

theorem ciPrefix_letter_digit {p c : Nat}
    (hp : (65 ≤ p ∧ p ≤ 90) ∨ (97 ≤ p ∧ p ≤ 122)) (hc : isDigitC c)
    (ps cs : Str) : ciPrefix (p :: ps) (c :: cs) = false := by
  have hne : ¬ (lowerC p = lowerC c) := by
    rw [lowerC_digit hc]
    unfold lowerC
    unfold isDigitC at hc
    split <;> omega
  simp [ciPrefix, hne]

theorem monthFromPrefix_digit_head {c : Nat} (hc : isDigitC c) :
    ∀ table : List (Str × Nat),
      (∀ p ∈ table, ∃ hd tl, p.1 = hd :: tl ∧
        ((65 ≤ hd ∧ hd ≤ 90) ∨ (97 ≤ hd ∧ hd ≤ 122))) →
      ∀ r : Str, monthFromPrefix table (c :: r) = none := by
  intro table
  induction table with
  | nil => intro _ r; rfl
  | cons p ps ih =>
    intro hall r
    obtain ⟨name, num⟩ := p
    obtain ⟨hd, tl, hp1, hhd⟩ := hall (name, num) (List.mem_cons_self _ _)
    simp only at hp1
    subst hp1
    simp only [monthFromPrefix, ciPrefix_letter_digit hhd hc, Bool.false_eq_true, if_false]
    exact ih (fun q hq => hall q (List.mem_cons_of_mem _ hq)) r

theorem monthsFull_heads : ∀ p ∈ monthsFull, ∃ hd tl, p.1 = hd :: tl ∧
    ((65 ≤ hd ∧ hd ≤ 90) ∨ (97 ≤ hd ∧ hd ≤ 122)) := by
  intro p hp
  fin_cases hp <;> exact ⟨_, _, rfl, by decide⟩

theorem monthsAbbr_heads : ∀ p ∈ monthsAbbr, ∃ hd tl, p.1 = hd :: tl ∧
    ((65 ≤ hd ∧ hd ≤ 90) ∨ (97 ≤ hd ∧ hd ≤ 122)) := by
  intro p hp
  fin_cases hp <;> exact ⟨_, _, rfl, by decide⟩

theorem matchMonthDY_full_digit {c : Nat} (hc : isDigitC c) (r : Str) :
    matchMonthDYAt monthsFull (c :: r) = none := by
  simp [matchMonthDYAt, monthFromPrefix_digit_head hc monthsFull monthsFull_heads r]

theorem matchMonthDY_abbr_digit {c : Nat} (hc : isDigitC c) (r : Str) :
    matchMonthDYAt monthsAbbr (c :: r) = none := by
  simp [matchMonthDYAt, monthFromPrefix_digit_head hc monthsAbbr monthsAbbr_heads r]

theorem matchMonthDY_full_space (r : Str) : matchMonthDYAt monthsFull (32 :: r) = none := rfl

theorem matchMonthDY_abbr_space (r : Str) : matchMonthDYAt monthsAbbr (32 :: r) = none := rfl

theorem spaces1_32 {c : Nat} (hc : isWsB c = false) (r : Str) :
    spaces1 (32 :: c :: r) = some (1, c :: r) := by
  have h32 : isWsB 32 = true := by decide
  simp [spaces1, h32, List.takeWhile_cons, List.dropWhile_cons, hc]

theorem matchMonthDY_after_month {table : List (Str × Nat)} {num len : Nat} {s : Str}
    {y1 y2 y3 y4 : Nat} (h1 : isDigitC y1) (h2 : isDigitC y2) (h3 : isDigitC y3)
    (h4 : isDigitC y4)
    (hm : monthFromPrefix table s = some (num, len, 32 :: y1 :: y2 :: y3 :: y4 :: [])) :
    matchMonthDYAt table s = none := by
  have h344 : ¬ (y3 = 44) := by unfold isDigitC at h3; omega
  have h244 : ¬ (y2 = 44) := by unfold isDigitC at h2; omega
  have hsp3 : spaces1 (y3 :: y4 :: []) = none := by
    simp [spaces1, isWsB_digit h3]
  have hsp2 : spaces1 (y2 :: y3 :: y4 :: []) = none := by
    simp [spaces1, isWsB_digit h2]
  simp only [matchMonthDYAt, hm, spaces1_32 (isWsB_digit h1), digits12,
    isDigitB_eq_true h1, isDigitB_eq_true h2, if_true, optComma, h244, h344,
    if_false, hsp3, hsp2]

theorem matchDMonthY_at_start {table : List (Str × Nat)} {num len hd : Nat} {tl : Str}
    {D1 D2 y1 y2 y3 y4 : Nat} (hD1 : isDigitC D1) (hD2 : isDigitC D2)
    (h1 : isDigitC y1) (h2 : isDigitC y2) (h3 : isDigitC y3) (h4 : isDigitC y4)
    (hhd : isWsB hd = false)
    (hm : monthFromPrefix table (hd :: tl) = some (num, len, 32 :: y1 :: y2 :: y3 :: y4 :: [])) :
    matchDMonthYAt table (D1 :: D2 :: 32 :: hd :: tl) = some (2 + 1 + len + 1 + 4) := by
  have hex : exactDigits 4 (y1 :: y2 :: y3 :: y4 :: []) = some [] := by
    show exactDigits (3 + 1) (y1 :: y2 :: y3 :: y4 :: []) = some []
    rw [exactDigits, isDigitB_eq_true h1, if_pos rfl]
    show exactDigits (2 + 1) (y2 :: y3 :: y4 :: []) = some []
    rw [exactDigits, isDigitB_eq_true h2, if_pos rfl]
    show exactDigits (1 + 1) (y3 :: y4 :: []) = some []
    rw [exactDigits, isDigitB_eq_true h3, if_pos rfl]
    show exactDigits (0 + 1) (y4 :: []) = some []
    rw [exactDigits, isDigitB_eq_true h4, if_pos rfl]
    rfl
  simp only [matchDMonthYAt, digits12, isDigitB_eq_true hD1, isDigitB_eq_true hD2,
    if_true, spaces1_32 hhd, hm, spaces1_32 (isWsB_digit h1), hex]

theorem matchIsoAt_none {s : Str} (h : ∀ c ∈ s, c ≠ 45) : matchIsoAt s = none := by
  rcases s with _ | ⟨c1, _ | ⟨c2, _ | ⟨c3, _ | ⟨c4, _ | ⟨c5, _ | ⟨c6, _ | ⟨c7, _ |
    ⟨c8, _ | ⟨c9, _ | ⟨c10, rest⟩⟩⟩⟩⟩⟩⟩⟩⟩⟩ <;> try rfl
  have h5 : ¬ (c5 = 45) := h c5 (by simp)
  simp [matchIsoAt, h5]

theorem matchSlash22At_none {s : Str} (h : ∀ c ∈ s, c ≠ 47) : matchSlash22At s = none := by
  rcases s with _ | ⟨c1, _ | ⟨c2, _ | ⟨c3, _ | ⟨c4, _ | ⟨c5, _ | ⟨c6, _ | ⟨c7, _ |
    ⟨c8, _ | ⟨c9, _ | ⟨c10, rest⟩⟩⟩⟩⟩⟩⟩⟩⟩⟩ <;> try rfl
  have h3 : ¬ (c3 = 47) := h c3 (by simp)
  simp [matchSlash22At, h3]

theorem matchShape22_none {s : Str} (h : ∀ c ∈ s, c ≠ 47) : matchShape22 s = none := by
  rcases s with _ | ⟨c1, _ | ⟨c2, _ | ⟨c3, _ | ⟨c4, _ | ⟨c5, _ | ⟨c6, _ | ⟨c7, _ |
    ⟨c8, _ | ⟨c9, _ | ⟨c10, rest⟩⟩⟩⟩⟩⟩⟩⟩⟩⟩ <;> try rfl
  have h3 : ¬ (c3 = 47) := h c3 (by simp)
  simp [matchShape22, h3]

theorem matchShape21_none {s : Str} (h : ∀ c ∈ s, c ≠ 47) : matchShape21 s = none := by
  rcases s with _ | ⟨c1, _ | ⟨c2, _ | ⟨c3, _ | ⟨c4, _ | ⟨c5, _ | ⟨c6, _ | ⟨c7, _ |
    ⟨c8, _ | ⟨c9, rest⟩⟩⟩⟩⟩⟩⟩⟩⟩ <;> try rfl
  have h3 : ¬ (c3 = 47) := h c3 (by simp)
  simp [matchShape21, h3]

theorem matchShape12_none {s : Str} (h : ∀ c ∈ s, c ≠ 47) : matchShape12 s = none := by
  rcases s with _ | ⟨c1, _ | ⟨c2, _ | ⟨c3, _ | ⟨c4, _ | ⟨c5, _ | ⟨c6, _ | ⟨c7, _ |
    ⟨c8, _ | ⟨c9, rest⟩⟩⟩⟩⟩⟩⟩⟩⟩ <;> try rfl
  have h2 : ¬ (c2 = 47) := h c2 (by simp)
  simp [matchShape12, h2]

theorem matchShape11_none {s : Str} (h : ∀ c ∈ s, c ≠ 47) : matchShape11 s = none := by
  rcases s with _ | ⟨c1, _ | ⟨c2, _ | ⟨c3, _ | ⟨c4, _ | ⟨c5, _ | ⟨c6, _ | ⟨c7, _ |
    ⟨c8, rest⟩⟩⟩⟩⟩⟩⟩⟩ <;> try rfl
  have h2 : ¬ (c2 = 47) := h c2 (by simp)
  simp [matchShape11, h2]

theorem matchSlash12At_none {s : Str} (h : ∀ c ∈ s, c ≠ 47) : matchSlash12At s = none := by
  simp [matchSlash12At, matchShape22_none h, matchShape21_none h, matchShape12_none h,
    matchShape11_none h, Option.orElse]

theorem searchIso_none {s : Str} (h : ∀ c ∈ s, c ≠ 45) : searchWith matchIsoAt s = none := by
  induction s with
  | nil => rfl
  | cons c rest ih =>
    rw [searchWith_cons_none (matchIsoAt_none h)]
    exact ih (fun x hx => h x (List.mem_cons_of_mem c hx))

theorem searchSlash22_none {s : Str} (h : ∀ c ∈ s, c ≠ 47) :
    searchWith matchSlash22At s = none := by
  induction s with
  | nil => rfl
  | cons c rest ih =>
    rw [searchWith_cons_none (matchSlash22At_none h)]
    exact ih (fun x hx => h x (List.mem_cons_of_mem c hx))

theorem searchSlash12_none {s : Str} (h : ∀ c ∈ s, c ≠ 47) :
    searchWith matchSlash12At s = none := by
  induction s with
  | nil => rfl
  | cons c rest ih =>
    rw [searchWith_cons_none (matchSlash12At_none h)]
    exact ih (fun x hx => h x (List.mem_cons_of_mem c hx))

theorem matchIsoAt_at {a1 a2 a3 a4 m1 m2 d1 d2 : Nat} (h1 : isDigitC a1)
    (h2 : isDigitC a2) (h3 : isDigitC a3) (h4 : isDigitC a4) (h5 : isDigitC m1)
    (h6 : isDigitC m2) (h7 : isDigitC d1) (h8 : isDigitC d2) (rest : Str) :
    matchIsoAt (a1 :: a2 :: a3 :: a4 :: 45 :: m1 :: m2 :: 45 :: d1 :: d2 :: rest) =
      some 10 := by
  simp [matchIsoAt, isDigitB_eq_true h1, isDigitB_eq_true h2, isDigitB_eq_true h3,
    isDigitB_eq_true h4, isDigitB_eq_true h5, isDigitB_eq_true h6,
    isDigitB_eq_true h7, isDigitB_eq_true h8]

theorem matchSlash22At_at {m1 m2 d1 d2 a1 a2 a3 a4 : Nat} (h1 : isDigitC m1)
    (h2 : isDigitC m2) (h3 : isDigitC d1) (h4 : isDigitC d2) (h5 : isDigitC a1)
    (h6 : isDigitC a2) (h7 : isDigitC a3) (h8 : isDigitC a4) (rest : Str) :
    matchSlash22At (m1 :: m2 :: 47 :: d1 :: d2 :: 47 :: a1 :: a2 :: a3 :: a4 :: rest) =
      some 10 := by
  simp [matchSlash22At, isDigitB_eq_true h1, isDigitB_eq_true h2, isDigitB_eq_true h3,
    isDigitB_eq_true h4, isDigitB_eq_true h5, isDigitB_eq_true h6,
    isDigitB_eq_true h7, isDigitB_eq_true h8]

theorem removeCommas_eq_self {s : Str} (h : ∀ c ∈ s, c ≠ 44) : removeCommas s = s := by
  unfold removeCommas
  induction s with
  | nil => rfl
  | cons c rest ih =>
    rw [List.filter_cons_of_pos (by simp [h c (List.mem_cons_self c rest)]),
      ih (fun x hx => h x (List.mem_cons_of_mem c hx))]

theorem take12val_two {a b : Nat} (ha : isDigitC a) (hb : isDigitC b) (r : Str) :
    take12val (a :: b :: r) = some (digitVal a * 10 + digitVal b, r) := by
  simp [take12val, isDigitB_eq_true ha, isDigitB_eq_true hb]

theorem exact4val_four {a b c d : Nat} (ha : isDigitC a) (hb : isDigitC b)
    (hc : isDigitC c) (hd : isDigitC d) (r : Str) :
    exact4val (a :: b :: c :: d :: r) =
      some (((digitVal a * 10 + digitVal b) * 10 + digitVal c) * 10 + digitVal d, r) := by
  simp [exact4val, isDigitB_eq_true ha, isDigitB_eq_true hb, isDigitB_eq_true hc,
    isDigitB_eq_true hd]

theorem expectC_eq (ch : Nat) (r : Str) : expectC ch (ch :: r) = some r := by
  simp [expectC]

theorem daysInMonth_le (y m : Nat) : daysInMonth y m ≤ 31 := by
  unfold daysInMonth
  split
  · split <;> omega
  · split <;> omega

theorem strpYmd_pads {y m d : Nat} (hv : validDate y m d) :
    strpYmd ((48 + y / 1000 % 10) :: (48 + y / 100 % 10) :: (48 + y / 10 % 10) ::
      (48 + y % 10) :: 45 :: (48 + m / 10 % 10) :: (48 + m % 10) :: 45 ::
      (48 + d / 10 % 10) :: (48 + d % 10) :: []) = some ⟨y, m, d⟩ := by
  have hy : y ≤ 9999 := hv.2.1
  have hm : m ≤ 12 := hv.2.2.2.1
  have hd : d ≤ 31 := le_trans hv.2.2.2.2.2 (daysInMonth_le y m)
  have hYval : ((digitVal (48 + y / 1000 % 10) * 10 + digitVal (48 + y / 100 % 10)) * 10 +
      digitVal (48 + y / 10 % 10)) * 10 + digitVal (48 + y % 10) = y := by
    unfold digitVal
    omega
  have hMval : digitVal (48 + m / 10 % 10) * 10 + digitVal (48 + m % 10) = m := by
    unfold digitVal
    omega
  have hDval : digitVal (48 + d / 10 % 10) * 10 + digitVal (48 + d % 10) = d := by
    unfold digitVal
    omega
  simp only [strpYmd, exact4val_four (digitC_mod _) (digitC_mod _) (digitC_mod _)
    (digitC_mod _), expectC_eq, take12val_two (digitC_mod _) (digitC_mod _)]
  rw [hYval, hMval, hDval, if_pos ⟨trivial, hv⟩]

theorem strpMdY_pads {y m d : Nat} (hv : validDate y m d) :
    strpMdY ((48 + m / 10 % 10) :: (48 + m % 10) :: 47 :: (48 + d / 10 % 10) ::
      (48 + d % 10) :: 47 :: (48 + y / 1000 % 10) :: (48 + y / 100 % 10) ::
      (48 + y / 10 % 10) :: (48 + y % 10) :: []) = some ⟨y, m, d⟩ := by
  have hy : y ≤ 9999 := hv.2.1
  have hm : m ≤ 12 := hv.2.2.2.1
  have hd : d ≤ 31 := le_trans hv.2.2.2.2.2 (daysInMonth_le y m)
  have hYval : ((digitVal (48 + y / 1000 % 10) * 10 + digitVal (48 + y / 100 % 10)) * 10 +
      digitVal (48 + y / 10 % 10)) * 10 + digitVal (48 + y % 10) = y := by
    unfold digitVal
    omega
  have hMval : digitVal (48 + m / 10 % 10) * 10 + digitVal (48 + m % 10) = m := by
    unfold digitVal
    omega
  have hDval : digitVal (48 + d / 10 % 10) * 10 + digitVal (48 + d % 10) = d := by
    unfold digitVal
    omega
  simp only [strpMdY, take12val_two (digitC_mod _) (digitC_mod _), expectC_eq,
    exact4val_four (digitC_mod _) (digitC_mod _) (digitC_mod _) (digitC_mod _)]
  rw [hYval, hMval, hDval, if_pos ⟨trivial, hv⟩]

theorem strpDBY_compute {table : List (Str × Nat)} {mo len hd : Nat} {tl : Str}
    {y dv : Nat} (hhd : isWsB hd = false)
    (hm : monthFromPrefix table (hd :: tl) = some (mo, len, 32 ::
      (48 + y / 1000 % 10) :: (48 + y / 100 % 10) :: (48 + y / 10 % 10) ::
      (48 + y % 10) :: []))
    (hv : validDate y mo dv) :
    strpDBY table ((48 + dv / 10 % 10) :: (48 + dv % 10) :: 32 :: hd :: tl) =
      some ⟨y, mo, dv⟩ := by
  have hy : y ≤ 9999 := hv.2.1
  have hdv : dv ≤ 31 := le_trans hv.2.2.2.2.2 (daysInMonth_le y mo)
  have hYval : ((digitVal (48 + y / 1000 % 10) * 10 + digitVal (48 + y / 100 % 10)) * 10 +
      digitVal (48 + y / 10 % 10)) * 10 + digitVal (48 + y % 10) = y := by
    unfold digitVal
    omega
  have hDval : digitVal (48 + dv / 10 % 10) * 10 + digitVal (48 + dv % 10) = dv := by
    unfold digitVal
    omega
  simp only [strpDBY, take12val_two (digitC_mod _) (digitC_mod _), spaces1_32 hhd,
    hm, spaces1_32 (isWsB_digit (digitC_mod (y / 1000))),
    exact4val_four (digitC_mod _) (digitC_mod _) (digitC_mod _) (digitC_mod _)]
  rw [hYval, hDval, if_pos ⟨trivial, hv⟩]

theorem p4_none_january {D1 D2 y1 y2 y3 y4 : Nat} (hD1 : isDigitC D1) (hD2 : isDigitC D2)
    (h1 : isDigitC y1) (h2 : isDigitC y2) (h3 : isDigitC y3) (h4 : isDigitC y4) :
    searchWith (matchMonthDYAt monthsFull) (D1 :: D2 :: 32 :: 74 :: 97 :: 110 :: 117 :: 97 :: 114 :: 121 :: 32 :: y1 :: y2 :: y3 :: y4 :: []) = none := by
  have hstart : matchMonthDYAt monthsFull (74 :: 97 :: 110 :: 117 :: 97 :: 114 :: 121 :: 32 :: y1 :: y2 :: y3 :: y4 :: []) = none :=
    matchMonthDY_after_month h1 h2 h3 h4 rfl
  have hin1 : matchMonthDYAt monthsFull (97 :: 110 :: 117 :: 97 :: 114 :: 121 :: 32 :: y1 :: y2 :: y3 :: y4 :: []) = none := rfl
  have hin2 : matchMonthDYAt monthsFull (110 :: 117 :: 97 :: 114 :: 121 :: 32 :: y1 :: y2 :: y3 :: y4 :: []) = none := rfl
  have hin3 : matchMonthDYAt monthsFull (117 :: 97 :: 114 :: 121 :: 32 :: y1 :: y2 :: y3 :: y4 :: []) = none := rfl
  have hin4 : matchMonthDYAt monthsFull (97 :: 114 :: 121 :: 32 :: y1 :: y2 :: y3 :: y4 :: []) = none := rfl
  have hin5 : matchMonthDYAt monthsFull (114 :: 121 :: 32 :: y1 :: y2 :: y3 :: y4 :: []) = none := rfl
  have hin6 : matchMonthDYAt monthsFull (121 :: 32 :: y1 :: y2 :: y3 :: y4 :: []) = none := rfl
  rw [searchWith_cons_none (matchMonthDY_full_digit hD1 _),
    searchWith_cons_none (matchMonthDY_full_digit hD2 _),
    searchWith_cons_none (matchMonthDY_full_space _),
    searchWith_cons_none hstart,
    searchWith_cons_none hin1,
    searchWith_cons_none hin2,
    searchWith_cons_none hin3,
    searchWith_cons_none hin4,
    searchWith_cons_none hin5,
    searchWith_cons_none hin6,
    searchWith_cons_none (matchMonthDY_full_space _),
    searchWith_cons_none (matchMonthDY_full_digit h1 _),
    searchWith_cons_none (matchMonthDY_full_digit h2 _),
    searchWith_cons_none (matchMonthDY_full_digit h3 _),
    searchWith_cons_none (matchMonthDY_full_digit h4 _)]
  rfl

theorem p5_none_january {D1 D2 y1 y2 y3 y4 : Nat} (hD1 : isDigitC D1) (hD2 : isDigitC D2)
    (h1 : isDigitC y1) (h2 : isDigitC y2) (h3 : isDigitC y3) (h4 : isDigitC y4) :
    searchWith (matchMonthDYAt monthsAbbr) (D1 :: D2 :: 32 :: 74 :: 97 :: 110 :: 117 :: 97 :: 114 :: 121 :: 32 :: y1 :: y2 :: y3 :: y4 :: []) = none := by
  have hstart : matchMonthDYAt monthsAbbr (74 :: 97 :: 110 :: 117 :: 97 :: 114 :: 121 :: 32 :: y1 :: y2 :: y3 :: y4 :: []) = none :=
    rfl
  have hin1 : matchMonthDYAt monthsAbbr (97 :: 110 :: 117 :: 97 :: 114 :: 121 :: 32 :: y1 :: y2 :: y3 :: y4 :: []) = none := rfl
  have hin2 : matchMonthDYAt monthsAbbr (110 :: 117 :: 97 :: 114 :: 121 :: 32 :: y1 :: y2 :: y3 :: y4 :: []) = none := rfl
  have hin3 : matchMonthDYAt monthsAbbr (117 :: 97 :: 114 :: 121 :: 32 :: y1 :: y2 :: y3 :: y4 :: []) = none := rfl
  have hin4 : matchMonthDYAt monthsAbbr (97 :: 114 :: 121 :: 32 :: y1 :: y2 :: y3 :: y4 :: []) = none := rfl
  have hin5 : matchMonthDYAt monthsAbbr (114 :: 121 :: 32 :: y1 :: y2 :: y3 :: y4 :: []) = none := rfl
  have hin6 : matchMonthDYAt monthsAbbr (121 :: 32 :: y1 :: y2 :: y3 :: y4 :: []) = none := rfl
  rw [searchWith_cons_none (matchMonthDY_abbr_digit hD1 _),
    searchWith_cons_none (matchMonthDY_abbr_digit hD2 _),
    searchWith_cons_none (matchMonthDY_abbr_space _),
    searchWith_cons_none hstart,
    searchWith_cons_none hin1,
    searchWith_cons_none hin2,
    searchWith_cons_none hin3,
    searchWith_cons_none hin4,
    searchWith_cons_none hin5,
    searchWith_cons_none hin6,
    searchWith_cons_none (matchMonthDY_abbr_space _),
    searchWith_cons_none (matchMonthDY_abbr_digit h1 _),
    searchWith_cons_none (matchMonthDY_abbr_digit h2 _),
    searchWith_cons_none (matchMonthDY_abbr_digit h3 _),
    searchWith_cons_none (matchMonthDY_abbr_digit h4 _)]
  rfl

theorem p4_none_february {D1 D2 y1 y2 y3 y4 : Nat} (hD1 : isDigitC D1) (hD2 : isDigitC D2)
    (h1 : isDigitC y1) (h2 : isDigitC y2) (h3 : isDigitC y3) (h4 : isDigitC y4) :
    searchWith (matchMonthDYAt monthsFull) (D1 :: D2 :: 32 :: 70 :: 101 :: 98 :: 114 :: 117 :: 97 :: 114 :: 121 :: 32 :: y1 :: y2 :: y3 :: y4 :: []) = none := by
  have hstart : matchMonthDYAt monthsFull (70 :: 101 :: 98 :: 114 :: 117 :: 97 :: 114 :: 121 :: 32 :: y1 :: y2 :: y3 :: y4 :: []) = none :=
    matchMonthDY_after_month h1 h2 h3 h4 rfl
  have hin1 : matchMonthDYAt monthsFull (101 :: 98 :: 114 :: 117 :: 97 :: 114 :: 121 :: 32 :: y1 :: y2 :: y3 :: y4 :: []) = none := rfl
  have hin2 : matchMonthDYAt monthsFull (98 :: 114 :: 117 :: 97 :: 114 :: 121 :: 32 :: y1 :: y2 :: y3 :: y4 :: []) = none := rfl
  have hin3 : matchMonthDYAt monthsFull (114 :: 117 :: 97 :: 114 :: 121 :: 32 :: y1 :: y2 :: y3 :: y4 :: []) = none := rfl
  have hin4 : matchMonthDYAt monthsFull (117 :: 97 :: 114 :: 121 :: 32 :: y1 :: y2 :: y3 :: y4 :: []) = none := rfl
  have hin5 : matchMonthDYAt monthsFull (97 :: 114 :: 121 :: 32 :: y1 :: y2 :: y3 :: y4 :: []) = none := rfl
  have hin6 : matchMonthDYAt monthsFull (114 :: 121 :: 32 :: y1 :: y2 :: y3 :: y4 :: []) = none := rfl
  have hin7 : matchMonthDYAt monthsFull (121 :: 32 :: y1 :: y2 :: y3 :: y4 :: []) = none := rfl
  rw [searchWith_cons_none (matchMonthDY_full_digit hD1 _),
    searchWith_cons_none (matchMonthDY_full_digit hD2 _),
    searchWith_cons_none (matchMonthDY_full_space _),
    searchWith_cons_none hstart,
    searchWith_cons_none hin1,
    searchWith_cons_none hin2,
    searchWith_cons_none hin3,
    searchWith_cons_none hin4,
    searchWith_cons_none hin5,
    searchWith_cons_none hin6,
    searchWith_cons_none hin7,
    searchWith_cons_none (matchMonthDY_full_space _),
    searchWith_cons_none (matchMonthDY_full_digit h1 _),
    searchWith_cons_none (matchMonthDY_full_digit h2 _),
    searchWith_cons_none (matchMonthDY_full_digit h3 _),
    searchWith_cons_none (matchMonthDY_full_digit h4 _)]
  rfl

theorem p5_none_february {D1 D2 y1 y2 y3 y4 : Nat} (hD1 : isDigitC D1) (hD2 : isDigitC D2)
    (h1 : isDigitC y1) (h2 : isDigitC y2) (h3 : isDigitC y3) (h4 : isDigitC y4) :
    searchWith (matchMonthDYAt monthsAbbr) (D1 :: D2 :: 32 :: 70 :: 101 :: 98 :: 114 :: 117 :: 97 :: 114 :: 121 :: 32 :: y1 :: y2 :: y3 :: y4 :: []) = none := by
  have hstart : matchMonthDYAt monthsAbbr (70 :: 101 :: 98 :: 114 :: 117 :: 97 :: 114 :: 121 :: 32 :: y1 :: y2 :: y3 :: y4 :: []) = none :=
    rfl
  have hin1 : matchMonthDYAt monthsAbbr (101 :: 98 :: 114 :: 117 :: 97 :: 114 :: 121 :: 32 :: y1 :: y2 :: y3 :: y4 :: []) = none := rfl
  have hin2 : matchMonthDYAt monthsAbbr (98 :: 114 :: 117 :: 97 :: 114 :: 121 :: 32 :: y1 :: y2 :: y3 :: y4 :: []) = none := rfl
  have hin3 : matchMonthDYAt monthsAbbr (114 :: 117 :: 97 :: 114 :: 121 :: 32 :: y1 :: y2 :: y3 :: y4 :: []) = none := rfl
  have hin4 : matchMonthDYAt monthsAbbr (117 :: 97 :: 114 :: 121 :: 32 :: y1 :: y2 :: y3 :: y4 :: []) = none := rfl
  have hin5 : matchMonthDYAt monthsAbbr (97 :: 114 :: 121 :: 32 :: y1 :: y2 :: y3 :: y4 :: []) = none := rfl
  have hin6 : matchMonthDYAt monthsAbbr (114 :: 121 :: 32 :: y1 :: y2 :: y3 :: y4 :: []) = none := rfl
  have hin7 : matchMonthDYAt monthsAbbr (121 :: 32 :: y1 :: y2 :: y3 :: y4 :: []) = none := rfl
  rw [searchWith_cons_none (matchMonthDY_abbr_digit hD1 _),
    searchWith_cons_none (matchMonthDY_abbr_digit hD2 _),
    searchWith_cons_none (matchMonthDY_abbr_space _),
    searchWith_cons_none hstart,
    searchWith_cons_none hin1,
    searchWith_cons_none hin2,
    searchWith_cons_none hin3,
    searchWith_cons_none hin4,
    searchWith_cons_none hin5,
    searchWith_cons_none hin6,
    searchWith_cons_none hin7,
    searchWith_cons_none (matchMonthDY_abbr_space _),
    searchWith_cons_none (matchMonthDY_abbr_digit h1 _),
    searchWith_cons_none (matchMonthDY_abbr_digit h2 _),
    searchWith_cons_none (matchMonthDY_abbr_digit h3 _),
    searchWith_cons_none (matchMonthDY_abbr_digit h4 _)]
  rfl

theorem p4_none_march {D1 D2 y1 y2 y3 y4 : Nat} (hD1 : isDigitC D1) (hD2 : isDigitC D2)
    (h1 : isDigitC y1) (h2 : isDigitC y2) (h3 : isDigitC y3) (h4 : isDigitC y4) :
    searchWith (matchMonthDYAt monthsFull) (D1 :: D2 :: 32 :: 77 :: 97 :: 114 :: 99 :: 104 :: 32 :: y1 :: y2 :: y3 :: y4 :: []) = none := by
  have hstart : matchMonthDYAt monthsFull (77 :: 97 :: 114 :: 99 :: 104 :: 32 :: y1 :: y2 :: y3 :: y4 :: []) = none :=
    matchMonthDY_after_month h1 h2 h3 h4 rfl
  have hin1 : matchMonthDYAt monthsFull (97 :: 114 :: 99 :: 104 :: 32 :: y1 :: y2 :: y3 :: y4 :: []) = none := rfl
  have hin2 : matchMonthDYAt monthsFull (114 :: 99 :: 104 :: 32 :: y1 :: y2 :: y3 :: y4 :: []) = none := rfl
  have hin3 : matchMonthDYAt monthsFull (99 :: 104 :: 32 :: y1 :: y2 :: y3 :: y4 :: []) = none := rfl
  have hin4 : matchMonthDYAt monthsFull (104 :: 32 :: y1 :: y2 :: y3 :: y4 :: []) = none := rfl
  rw [searchWith_cons_none (matchMonthDY_full_digit hD1 _),
    searchWith_cons_none (matchMonthDY_full_digit hD2 _),
    searchWith_cons_none (matchMonthDY_full_space _),
    searchWith_cons_none hstart,
    searchWith_cons_none hin1,
    searchWith_cons_none hin2,
    searchWith_cons_none hin3,
    searchWith_cons_none hin4,
    searchWith_cons_none (matchMonthDY_full_space _),
    searchWith_cons_none (matchMonthDY_full_digit h1 _),
    searchWith_cons_none (matchMonthDY_full_digit h2 _),
    searchWith_cons_none (matchMonthDY_full_digit h3 _),
    searchWith_cons_none (matchMonthDY_full_digit h4 _)]
  rfl

theorem p5_none_march {D1 D2 y1 y2 y3 y4 : Nat} (hD1 : isDigitC D1) (hD2 : isDigitC D2)
    (h1 : isDigitC y1) (h2 : isDigitC y2) (h3 : isDigitC y3) (h4 : isDigitC y4) :
    searchWith (matchMonthDYAt monthsAbbr) (D1 :: D2 :: 32 :: 77 :: 97 :: 114 :: 99 :: 104 :: 32 :: y1 :: y2 :: y3 :: y4 :: []) = none := by
  have hstart : matchMonthDYAt monthsAbbr (77 :: 97 :: 114 :: 99 :: 104 :: 32 :: y1 :: y2 :: y3 :: y4 :: []) = none :=
    rfl
  have hin1 : matchMonthDYAt monthsAbbr (97 :: 114 :: 99 :: 104 :: 32 :: y1 :: y2 :: y3 :: y4 :: []) = none := rfl
  have hin2 : matchMonthDYAt monthsAbbr (114 :: 99 :: 104 :: 32 :: y1 :: y2 :: y3 :: y4 :: []) = none := rfl
  have hin3 : matchMonthDYAt monthsAbbr (99 :: 104 :: 32 :: y1 :: y2 :: y3 :: y4 :: []) = none := rfl
  have hin4 : matchMonthDYAt monthsAbbr (104 :: 32 :: y1 :: y2 :: y3 :: y4 :: []) = none := rfl
  rw [searchWith_cons_none (matchMonthDY_abbr_digit hD1 _),
    searchWith_cons_none (matchMonthDY_abbr_digit hD2 _),
    searchWith_cons_none (matchMonthDY_abbr_space _),
    searchWith_cons_none hstart,
    searchWith_cons_none hin1,
    searchWith_cons_none hin2,
    searchWith_cons_none hin3,
    searchWith_cons_none hin4,
    searchWith_cons_none (matchMonthDY_abbr_space _),
    searchWith_cons_none (matchMonthDY_abbr_digit h1 _),
    searchWith_cons_none (matchMonthDY_abbr_digit h2 _),
    searchWith_cons_none (matchMonthDY_abbr_digit h3 _),
    searchWith_cons_none (matchMonthDY_abbr_digit h4 _)]
  rfl

theorem p4_none_april {D1 D2 y1 y2 y3 y4 : Nat} (hD1 : isDigitC D1) (hD2 : isDigitC D2)
    (h1 : isDigitC y1) (h2 : isDigitC y2) (h3 : isDigitC y3) (h4 : isDigitC y4) :
    searchWith (matchMonthDYAt monthsFull) (D1 :: D2 :: 32 :: 65 :: 112 :: 114 :: 105 :: 108 :: 32 :: y1 :: y2 :: y3 :: y4 :: []) = none := by
  have hstart : matchMonthDYAt monthsFull (65 :: 112 :: 114 :: 105 :: 108 :: 32 :: y1 :: y2 :: y3 :: y4 :: []) = none :=
    matchMonthDY_after_month h1 h2 h3 h4 rfl
  have hin1 : matchMonthDYAt monthsFull (112 :: 114 :: 105 :: 108 :: 32 :: y1 :: y2 :: y3 :: y4 :: []) = none := rfl
  have hin2 : matchMonthDYAt monthsFull (114 :: 105 :: 108 :: 32 :: y1 :: y2 :: y3 :: y4 :: []) = none := rfl
  have hin3 : matchMonthDYAt monthsFull (105 :: 108 :: 32 :: y1 :: y2 :: y3 :: y4 :: []) = none := rfl
  have hin4 : matchMonthDYAt monthsFull (108 :: 32 :: y1 :: y2 :: y3 :: y4 :: []) = none := rfl
  rw [searchWith_cons_none (matchMonthDY_full_digit hD1 _),
    searchWith_cons_none (matchMonthDY_full_digit hD2 _),
    searchWith_cons_none (matchMonthDY_full_space _),
    searchWith_cons_none hstart,
    searchWith_cons_none hin1,
    searchWith_cons_none hin2,
    searchWith_cons_none hin3,
    searchWith_cons_none hin4,
    searchWith_cons_none (matchMonthDY_full_space _),
    searchWith_cons_none (matchMonthDY_full_digit h1 _),
    searchWith_cons_none (matchMonthDY_full_digit h2 _),
    searchWith_cons_none (matchMonthDY_full_digit h3 _),
    searchWith_cons_none (matchMonthDY_full_digit h4 _)]
  rfl

theorem p5_none_april {D1 D2 y1 y2 y3 y4 : Nat} (hD1 : isDigitC D1) (hD2 : isDigitC D2)
    (h1 : isDigitC y1) (h2 : isDigitC y2) (h3 : isDigitC y3) (h4 : isDigitC y4) :
    searchWith (matchMonthDYAt monthsAbbr) (D1 :: D2 :: 32 :: 65 :: 112 :: 114 :: 105 :: 108 :: 32 :: y1 :: y2 :: y3 :: y4 :: []) = none := by
  have hstart : matchMonthDYAt monthsAbbr (65 :: 112 :: 114 :: 105 :: 108 :: 32 :: y1 :: y2 :: y3 :: y4 :: []) = none :=
    rfl
  have hin1 : matchMonthDYAt monthsAbbr (112 :: 114 :: 105 :: 108 :: 32 :: y1 :: y2 :: y3 :: y4 :: []) = none := rfl
  have hin2 : matchMonthDYAt monthsAbbr (114 :: 105 :: 108 :: 32 :: y1 :: y2 :: y3 :: y4 :: []) = none := rfl
  have hin3 : matchMonthDYAt monthsAbbr (105 :: 108 :: 32 :: y1 :: y2 :: y3 :: y4 :: []) = none := rfl
  have hin4 : matchMonthDYAt monthsAbbr (108 :: 32 :: y1 :: y2 :: y3 :: y4 :: []) = none := rfl
  rw [searchWith_cons_none (matchMonthDY_abbr_digit hD1 _),
    searchWith_cons_none (matchMonthDY_abbr_digit hD2 _),
    searchWith_cons_none (matchMonthDY_abbr_space _),
    searchWith_cons_none hstart,
    searchWith_cons_none hin1,
    searchWith_cons_none hin2,
    searchWith_cons_none hin3,
    searchWith_cons_none hin4,
    searchWith_cons_none (matchMonthDY_abbr_space _),
    searchWith_cons_none (matchMonthDY_abbr_digit h1 _),
    searchWith_cons_none (matchMonthDY_abbr_digit h2 _),
    searchWith_cons_none (matchMonthDY_abbr_digit h3 _),
    searchWith_cons_none (matchMonthDY_abbr_digit h4 _)]
  rfl

theorem p4_none_may {D1 D2 y1 y2 y3 y4 : Nat} (hD1 : isDigitC D1) (hD2 : isDigitC D2)
    (h1 : isDigitC y1) (h2 : isDigitC y2) (h3 : isDigitC y3) (h4 : isDigitC y4) :
    searchWith (matchMonthDYAt monthsFull) (D1 :: D2 :: 32 :: 77 :: 97 :: 121 :: 32 :: y1 :: y2 :: y3 :: y4 :: []) = none := by
  have hstart : matchMonthDYAt monthsFull (77 :: 97 :: 121 :: 32 :: y1 :: y2 :: y3 :: y4 :: []) = none :=
    matchMonthDY_after_month h1 h2 h3 h4 rfl
  have hin1 : matchMonthDYAt monthsFull (97 :: 121 :: 32 :: y1 :: y2 :: y3 :: y4 :: []) = none := rfl
  have hin2 : matchMonthDYAt monthsFull (121 :: 32 :: y1 :: y2 :: y3 :: y4 :: []) = none := rfl
  rw [searchWith_cons_none (matchMonthDY_full_digit hD1 _),
    searchWith_cons_none (matchMonthDY_full_digit hD2 _),
    searchWith_cons_none (matchMonthDY_full_space _),
    searchWith_cons_none hstart,
    searchWith_cons_none hin1,
    searchWith_cons_none hin2,
    searchWith_cons_none (matchMonthDY_full_space _),
    searchWith_cons_none (matchMonthDY_full_digit h1 _),
    searchWith_cons_none (matchMonthDY_full_digit h2 _),
    searchWith_cons_none (matchMonthDY_full_digit h3 _),
    searchWith_cons_none (matchMonthDY_full_digit h4 _)]
  rfl

theorem p5_none_may {D1 D2 y1 y2 y3 y4 : Nat} (hD1 : isDigitC D1) (hD2 : isDigitC D2)
    (h1 : isDigitC y1) (h2 : isDigitC y2) (h3 : isDigitC y3) (h4 : isDigitC y4) :
    searchWith (matchMonthDYAt monthsAbbr) (D1 :: D2 :: 32 :: 77 :: 97 :: 121 :: 32 :: y1 :: y2 :: y3 :: y4 :: []) = none := by
  have hstart : matchMonthDYAt monthsAbbr (77 :: 97 :: 121 :: 32 :: y1 :: y2 :: y3 :: y4 :: []) = none :=
    matchMonthDY_after_month h1 h2 h3 h4 rfl
  have hin1 : matchMonthDYAt monthsAbbr (97 :: 121 :: 32 :: y1 :: y2 :: y3 :: y4 :: []) = none := rfl
  have hin2 : matchMonthDYAt monthsAbbr (121 :: 32 :: y1 :: y2 :: y3 :: y4 :: []) = none := rfl
  rw [searchWith_cons_none (matchMonthDY_abbr_digit hD1 _),
    searchWith_cons_none (matchMonthDY_abbr_digit hD2 _),
    searchWith_cons_none (matchMonthDY_abbr_space _),
    searchWith_cons_none hstart,
    searchWith_cons_none hin1,
    searchWith_cons_none hin2,
    searchWith_cons_none (matchMonthDY_abbr_space _),
    searchWith_cons_none (matchMonthDY_abbr_digit h1 _),
    searchWith_cons_none (matchMonthDY_abbr_digit h2 _),
    searchWith_cons_none (matchMonthDY_abbr_digit h3 _),
    searchWith_cons_none (matchMonthDY_abbr_digit h4 _)]
  rfl

theorem p4_none_june {D1 D2 y1 y2 y3 y4 : Nat} (hD1 : isDigitC D1) (hD2 : isDigitC D2)
    (h1 : isDigitC y1) (h2 : isDigitC y2) (h3 : isDigitC y3) (h4 : isDigitC y4) :
    searchWith (matchMonthDYAt monthsFull) (D1 :: D2 :: 32 :: 74 :: 117 :: 110 :: 101 :: 32 :: y1 :: y2 :: y3 :: y4 :: []) = none := by
  have hstart : matchMonthDYAt monthsFull (74 :: 117 :: 110 :: 101 :: 32 :: y1 :: y2 :: y3 :: y4 :: []) = none :=
    matchMonthDY_after_month h1 h2 h3 h4 rfl
  have hin1 : matchMonthDYAt monthsFull (117 :: 110 :: 101 :: 32 :: y1 :: y2 :: y3 :: y4 :: []) = none := rfl
  have hin2 : matchMonthDYAt monthsFull (110 :: 101 :: 32 :: y1 :: y2 :: y3 :: y4 :: []) = none := rfl
  have hin3 : matchMonthDYAt monthsFull (101 :: 32 :: y1 :: y2 :: y3 :: y4 :: []) = none := rfl
  rw [searchWith_cons_none (matchMonthDY_full_digit hD1 _),
    searchWith_cons_none (matchMonthDY_full_digit hD2 _),
    searchWith_cons_none (matchMonthDY_full_space _),
    searchWith_cons_none hstart,
    searchWith_cons_none hin1,
    searchWith_cons_none hin2,
    searchWith_cons_none hin3,
    searchWith_cons_none (matchMonthDY_full_space _),
    searchWith_cons_none (matchMonthDY_full_digit h1 _),
    searchWith_cons_none (matchMonthDY_full_digit h2 _),
    searchWith_cons_none (matchMonthDY_full_digit h3 _),
    searchWith_cons_none (matchMonthDY_full_digit h4 _)]
  rfl

theorem p5_none_june {D1 D2 y1 y2 y3 y4 : Nat} (hD1 : isDigitC D1) (hD2 : isDigitC D2)
    (h1 : isDigitC y1) (h2 : isDigitC y2) (h3 : isDigitC y3) (h4 : isDigitC y4) :
    searchWith (matchMonthDYAt monthsAbbr) (D1 :: D2 :: 32 :: 74 :: 117 :: 110 :: 101 :: 32 :: y1 :: y2 :: y3 :: y4 :: []) = none := by
  have hstart : matchMonthDYAt monthsAbbr (74 :: 117 :: 110 :: 101 :: 32 :: y1 :: y2 :: y3 :: y4 :: []) = none :=
    rfl
  have hin1 : matchMonthDYAt monthsAbbr (117 :: 110 :: 101 :: 32 :: y1 :: y2 :: y3 :: y4 :: []) = none := rfl
  have hin2 : matchMonthDYAt monthsAbbr (110 :: 101 :: 32 :: y1 :: y2 :: y3 :: y4 :: []) = none := rfl
  have hin3 : matchMonthDYAt monthsAbbr (101 :: 32 :: y1 :: y2 :: y3 :: y4 :: []) = none := rfl
  rw [searchWith_cons_none (matchMonthDY_abbr_digit hD1 _),
    searchWith_cons_none (matchMonthDY_abbr_digit hD2 _),
    searchWith_cons_none (matchMonthDY_abbr_space _),
    searchWith_cons_none hstart,
    searchWith_cons_none hin1,
    searchWith_cons_none hin2,
    searchWith_cons_none hin3,
    searchWith_cons_none (matchMonthDY_abbr_space _),
    searchWith_cons_none (matchMonthDY_abbr_digit h1 _),
    searchWith_cons_none (matchMonthDY_abbr_digit h2 _),
    searchWith_cons_none (matchMonthDY_abbr_digit h3 _),
    searchWith_cons_none (matchMonthDY_abbr_digit h4 _)]
  rfl

theorem p4_none_july {D1 D2 y1 y2 y3 y4 : Nat} (hD1 : isDigitC D1) (hD2 : isDigitC D2)
    (h1 : isDigitC y1) (h2 : isDigitC y2) (h3 : isDigitC y3) (h4 : isDigitC y4) :
    searchWith (matchMonthDYAt monthsFull) (D1 :: D2 :: 32 :: 74 :: 117 :: 108 :: 121 :: 32 :: y1 :: y2 :: y3 :: y4 :: []) = none := by
  have hstart : matchMonthDYAt monthsFull (74 :: 117 :: 108 :: 121 :: 32 :: y1 :: y2 :: y3 :: y4 :: []) = none :=
    matchMonthDY_after_month h1 h2 h3 h4 rfl
  have hin1 : matchMonthDYAt monthsFull (117 :: 108 :: 121 :: 32 :: y1 :: y2 :: y3 :: y4 :: []) = none := rfl
  have hin2 : matchMonthDYAt monthsFull (108 :: 121 :: 32 :: y1 :: y2 :: y3 :: y4 :: []) = none := rfl
  have hin3 : matchMonthDYAt monthsFull (121 :: 32 :: y1 :: y2 :: y3 :: y4 :: []) = none := rfl
  rw [searchWith_cons_none (matchMonthDY_full_digit hD1 _),
    searchWith_cons_none (matchMonthDY_full_digit hD2 _),
    searchWith_cons_none (matchMonthDY_full_space _),
    searchWith_cons_none hstart,
    searchWith_cons_none hin1,
    searchWith_cons_none hin2,
    searchWith_cons_none hin3,
    searchWith_cons_none (matchMonthDY_full_space _),
    searchWith_cons_none (matchMonthDY_full_digit h1 _),
    searchWith_cons_none (matchMonthDY_full_digit h2 _),
    searchWith_cons_none (matchMonthDY_full_digit h3 _),
    searchWith_cons_none (matchMonthDY_full_digit h4 _)]
  rfl

theorem p5_none_july {D1 D2 y1 y2 y3 y4 : Nat} (hD1 : isDigitC D1) (hD2 : isDigitC D2)
    (h1 : isDigitC y1) (h2 : isDigitC y2) (h3 : isDigitC y3) (h4 : isDigitC y4) :
    searchWith (matchMonthDYAt monthsAbbr) (D1 :: D2 :: 32 :: 74 :: 117 :: 108 :: 121 :: 32 :: y1 :: y2 :: y3 :: y4 :: []) = none := by
  have hstart : matchMonthDYAt monthsAbbr (74 :: 117 :: 108 :: 121 :: 32 :: y1 :: y2 :: y3 :: y4 :: []) = none :=
    rfl
  have hin1 : matchMonthDYAt monthsAbbr (117 :: 108 :: 121 :: 32 :: y1 :: y2 :: y3 :: y4 :: []) = none := rfl
  have hin2 : matchMonthDYAt monthsAbbr (108 :: 121 :: 32 :: y1 :: y2 :: y3 :: y4 :: []) = none := rfl
  have hin3 : matchMonthDYAt monthsAbbr (121 :: 32 :: y1 :: y2 :: y3 :: y4 :: []) = none := rfl
  rw [searchWith_cons_none (matchMonthDY_abbr_digit hD1 _),
    searchWith_cons_none (matchMonthDY_abbr_digit hD2 _),
    searchWith_cons_none (matchMonthDY_abbr_space _),
    searchWith_cons_none hstart,
    searchWith_cons_none hin1,
    searchWith_cons_none hin2,
    searchWith_cons_none hin3,
    searchWith_cons_none (matchMonthDY_abbr_space _),
    searchWith_cons_none (matchMonthDY_abbr_digit h1 _),
    searchWith_cons_none (matchMonthDY_abbr_digit h2 _),
    searchWith_cons_none (matchMonthDY_abbr_digit h3 _),
    searchWith_cons_none (matchMonthDY_abbr_digit h4 _)]
  rfl

theorem p4_none_august {D1 D2 y1 y2 y3 y4 : Nat} (hD1 : isDigitC D1) (hD2 : isDigitC D2)
    (h1 : isDigitC y1) (h2 : isDigitC y2) (h3 : isDigitC y3) (h4 : isDigitC y4) :
    searchWith (matchMonthDYAt monthsFull) (D1 :: D2 :: 32 :: 65 :: 117 :: 103 :: 117 :: 115 :: 116 :: 32 :: y1 :: y2 :: y3 :: y4 :: []) = none := by
  have hstart : matchMonthDYAt monthsFull (65 :: 117 :: 103 :: 117 :: 115 :: 116 :: 32 :: y1 :: y2 :: y3 :: y4 :: []) = none :=
    matchMonthDY_after_month h1 h2 h3 h4 rfl
  have hin1 : matchMonthDYAt monthsFull (117 :: 103 :: 117 :: 115 :: 116 :: 32 :: y1 :: y2 :: y3 :: y4 :: []) = none := rfl
  have hin2 : matchMonthDYAt monthsFull (103 :: 117 :: 115 :: 116 :: 32 :: y1 :: y2 :: y3 :: y4 :: []) = none := rfl
  have hin3 : matchMonthDYAt monthsFull (117 :: 115 :: 116 :: 32 :: y1 :: y2 :: y3 :: y4 :: []) = none := rfl
  have hin4 : matchMonthDYAt monthsFull (115 :: 116 :: 32 :: y1 :: y2 :: y3 :: y4 :: []) = none := rfl
  have hin5 : matchMonthDYAt monthsFull (116 :: 32 :: y1 :: y2 :: y3 :: y4 :: []) = none := rfl
  rw [searchWith_cons_none (matchMonthDY_full_digit hD1 _),
    searchWith_cons_none (matchMonthDY_full_digit hD2 _),
    searchWith_cons_none (matchMonthDY_full_space _),
    searchWith_cons_none hstart,
    searchWith_cons_none hin1,
    searchWith_cons_none hin2,
    searchWith_cons_none hin3,
    searchWith_cons_none hin4,
    searchWith_cons_none hin5,
    searchWith_cons_none (matchMonthDY_full_space _),
    searchWith_cons_none (matchMonthDY_full_digit h1 _),
    searchWith_cons_none (matchMonthDY_full_digit h2 _),
    searchWith_cons_none (matchMonthDY_full_digit h3 _),
    searchWith_cons_none (matchMonthDY_full_digit h4 _)]
  rfl

theorem p5_none_august {D1 D2 y1 y2 y3 y4 : Nat} (hD1 : isDigitC D1) (hD2 : isDigitC D2)
    (h1 : isDigitC y1) (h2 : isDigitC y2) (h3 : isDigitC y3) (h4 : isDigitC y4) :
    searchWith (matchMonthDYAt monthsAbbr) (D1 :: D2 :: 32 :: 65 :: 117 :: 103 :: 117 :: 115 :: 116 :: 32 :: y1 :: y2 :: y3 :: y4 :: []) = none := by
  have hstart : matchMonthDYAt monthsAbbr (65 :: 117 :: 103 :: 117 :: 115 :: 116 :: 32 :: y1 :: y2 :: y3 :: y4 :: []) = none :=
    rfl
  have hin1 : matchMonthDYAt monthsAbbr (117 :: 103 :: 117 :: 115 :: 116 :: 32 :: y1 :: y2 :: y3 :: y4 :: []) = none := rfl
  have hin2 : matchMonthDYAt monthsAbbr (103 :: 117 :: 115 :: 116 :: 32 :: y1 :: y2 :: y3 :: y4 :: []) = none := rfl
  have hin3 : matchMonthDYAt monthsAbbr (117 :: 115 :: 116 :: 32 :: y1 :: y2 :: y3 :: y4 :: []) = none := rfl
  have hin4 : matchMonthDYAt monthsAbbr (115 :: 116 :: 32 :: y1 :: y2 :: y3 :: y4 :: []) = none := rfl
  have hin5 : matchMonthDYAt monthsAbbr (116 :: 32 :: y1 :: y2 :: y3 :: y4 :: []) = none := rfl
  rw [searchWith_cons_none (matchMonthDY_abbr_digit hD1 _),
    searchWith_cons_none (matchMonthDY_abbr_digit hD2 _),
    searchWith_cons_none (matchMonthDY_abbr_space _),
    searchWith_cons_none hstart,
    searchWith_cons_none hin1,
    searchWith_cons_none hin2,
    searchWith_cons_none hin3,
    searchWith_cons_none hin4,
    searchWith_cons_none hin5,
    searchWith_cons_none (matchMonthDY_abbr_space _),
    searchWith_cons_none (matchMonthDY_abbr_digit h1 _),
    searchWith_cons_none (matchMonthDY_abbr_digit h2 _),
    searchWith_cons_none (matchMonthDY_abbr_digit h3 _),
    searchWith_cons_none (matchMonthDY_abbr_digit h4 _)]
  rfl

theorem p4_none_september {D1 D2 y1 y2 y3 y4 : Nat} (hD1 : isDigitC D1) (hD2 : isDigitC D2)
    (h1 : isDigitC y1) (h2 : isDigitC y2) (h3 : isDigitC y3) (h4 : isDigitC y4) :
    searchWith (matchMonthDYAt monthsFull) (D1 :: D2 :: 32 :: 83 :: 101 :: 112 :: 116 :: 101 :: 109 :: 98 :: 101 :: 114 :: 32 :: y1 :: y2 :: y3 :: y4 :: []) = none := by
  have hstart : matchMonthDYAt monthsFull (83 :: 101 :: 112 :: 116 :: 101 :: 109 :: 98 :: 101 :: 114 :: 32 :: y1 :: y2 :: y3 :: y4 :: []) = none :=
    matchMonthDY_after_month h1 h2 h3 h4 rfl
  have hin1 : matchMonthDYAt monthsFull (101 :: 112 :: 116 :: 101 :: 109 :: 98 :: 101 :: 114 :: 32 :: y1 :: y2 :: y3 :: y4 :: []) = none := rfl
  have hin2 : matchMonthDYAt monthsFull (112 :: 116 :: 101 :: 109 :: 98 :: 101 :: 114 :: 32 :: y1 :: y2 :: y3 :: y4 :: []) = none := rfl
  have hin3 : matchMonthDYAt monthsFull (116 :: 101 :: 109 :: 98 :: 101 :: 114 :: 32 :: y1 :: y2 :: y3 :: y4 :: []) = none := rfl
  have hin4 : matchMonthDYAt monthsFull (101 :: 109 :: 98 :: 101 :: 114 :: 32 :: y1 :: y2 :: y3 :: y4 :: []) = none := rfl
  have hin5 : matchMonthDYAt monthsFull (109 :: 98 :: 101 :: 114 :: 32 :: y1 :: y2 :: y3 :: y4 :: []) = none := rfl
  have hin6 : matchMonthDYAt monthsFull (98 :: 101 :: 114 :: 32 :: y1 :: y2 :: y3 :: y4 :: []) = none := rfl
  have hin7 : matchMonthDYAt monthsFull (101 :: 114 :: 32 :: y1 :: y2 :: y3 :: y4 :: []) = none := rfl
  have hin8 : matchMonthDYAt monthsFull (114 :: 32 :: y1 :: y2 :: y3 :: y4 :: []) = none := rfl
  rw [searchWith_cons_none (matchMonthDY_full_digit hD1 _),
    searchWith_cons_none (matchMonthDY_full_digit hD2 _),
    searchWith_cons_none (matchMonthDY_full_space _),
    searchWith_cons_none hstart,
    searchWith_cons_none hin1,
    searchWith_cons_none hin2,
    searchWith_cons_none hin3,
    searchWith_cons_none hin4,
    searchWith_cons_none hin5,
    searchWith_cons_none hin6,
    searchWith_cons_none hin7,
    searchWith_cons_none hin8,
    searchWith_cons_none (matchMonthDY_full_space _),
    searchWith_cons_none (matchMonthDY_full_digit h1 _),
    searchWith_cons_none (matchMonthDY_full_digit h2 _),
    searchWith_cons_none (matchMonthDY_full_digit h3 _),
    searchWith_cons_none (matchMonthDY_full_digit h4 _)]
  rfl

theorem p5_none_september {D1 D2 y1 y2 y3 y4 : Nat} (hD1 : isDigitC D1) (hD2 : isDigitC D2)
    (h1 : isDigitC y1) (h2 : isDigitC y2) (h3 : isDigitC y3) (h4 : isDigitC y4) :
    searchWith (matchMonthDYAt monthsAbbr) (D1 :: D2 :: 32 :: 83 :: 101 :: 112 :: 116 :: 101 :: 109 :: 98 :: 101 :: 114 :: 32 :: y1 :: y2 :: y3 :: y4 :: []) = none := by
  have hstart : matchMonthDYAt monthsAbbr (83 :: 101 :: 112 :: 116 :: 101 :: 109 :: 98 :: 101 :: 114 :: 32 :: y1 :: y2 :: y3 :: y4 :: []) = none :=
    rfl
  have hin1 : matchMonthDYAt monthsAbbr (101 :: 112 :: 116 :: 101 :: 109 :: 98 :: 101 :: 114 :: 32 :: y1 :: y2 :: y3 :: y4 :: []) = none := rfl
  have hin2 : matchMonthDYAt monthsAbbr (112 :: 116 :: 101 :: 109 :: 98 :: 101 :: 114 :: 32 :: y1 :: y2 :: y3 :: y4 :: []) = none := rfl
  have hin3 : matchMonthDYAt monthsAbbr (116 :: 101 :: 109 :: 98 :: 101 :: 114 :: 32 :: y1 :: y2 :: y3 :: y4 :: []) = none := rfl
  have hin4 : matchMonthDYAt monthsAbbr (101 :: 109 :: 98 :: 101 :: 114 :: 32 :: y1 :: y2 :: y3 :: y4 :: []) = none := rfl
  have hin5 : matchMonthDYAt monthsAbbr (109 :: 98 :: 101 :: 114 :: 32 :: y1 :: y2 :: y3 :: y4 :: []) = none := rfl
  have hin6 : matchMonthDYAt monthsAbbr (98 :: 101 :: 114 :: 32 :: y1 :: y2 :: y3 :: y4 :: []) = none := rfl
  have hin7 : matchMonthDYAt monthsAbbr (101 :: 114 :: 32 :: y1 :: y2 :: y3 :: y4 :: []) = none := rfl
  have hin8 : matchMonthDYAt monthsAbbr (114 :: 32 :: y1 :: y2 :: y3 :: y4 :: []) = none := rfl
  rw [searchWith_cons_none (matchMonthDY_abbr_digit hD1 _),
    searchWith_cons_none (matchMonthDY_abbr_digit hD2 _),
    searchWith_cons_none (matchMonthDY_abbr_space _),
    searchWith_cons_none hstart,
    searchWith_cons_none hin1,
    searchWith_cons_none hin2,
    searchWith_cons_none hin3,
    searchWith_cons_none hin4,
    searchWith_cons_none hin5,
    searchWith_cons_none hin6,
    searchWith_cons_none hin7,
    searchWith_cons_none hin8,
    searchWith_cons_none (matchMonthDY_abbr_space _),
    searchWith_cons_none (matchMonthDY_abbr_digit h1 _),
    searchWith_cons_none (matchMonthDY_abbr_digit h2 _),
    searchWith_cons_none (matchMonthDY_abbr_digit h3 _),
    searchWith_cons_none (matchMonthDY_abbr_digit h4 _)]
  rfl

theorem p4_none_october {D1 D2 y1 y2 y3 y4 : Nat} (hD1 : isDigitC D1) (hD2 : isDigitC D2)
    (h1 : isDigitC y1) (h2 : isDigitC y2) (h3 : isDigitC y3) (h4 : isDigitC y4) :
    searchWith (matchMonthDYAt monthsFull) (D1 :: D2 :: 32 :: 79 :: 99 :: 116 :: 111 :: 98 :: 101 :: 114 :: 32 :: y1 :: y2 :: y3 :: y4 :: []) = none := by
  have hstart : matchMonthDYAt monthsFull (79 :: 99 :: 116 :: 111 :: 98 :: 101 :: 114 :: 32 :: y1 :: y2 :: y3 :: y4 :: []) = none :=
    matchMonthDY_after_month h1 h2 h3 h4 rfl
  have hin1 : matchMonthDYAt monthsFull (99 :: 116 :: 111 :: 98 :: 101 :: 114 :: 32 :: y1 :: y2 :: y3 :: y4 :: []) = none := rfl
  have hin2 : matchMonthDYAt monthsFull (116 :: 111 :: 98 :: 101 :: 114 :: 32 :: y1 :: y2 :: y3 :: y4 :: []) = none := rfl
  have hin3 : matchMonthDYAt monthsFull (111 :: 98 :: 101 :: 114 :: 32 :: y1 :: y2 :: y3 :: y4 :: []) = none := rfl
  have hin4 : matchMonthDYAt monthsFull (98 :: 101 :: 114 :: 32 :: y1 :: y2 :: y3 :: y4 :: []) = none := rfl
  have hin5 : matchMonthDYAt monthsFull (101 :: 114 :: 32 :: y1 :: y2 :: y3 :: y4 :: []) = none := rfl
  have hin6 : matchMonthDYAt monthsFull (114 :: 32 :: y1 :: y2 :: y3 :: y4 :: []) = none := rfl
  rw [searchWith_cons_none (matchMonthDY_full_digit hD1 _),
    searchWith_cons_none (matchMonthDY_full_digit hD2 _),
    searchWith_cons_none (matchMonthDY_full_space _),
    searchWith_cons_none hstart,
    searchWith_cons_none hin1,
    searchWith_cons_none hin2,
    searchWith_cons_none hin3,
    searchWith_cons_none hin4,
    searchWith_cons_none hin5,
    searchWith_cons_none hin6,
    searchWith_cons_none (matchMonthDY_full_space _),
    searchWith_cons_none (matchMonthDY_full_digit h1 _),
    searchWith_cons_none (matchMonthDY_full_digit h2 _),
    searchWith_cons_none (matchMonthDY_full_digit h3 _),
    searchWith_cons_none (matchMonthDY_full_digit h4 _)]
  rfl

theorem p5_none_october {D1 D2 y1 y2 y3 y4 : Nat} (hD1 : isDigitC D1) (hD2 : isDigitC D2)
    (h1 : isDigitC y1) (h2 : isDigitC y2) (h3 : isDigitC y3) (h4 : isDigitC y4) :
    searchWith (matchMonthDYAt monthsAbbr) (D1 :: D2 :: 32 :: 79 :: 99 :: 116 :: 111 :: 98 :: 101 :: 114 :: 32 :: y1 :: y2 :: y3 :: y4 :: []) = none := by
  have hstart : matchMonthDYAt monthsAbbr (79 :: 99 :: 116 :: 111 :: 98 :: 101 :: 114 :: 32 :: y1 :: y2 :: y3 :: y4 :: []) = none :=
    rfl
  have hin1 : matchMonthDYAt monthsAbbr (99 :: 116 :: 111 :: 98 :: 101 :: 114 :: 32 :: y1 :: y2 :: y3 :: y4 :: []) = none := rfl
  have hin2 : matchMonthDYAt monthsAbbr (116 :: 111 :: 98 :: 101 :: 114 :: 32 :: y1 :: y2 :: y3 :: y4 :: []) = none := rfl
  have hin3 : matchMonthDYAt monthsAbbr (111 :: 98 :: 101 :: 114 :: 32 :: y1 :: y2 :: y3 :: y4 :: []) = none := rfl
  have hin4 : matchMonthDYAt monthsAbbr (98 :: 101 :: 114 :: 32 :: y1 :: y2 :: y3 :: y4 :: []) = none := rfl
  have hin5 : matchMonthDYAt monthsAbbr (101 :: 114 :: 32 :: y1 :: y2 :: y3 :: y4 :: []) = none := rfl
  have hin6 : matchMonthDYAt monthsAbbr (114 :: 32 :: y1 :: y2 :: y3 :: y4 :: []) = none := rfl
  rw [searchWith_cons_none (matchMonthDY_abbr_digit hD1 _),
    searchWith_cons_none (matchMonthDY_abbr_digit hD2 _),
    searchWith_cons_none (matchMonthDY_abbr_space _),
    searchWith_cons_none hstart,
    searchWith_cons_none hin1,
    searchWith_cons_none hin2,
    searchWith_cons_none hin3,
    searchWith_cons_none hin4,
    searchWith_cons_none hin5,
    searchWith_cons_none hin6,
    searchWith_cons_none (matchMonthDY_abbr_space _),
    searchWith_cons_none (matchMonthDY_abbr_digit h1 _),
    searchWith_cons_none (matchMonthDY_abbr_digit h2 _),
    searchWith_cons_none (matchMonthDY_abbr_digit h3 _),
    searchWith_cons_none (matchMonthDY_abbr_digit h4 _)]
  rfl

theorem p4_none_november {D1 D2 y1 y2 y3 y4 : Nat} (hD1 : isDigitC D1) (hD2 : isDigitC D2)
    (h1 : isDigitC y1) (h2 : isDigitC y2) (h3 : isDigitC y3) (h4 : isDigitC y4) :
    searchWith (matchMonthDYAt monthsFull) (D1 :: D2 :: 32 :: 78 :: 111 :: 118 :: 101 :: 109 :: 98 :: 101 :: 114 :: 32 :: y1 :: y2 :: y3 :: y4 :: []) = none := by
  have hstart : matchMonthDYAt monthsFull (78 :: 111 :: 118 :: 101 :: 109 :: 98 :: 101 :: 114 :: 32 :: y1 :: y2 :: y3 :: y4 :: []) = none :=
    matchMonthDY_after_month h1 h2 h3 h4 rfl
  have hin1 : matchMonthDYAt monthsFull (111 :: 118 :: 101 :: 109 :: 98 :: 101 :: 114 :: 32 :: y1 :: y2 :: y3 :: y4 :: []) = none := rfl
  have hin2 : matchMonthDYAt monthsFull (118 :: 101 :: 109 :: 98 :: 101 :: 114 :: 32 :: y1 :: y2 :: y3 :: y4 :: []) = none := rfl
  have hin3 : matchMonthDYAt monthsFull (101 :: 109 :: 98 :: 101 :: 114 :: 32 :: y1 :: y2 :: y3 :: y4 :: []) = none := rfl
  have hin4 : matchMonthDYAt monthsFull (109 :: 98 :: 101 :: 114 :: 32 :: y1 :: y2 :: y3 :: y4 :: []) = none := rfl
  have hin5 : matchMonthDYAt monthsFull (98 :: 101 :: 114 :: 32 :: y1 :: y2 :: y3 :: y4 :: []) = none := rfl
  have hin6 : matchMonthDYAt monthsFull (101 :: 114 :: 32 :: y1 :: y2 :: y3 :: y4 :: []) = none := rfl
  have hin7 : matchMonthDYAt monthsFull (114 :: 32 :: y1 :: y2 :: y3 :: y4 :: []) = none := rfl
  rw [searchWith_cons_none (matchMonthDY_full_digit hD1 _),
    searchWith_cons_none (matchMonthDY_full_digit hD2 _),
    searchWith_cons_none (matchMonthDY_full_space _),
    searchWith_cons_none hstart,
    searchWith_cons_none hin1,
    searchWith_cons_none hin2,
    searchWith_cons_none hin3,
    searchWith_cons_none hin4,
    searchWith_cons_none hin5,
    searchWith_cons_none hin6,
    searchWith_cons_none hin7,
    searchWith_cons_none (matchMonthDY_full_space _),
    searchWith_cons_none (matchMonthDY_full_digit h1 _),
    searchWith_cons_none (matchMonthDY_full_digit h2 _),
    searchWith_cons_none (matchMonthDY_full_digit h3 _),
    searchWith_cons_none (matchMonthDY_full_digit h4 _)]
  rfl

theorem p5_none_november {D1 D2 y1 y2 y3 y4 : Nat} (hD1 : isDigitC D1) (hD2 : isDigitC D2)
    (h1 : isDigitC y1) (h2 : isDigitC y2) (h3 : isDigitC y3) (h4 : isDigitC y4) :
    searchWith (matchMonthDYAt monthsAbbr) (D1 :: D2 :: 32 :: 78 :: 111 :: 118 :: 101 :: 109 :: 98 :: 101 :: 114 :: 32 :: y1 :: y2 :: y3 :: y4 :: []) = none := by
  have hstart : matchMonthDYAt monthsAbbr (78 :: 111 :: 118 :: 101 :: 109 :: 98 :: 101 :: 114 :: 32 :: y1 :: y2 :: y3 :: y4 :: []) = none :=
    rfl
  have hin1 : matchMonthDYAt monthsAbbr (111 :: 118 :: 101 :: 109 :: 98 :: 101 :: 114 :: 32 :: y1 :: y2 :: y3 :: y4 :: []) = none := rfl
  have hin2 : matchMonthDYAt monthsAbbr (118 :: 101 :: 109 :: 98 :: 101 :: 114 :: 32 :: y1 :: y2 :: y3 :: y4 :: []) = none := rfl
  have hin3 : matchMonthDYAt monthsAbbr (101 :: 109 :: 98 :: 101 :: 114 :: 32 :: y1 :: y2 :: y3 :: y4 :: []) = none := rfl
  have hin4 : matchMonthDYAt monthsAbbr (109 :: 98 :: 101 :: 114 :: 32 :: y1 :: y2 :: y3 :: y4 :: []) = none := rfl
  have hin5 : matchMonthDYAt monthsAbbr (98 :: 101 :: 114 :: 32 :: y1 :: y2 :: y3 :: y4 :: []) = none := rfl
  have hin6 : matchMonthDYAt monthsAbbr (101 :: 114 :: 32 :: y1 :: y2 :: y3 :: y4 :: []) = none := rfl
  have hin7 : matchMonthDYAt monthsAbbr (114 :: 32 :: y1 :: y2 :: y3 :: y4 :: []) = none := rfl
  rw [searchWith_cons_none (matchMonthDY_abbr_digit hD1 _),
    searchWith_cons_none (matchMonthDY_abbr_digit hD2 _),
    searchWith_cons_none (matchMonthDY_abbr_space _),
    searchWith_cons_none hstart,
    searchWith_cons_none hin1,
    searchWith_cons_none hin2,
    searchWith_cons_none hin3,
    searchWith_cons_none hin4,
    searchWith_cons_none hin5,
    searchWith_cons_none hin6,
    searchWith_cons_none hin7,
    searchWith_cons_none (matchMonthDY_abbr_space _),
    searchWith_cons_none (matchMonthDY_abbr_digit h1 _),
    searchWith_cons_none (matchMonthDY_abbr_digit h2 _),
    searchWith_cons_none (matchMonthDY_abbr_digit h3 _),
    searchWith_cons_none (matchMonthDY_abbr_digit h4 _)]
  rfl

theorem p4_none_december {D1 D2 y1 y2 y3 y4 : Nat} (hD1 : isDigitC D1) (hD2 : isDigitC D2)
    (h1 : isDigitC y1) (h2 : isDigitC y2) (h3 : isDigitC y3) (h4 : isDigitC y4) :
    searchWith (matchMonthDYAt monthsFull) (D1 :: D2 :: 32 :: 68 :: 101 :: 99 :: 101 :: 109 :: 98 :: 101 :: 114 :: 32 :: y1 :: y2 :: y3 :: y4 :: []) = none := by
  have hstart : matchMonthDYAt monthsFull (68 :: 101 :: 99 :: 101 :: 109 :: 98 :: 101 :: 114 :: 32 :: y1 :: y2 :: y3 :: y4 :: []) = none :=
    matchMonthDY_after_month h1 h2 h3 h4 rfl
  have hin1 : matchMonthDYAt monthsFull (101 :: 99 :: 101 :: 109 :: 98 :: 101 :: 114 :: 32 :: y1 :: y2 :: y3 :: y4 :: []) = none := rfl
  have hin2 : matchMonthDYAt monthsFull (99 :: 101 :: 109 :: 98 :: 101 :: 114 :: 32 :: y1 :: y2 :: y3 :: y4 :: []) = none := rfl
  have hin3 : matchMonthDYAt monthsFull (101 :: 109 :: 98 :: 101 :: 114 :: 32 :: y1 :: y2 :: y3 :: y4 :: []) = none := rfl
  have hin4 : matchMonthDYAt monthsFull (109 :: 98 :: 101 :: 114 :: 32 :: y1 :: y2 :: y3 :: y4 :: []) = none := rfl
  have hin5 : matchMonthDYAt monthsFull (98 :: 101 :: 114 :: 32 :: y1 :: y2 :: y3 :: y4 :: []) = none := rfl
  have hin6 : matchMonthDYAt monthsFull (101 :: 114 :: 32 :: y1 :: y2 :: y3 :: y4 :: []) = none := rfl
  have hin7 : matchMonthDYAt monthsFull (114 :: 32 :: y1 :: y2 :: y3 :: y4 :: []) = none := rfl
  rw [searchWith_cons_none (matchMonthDY_full_digit hD1 _),
    searchWith_cons_none (matchMonthDY_full_digit hD2 _),
    searchWith_cons_none (matchMonthDY_full_space _),
    searchWith_cons_none hstart,
    searchWith_cons_none hin1,
    searchWith_cons_none hin2,
    searchWith_cons_none hin3,
    searchWith_cons_none hin4,
    searchWith_cons_none hin5,
    searchWith_cons_none hin6,
    searchWith_cons_none hin7,
    searchWith_cons_none (matchMonthDY_full_space _),
    searchWith_cons_none (matchMonthDY_full_digit h1 _),
    searchWith_cons_none (matchMonthDY_full_digit h2 _),
    searchWith_cons_none (matchMonthDY_full_digit h3 _),
    searchWith_cons_none (matchMonthDY_full_digit h4 _)]
  rfl

theorem p5_none_december {D1 D2 y1 y2 y3 y4 : Nat} (hD1 : isDigitC D1) (hD2 : isDigitC D2)
    (h1 : isDigitC y1) (h2 : isDigitC y2) (h3 : isDigitC y3) (h4 : isDigitC y4) :
    searchWith (matchMonthDYAt monthsAbbr) (D1 :: D2 :: 32 :: 68 :: 101 :: 99 :: 101 :: 109 :: 98 :: 101 :: 114 :: 32 :: y1 :: y2 :: y3 :: y4 :: []) = none := by
  have hstart : matchMonthDYAt monthsAbbr (68 :: 101 :: 99 :: 101 :: 109 :: 98 :: 101 :: 114 :: 32 :: y1 :: y2 :: y3 :: y4 :: []) = none :=
    rfl
  have hin1 : matchMonthDYAt monthsAbbr (101 :: 99 :: 101 :: 109 :: 98 :: 101 :: 114 :: 32 :: y1 :: y2 :: y3 :: y4 :: []) = none := rfl
  have hin2 : matchMonthDYAt monthsAbbr (99 :: 101 :: 109 :: 98 :: 101 :: 114 :: 32 :: y1 :: y2 :: y3 :: y4 :: []) = none := rfl
  have hin3 : matchMonthDYAt monthsAbbr (101 :: 109 :: 98 :: 101 :: 114 :: 32 :: y1 :: y2 :: y3 :: y4 :: []) = none := rfl
  have hin4 : matchMonthDYAt monthsAbbr (109 :: 98 :: 101 :: 114 :: 32 :: y1 :: y2 :: y3 :: y4 :: []) = none := rfl
  have hin5 : matchMonthDYAt monthsAbbr (98 :: 101 :: 114 :: 32 :: y1 :: y2 :: y3 :: y4 :: []) = none := rfl
  have hin6 : matchMonthDYAt monthsAbbr (101 :: 114 :: 32 :: y1 :: y2 :: y3 :: y4 :: []) = none := rfl
  have hin7 : matchMonthDYAt monthsAbbr (114 :: 32 :: y1 :: y2 :: y3 :: y4 :: []) = none := rfl
  rw [searchWith_cons_none (matchMonthDY_abbr_digit hD1 _),
    searchWith_cons_none (matchMonthDY_abbr_digit hD2 _),
    searchWith_cons_none (matchMonthDY_abbr_space _),
    searchWith_cons_none hstart,
    searchWith_cons_none hin1,
    searchWith_cons_none hin2,
    searchWith_cons_none hin3,
    searchWith_cons_none hin4,
    searchWith_cons_none hin5,
    searchWith_cons_none hin6,
    searchWith_cons_none hin7,
    searchWith_cons_none (matchMonthDY_abbr_space _),
    searchWith_cons_none (matchMonthDY_abbr_digit h1 _),
    searchWith_cons_none (matchMonthDY_abbr_digit h2 _),
    searchWith_cons_none (matchMonthDY_abbr_digit h3 _),
    searchWith_cons_none (matchMonthDY_abbr_digit h4 _)]
  rfl

theorem parse_date_roundtrip_iso {y m d : Nat} (hv : validDate y m d) (now : Date) :
    parse_date (fmtIso ⟨y, m, d⟩) now = ⟨y, m, d⟩ := by
  have hS : fmtIso ⟨y, m, d⟩ = (48 + y / 1000 % 10) :: (48 + y / 100 % 10) ::
      (48 + y / 10 % 10) :: (48 + y % 10) :: 45 :: (48 + m / 10 % 10) ::
      (48 + m % 10) :: 45 :: (48 + d / 10 % 10) :: (48 + d % 10) :: [] := rfl
  rw [hS]
  have hnw : ∀ c ∈ (48 + y / 1000 % 10) :: (48 + y / 100 % 10) ::
      (48 + y / 10 % 10) :: (48 + y % 10) :: 45 :: (48 + m / 10 % 10) ::
      (48 + m % 10) :: 45 :: (48 + d / 10 % 10) :: (48 + d % 10) :: ([] : Str),
      ¬ isWsC c := by
    intro c hc
    simp only [List.mem_cons, List.not_mem_nil, or_false] at hc
    unfold isWsC
    omega
  have hclean : cleanText ((48 + y / 1000 % 10) :: (48 + y / 100 % 10) ::
      (48 + y / 10 % 10) :: (48 + y % 10) :: 45 :: (48 + m / 10 % 10) ::
      (48 + m % 10) :: 45 :: (48 + d / 10 % 10) :: (48 + d % 10) :: []) =
      (48 + y / 1000 % 10) :: (48 + y / 100 % 10) ::
      (48 + y / 10 % 10) :: (48 + y % 10) :: 45 :: (48 + m / 10 % 10) ::
      (48 + m % 10) :: 45 :: (48 + d / 10 % 10) :: (48 + d % 10) :: [] :=
    cleanText_eq (tidy_of_all_nonws _ hnw) (tidyHeadP_cons (hnw _ (by simp)))
  have hfirst := matchIsoAt_at (digitC_mod (y / 1000)) (digitC_mod (y / 100))
    (digitC_mod (y / 10)) (digitC_mod y) (digitC_mod (m / 10)) (digitC_mod m)
    (digitC_mod (d / 10)) (digitC_mod d) ([] : Str)
  have hsearch := searchWith_cons_some hfirst
  have hrc : removeCommas ((48 + y / 1000 % 10) :: (48 + y / 100 % 10) ::
      (48 + y / 10 % 10) :: (48 + y % 10) :: 45 :: (48 + m / 10 % 10) ::
      (48 + m % 10) :: 45 :: (48 + d / 10 % 10) :: (48 + d % 10) :: []) = _ :=
    removeCommas_eq_self (by
      intro c hc
      simp only [List.mem_cons, List.not_mem_nil, or_false] at hc
      omega)
  have htry : tryPatterns ((48 + y / 1000 % 10) :: (48 + y / 100 % 10) ::
      (48 + y / 10 % 10) :: (48 + y % 10) :: 45 :: (48 + m / 10 % 10) ::
      (48 + m % 10) :: 45 :: (48 + d / 10 % 10) :: (48 + d % 10) :: []) =
      some ⟨y, m, d⟩ := by
    simp only [tryPatterns, tryOne, hsearch, List.take, hrc, strpYmd_pads hv,
      Option.orElse]
  unfold parse_date
  rw [if_neg (List.cons_ne_nil _ _), hclean, htry]

theorem parse_date_roundtrip_mdy {y m d : Nat} (hv : validDate y m d) (now : Date) :
    parse_date (fmtMdY ⟨y, m, d⟩) now = ⟨y, m, d⟩ := by
  have hS : fmtMdY ⟨y, m, d⟩ = (48 + m / 10 % 10) :: (48 + m % 10) :: 47 ::
      (48 + d / 10 % 10) :: (48 + d % 10) :: 47 :: (48 + y / 1000 % 10) ::
      (48 + y / 100 % 10) :: (48 + y / 10 % 10) :: (48 + y % 10) :: [] := rfl
  rw [hS]
  have hnw : ∀ c ∈ (48 + m / 10 % 10) :: (48 + m % 10) :: 47 ::
      (48 + d / 10 % 10) :: (48 + d % 10) :: 47 :: (48 + y / 1000 % 10) ::
      (48 + y / 100 % 10) :: (48 + y / 10 % 10) :: (48 + y % 10) :: ([] : Str),
      ¬ isWsC c := by
    intro c hc
    simp only [List.mem_cons, List.not_mem_nil, or_false] at hc
    unfold isWsC
    omega
  have hclean : cleanText ((48 + m / 10 % 10) :: (48 + m % 10) :: 47 ::
      (48 + d / 10 % 10) :: (48 + d % 10) :: 47 :: (48 + y / 1000 % 10) ::
      (48 + y / 100 % 10) :: (48 + y / 10 % 10) :: (48 + y % 10) :: []) = _ :=
    cleanText_eq (tidy_of_all_nonws _ hnw) (tidyHeadP_cons (hnw _ (by simp)))
  have h45 : ∀ c ∈ (48 + m / 10 % 10) :: (48 + m % 10) :: 47 ::
      (48 + d / 10 % 10) :: (48 + d % 10) :: 47 :: (48 + y / 1000 % 10) ::
      (48 + y / 100 % 10) :: (48 + y / 10 % 10) :: (48 + y % 10) :: ([] : Str),
      c ≠ 45 := by
    intro c hc
    simp only [List.mem_cons, List.not_mem_nil, or_false] at hc
    omega
  have hp1 := searchIso_none h45
  have hfirst := matchSlash22At_at (digitC_mod (m / 10)) (digitC_mod m)
    (digitC_mod (d / 10)) (digitC_mod d) (digitC_mod (y / 1000)) (digitC_mod (y / 100))
    (digitC_mod (y / 10)) (digitC_mod y) ([] : Str)
  have hsearch := searchWith_cons_some hfirst
  have hrc : removeCommas ((48 + m / 10 % 10) :: (48 + m % 10) :: 47 ::
      (48 + d / 10 % 10) :: (48 + d % 10) :: 47 :: (48 + y / 1000 % 10) ::
      (48 + y / 100 % 10) :: (48 + y / 10 % 10) :: (48 + y % 10) :: []) = _ :=
    removeCommas_eq_self (by
      intro c hc
      simp only [List.mem_cons, List.not_mem_nil, or_false] at hc
      omega)
  have htry : tryPatterns ((48 + m / 10 % 10) :: (48 + m % 10) :: 47 ::
      (48 + d / 10 % 10) :: (48 + d % 10) :: 47 :: (48 + y / 1000 % 10) ::
      (48 + y / 100 % 10) :: (48 + y / 10 % 10) :: (48 + y % 10) :: []) =
      some ⟨y, m, d⟩ := by
    simp only [tryPatterns, tryOne, hp1, hsearch, List.take, hrc, strpMdY_pads hv,
      Option.orElse]
  unfold parse_date
  rw [if_neg (List.cons_ne_nil _ _), hclean, htry]

theorem parse_date_roundtrip_dmonthy {y m d : Nat} (hv : validDate y m d) (now : Date) :
    parse_date (fmtDMonthY ⟨y, m, d⟩) now = ⟨y, m, d⟩ := by
  have hm1 : 1 ≤ m := hv.2.2.1
  have hm2 : m ≤ 12 := hv.2.2.2.1
  interval_cases m
  · have hS : fmtDMonthY ⟨y, 1, d⟩ = (48 + d / 10 % 10) :: (48 + d % 10) :: 32 :: 74 :: 97 :: 110 :: 117 :: 97 :: 114 :: 121 :: 32 :: (48 + y / 1000 % 10) :: (48 + y / 100 % 10) :: (48 + y / 10 % 10) :: (48 + y % 10) :: [] := rfl
    rw [hS]
    have htin : tidy (74 :: 97 :: 110 :: 117 :: 97 :: 114 :: 121 :: 32 :: (48 + y / 1000 % 10) :: (48 + y / 100 % 10) :: (48 + y / 10 % 10) :: (48 + y % 10) :: []) :=
      tidy_join (74 :: 97 :: 110 :: 117 :: 97 :: 114 :: 121 :: []) (by simp) (by decide)
        ((48 + y / 1000 % 10) :: (48 + y / 100 % 10) :: (48 + y / 10 % 10) :: (48 + y % 10) :: []) (tidy_of_all_nonws _ (by
          intro c hc
          simp only [List.mem_cons, List.not_mem_nil, or_false] at hc
          unfold isWsC
          omega))
        (tidyHeadP_cons (by
          unfold isWsC
          omega)) (by simp)
    have hclean : cleanText ((48 + d / 10 % 10) :: (48 + d % 10) :: 32 :: 74 :: 97 :: 110 :: 117 :: 97 :: 114 :: 121 :: 32 :: (48 + y / 1000 % 10) :: (48 + y / 100 % 10) :: (48 + y / 10 % 10) :: (48 + y % 10) :: []) = (48 + d / 10 % 10) :: (48 + d % 10) :: 32 :: 74 :: 97 :: 110 :: 117 :: 97 :: 114 :: 121 :: 32 :: (48 + y / 1000 % 10) :: (48 + y / 100 % 10) :: (48 + y / 10 % 10) :: (48 + y % 10) :: [] := by
      apply cleanText_eq
      · exact tidy_join ((48 + d / 10 % 10) :: (48 + d % 10) :: []) (by simp)
          (by
            intro c hc
            simp only [List.mem_cons, List.not_mem_nil, or_false] at hc
            unfold isWsC
            omega)
          (74 :: 97 :: 110 :: 117 :: 97 :: 114 :: 121 :: 32 :: (48 + y / 1000 % 10) :: (48 + y / 100 % 10) :: (48 + y / 10 % 10) :: (48 + y % 10) :: []) htin (tidyHeadP_cons (by decide)) (by simp)
      · exact tidyHeadP_cons (by
          unfold isWsC
          omega)
    have h45 : ∀ c ∈ ((48 + d / 10 % 10) :: (48 + d % 10) :: 32 :: 74 :: 97 :: 110 :: 117 :: 97 :: 114 :: 121 :: 32 :: (48 + y / 1000 % 10) :: (48 + y / 100 % 10) :: (48 + y / 10 % 10) :: (48 + y % 10) :: [] : Str), c ≠ 45 := by
      intro c hc
      simp only [List.mem_cons, List.not_mem_nil, or_false] at hc
      omega
    have h47 : ∀ c ∈ ((48 + d / 10 % 10) :: (48 + d % 10) :: 32 :: 74 :: 97 :: 110 :: 117 :: 97 :: 114 :: 121 :: 32 :: (48 + y / 1000 % 10) :: (48 + y / 100 % 10) :: (48 + y / 10 % 10) :: (48 + y % 10) :: [] : Str), c ≠ 47 := by
      intro c hc
      simp only [List.mem_cons, List.not_mem_nil, or_false] at hc
      omega
    have h44 : ∀ c ∈ ((48 + d / 10 % 10) :: (48 + d % 10) :: 32 :: 74 :: 97 :: 110 :: 117 :: 97 :: 114 :: 121 :: 32 :: (48 + y / 1000 % 10) :: (48 + y / 100 % 10) :: (48 + y / 10 % 10) :: (48 + y % 10) :: [] : Str), c ≠ 44 := by
      intro c hc
      simp only [List.mem_cons, List.not_mem_nil, or_false] at hc
      omega
    have hp1 := searchIso_none h45
    have hp2 := searchSlash22_none h47
    have hp3 := searchSlash12_none h47
    have hp4 := p4_none_january (digitC_mod (d / 10)) (digitC_mod d)
      (digitC_mod (y / 1000)) (digitC_mod (y / 100)) (digitC_mod (y / 10)) (digitC_mod y)
    have hp5 := p5_none_january (digitC_mod (d / 10)) (digitC_mod d)
      (digitC_mod (y / 1000)) (digitC_mod (y / 100)) (digitC_mod (y / 10)) (digitC_mod y)
    have hmpf : monthFromPrefix monthsFull (74 :: 97 :: 110 :: 117 :: 97 :: 114 :: 121 :: 32 :: (48 + y / 1000 % 10) :: (48 + y / 100 % 10) :: (48 + y / 10 % 10) :: (48 + y % 10) :: []) =
        some (1, 7, 32 :: (48 + y / 1000 % 10) :: (48 + y / 100 % 10) :: (48 + y / 10 % 10) :: (48 + y % 10) :: []) := rfl
    have hst6 : matchDMonthYAt monthsFull ((48 + d / 10 % 10) :: (48 + d % 10) :: 32 :: 74 :: 97 :: 110 :: 117 :: 97 :: 114 :: 121 :: 32 :: (48 + y / 1000 % 10) :: (48 + y / 100 % 10) :: (48 + y / 10 % 10) :: (48 + y % 10) :: []) = some 15 :=
      matchDMonthY_at_start (digitC_mod (d / 10)) (digitC_mod d)
        (digitC_mod (y / 1000)) (digitC_mod (y / 100)) (digitC_mod (y / 10))
        (digitC_mod y) (by decide) hmpf
    have hs6 : searchWith (matchDMonthYAt monthsFull) ((48 + d / 10 % 10) :: (48 + d % 10) :: 32 :: 74 :: 97 :: 110 :: 117 :: 97 :: 114 :: 121 :: 32 :: (48 + y / 1000 % 10) :: (48 + y / 100 % 10) :: (48 + y / 10 % 10) :: (48 + y % 10) :: []) = some ((48 + d / 10 % 10) :: (48 + d % 10) :: 32 :: 74 :: 97 :: 110 :: 117 :: 97 :: 114 :: 121 :: 32 :: (48 + y / 1000 % 10) :: (48 + y / 100 % 10) :: (48 + y / 10 % 10) :: (48 + y % 10) :: []) :=
      searchWith_cons_some hst6
    have hrc := removeCommas_eq_self h44
    have hstrp : strpDBY monthsFull ((48 + d / 10 % 10) :: (48 + d % 10) :: 32 :: 74 :: 97 :: 110 :: 117 :: 97 :: 114 :: 121 :: 32 :: (48 + y / 1000 % 10) :: (48 + y / 100 % 10) :: (48 + y / 10 % 10) :: (48 + y % 10) :: []) = some ⟨y, 1, d⟩ :=
      strpDBY_compute (by decide) hmpf hv
    have htry : tryPatterns ((48 + d / 10 % 10) :: (48 + d % 10) :: 32 :: 74 :: 97 :: 110 :: 117 :: 97 :: 114 :: 121 :: 32 :: (48 + y / 1000 % 10) :: (48 + y / 100 % 10) :: (48 + y / 10 % 10) :: (48 + y % 10) :: []) = some (⟨y, 1, d⟩ : Date) := by
      simp only [tryPatterns, tryOne, hp1, hp2, hp3, hp4, hp5, hs6, hrc, hstrp,
        Option.orElse]
    unfold parse_date
    rw [if_neg (List.cons_ne_nil _ _), hclean, htry]
  · have hS : fmtDMonthY ⟨y, 2, d⟩ = (48 + d / 10 % 10) :: (48 + d % 10) :: 32 :: 70 :: 101 :: 98 :: 114 :: 117 :: 97 :: 114 :: 121 :: 32 :: (48 + y / 1000 % 10) :: (48 + y / 100 % 10) :: (48 + y / 10 % 10) :: (48 + y % 10) :: [] := rfl
    rw [hS]
    have htin : tidy (70 :: 101 :: 98 :: 114 :: 117 :: 97 :: 114 :: 121 :: 32 :: (48 + y / 1000 % 10) :: (48 + y / 100 % 10) :: (48 + y / 10 % 10) :: (48 + y % 10) :: []) :=
      tidy_join (70 :: 101 :: 98 :: 114 :: 117 :: 97 :: 114 :: 121 :: []) (by simp) (by decide)
        ((48 + y / 1000 % 10) :: (48 + y / 100 % 10) :: (48 + y / 10 % 10) :: (48 + y % 10) :: []) (tidy_of_all_nonws _ (by
          intro c hc
          simp only [List.mem_cons, List.not_mem_nil, or_false] at hc
          unfold isWsC
          omega))
        (tidyHeadP_cons (by
          unfold isWsC
          omega)) (by simp)
    have hclean : cleanText ((48 + d / 10 % 10) :: (48 + d % 10) :: 32 :: 70 :: 101 :: 98 :: 114 :: 117 :: 97 :: 114 :: 121 :: 32 :: (48 + y / 1000 % 10) :: (48 + y / 100 % 10) :: (48 + y / 10 % 10) :: (48 + y % 10) :: []) = (48 + d / 10 % 10) :: (48 + d % 10) :: 32 :: 70 :: 101 :: 98 :: 114 :: 117 :: 97 :: 114 :: 121 :: 32 :: (48 + y / 1000 % 10) :: (48 + y / 100 % 10) :: (48 + y / 10 % 10) :: (48 + y % 10) :: [] := by
      apply cleanText_eq
      · exact tidy_join ((48 + d / 10 % 10) :: (48 + d % 10) :: []) (by simp)
          (by
            intro c hc
            simp only [List.mem_cons, List.not_mem_nil, or_false] at hc
            unfold isWsC
            omega)
          (70 :: 101 :: 98 :: 114 :: 117 :: 97 :: 114 :: 121 :: 32 :: (48 + y / 1000 % 10) :: (48 + y / 100 % 10) :: (48 + y / 10 % 10) :: (48 + y % 10) :: []) htin (tidyHeadP_cons (by decide)) (by simp)
      · exact tidyHeadP_cons (by
          unfold isWsC
          omega)
    have h45 : ∀ c ∈ ((48 + d / 10 % 10) :: (48 + d % 10) :: 32 :: 70 :: 101 :: 98 :: 114 :: 117 :: 97 :: 114 :: 121 :: 32 :: (48 + y / 1000 % 10) :: (48 + y / 100 % 10) :: (48 + y / 10 % 10) :: (48 + y % 10) :: [] : Str), c ≠ 45 := by
      intro c hc
      simp only [List.mem_cons, List.not_mem_nil, or_false] at hc
      omega
    have h47 : ∀ c ∈ ((48 + d / 10 % 10) :: (48 + d % 10) :: 32 :: 70 :: 101 :: 98 :: 114 :: 117 :: 97 :: 114 :: 121 :: 32 :: (48 + y / 1000 % 10) :: (48 + y / 100 % 10) :: (48 + y / 10 % 10) :: (48 + y % 10) :: [] : Str), c ≠ 47 := by
      intro c hc
      simp only [List.mem_cons, List.not_mem_nil, or_false] at hc
      omega
    have h44 : ∀ c ∈ ((48 + d / 10 % 10) :: (48 + d % 10) :: 32 :: 70 :: 101 :: 98 :: 114 :: 117 :: 97 :: 114 :: 121 :: 32 :: (48 + y / 1000 % 10) :: (48 + y / 100 % 10) :: (48 + y / 10 % 10) :: (48 + y % 10) :: [] : Str), c ≠ 44 := by
      intro c hc
      simp only [List.mem_cons, List.not_mem_nil, or_false] at hc
      omega
    have hp1 := searchIso_none h45
    have hp2 := searchSlash22_none h47
    have hp3 := searchSlash12_none h47
    have hp4 := p4_none_february (digitC_mod (d / 10)) (digitC_mod d)
      (digitC_mod (y / 1000)) (digitC_mod (y / 100)) (digitC_mod (y / 10)) (digitC_mod y)
    have hp5 := p5_none_february (digitC_mod (d / 10)) (digitC_mod d)
      (digitC_mod (y / 1000)) (digitC_mod (y / 100)) (digitC_mod (y / 10)) (digitC_mod y)
    have hmpf : monthFromPrefix monthsFull (70 :: 101 :: 98 :: 114 :: 117 :: 97 :: 114 :: 121 :: 32 :: (48 + y / 1000 % 10) :: (48 + y / 100 % 10) :: (48 + y / 10 % 10) :: (48 + y % 10) :: []) =
        some (2, 8, 32 :: (48 + y / 1000 % 10) :: (48 + y / 100 % 10) :: (48 + y / 10 % 10) :: (48 + y % 10) :: []) := rfl
    have hst6 : matchDMonthYAt monthsFull ((48 + d / 10 % 10) :: (48 + d % 10) :: 32 :: 70 :: 101 :: 98 :: 114 :: 117 :: 97 :: 114 :: 121 :: 32 :: (48 + y / 1000 % 10) :: (48 + y / 100 % 10) :: (48 + y / 10 % 10) :: (48 + y % 10) :: []) = some 16 :=
      matchDMonthY_at_start (digitC_mod (d / 10)) (digitC_mod d)
        (digitC_mod (y / 1000)) (digitC_mod (y / 100)) (digitC_mod (y / 10))
        (digitC_mod y) (by decide) hmpf
    have hs6 : searchWith (matchDMonthYAt monthsFull) ((48 + d / 10 % 10) :: (48 + d % 10) :: 32 :: 70 :: 101 :: 98 :: 114 :: 117 :: 97 :: 114 :: 121 :: 32 :: (48 + y / 1000 % 10) :: (48 + y / 100 % 10) :: (48 + y / 10 % 10) :: (48 + y % 10) :: []) = some ((48 + d / 10 % 10) :: (48 + d % 10) :: 32 :: 70 :: 101 :: 98 :: 114 :: 117 :: 97 :: 114 :: 121 :: 32 :: (48 + y / 1000 % 10) :: (48 + y / 100 % 10) :: (48 + y / 10 % 10) :: (48 + y % 10) :: []) :=
      searchWith_cons_some hst6
    have hrc := removeCommas_eq_self h44
    have hstrp : strpDBY monthsFull ((48 + d / 10 % 10) :: (48 + d % 10) :: 32 :: 70 :: 101 :: 98 :: 114 :: 117 :: 97 :: 114 :: 121 :: 32 :: (48 + y / 1000 % 10) :: (48 + y / 100 % 10) :: (48 + y / 10 % 10) :: (48 + y % 10) :: []) = some ⟨y, 2, d⟩ :=
      strpDBY_compute (by decide) hmpf hv
    have htry : tryPatterns ((48 + d / 10 % 10) :: (48 + d % 10) :: 32 :: 70 :: 101 :: 98 :: 114 :: 117 :: 97 :: 114 :: 121 :: 32 :: (48 + y / 1000 % 10) :: (48 + y / 100 % 10) :: (48 + y / 10 % 10) :: (48 + y % 10) :: []) = some (⟨y, 2, d⟩ : Date) := by
      simp only [tryPatterns, tryOne, hp1, hp2, hp3, hp4, hp5, hs6, hrc, hstrp,
        Option.orElse]
    unfold parse_date
    rw [if_neg (List.cons_ne_nil _ _), hclean, htry]
  · have hS : fmtDMonthY ⟨y, 3, d⟩ = (48 + d / 10 % 10) :: (48 + d % 10) :: 32 :: 77 :: 97 :: 114 :: 99 :: 104 :: 32 :: (48 + y / 1000 % 10) :: (48 + y / 100 % 10) :: (48 + y / 10 % 10) :: (48 + y % 10) :: [] := rfl
    rw [hS]
    have htin : tidy (77 :: 97 :: 114 :: 99 :: 104 :: 32 :: (48 + y / 1000 % 10) :: (48 + y / 100 % 10) :: (48 + y / 10 % 10) :: (48 + y % 10) :: []) :=
      tidy_join (77 :: 97 :: 114 :: 99 :: 104 :: []) (by simp) (by decide)
        ((48 + y / 1000 % 10) :: (48 + y / 100 % 10) :: (48 + y / 10 % 10) :: (48 + y % 10) :: []) (tidy_of_all_nonws _ (by
          intro c hc
          simp only [List.mem_cons, List.not_mem_nil, or_false] at hc
          unfold isWsC
          omega))
        (tidyHeadP_cons (by
          unfold isWsC
          omega)) (by simp)
    have hclean : cleanText ((48 + d / 10 % 10) :: (48 + d % 10) :: 32 :: 77 :: 97 :: 114 :: 99 :: 104 :: 32 :: (48 + y / 1000 % 10) :: (48 + y / 100 % 10) :: (48 + y / 10 % 10) :: (48 + y % 10) :: []) = (48 + d / 10 % 10) :: (48 + d % 10) :: 32 :: 77 :: 97 :: 114 :: 99 :: 104 :: 32 :: (48 + y / 1000 % 10) :: (48 + y / 100 % 10) :: (48 + y / 10 % 10) :: (48 + y % 10) :: [] := by
      apply cleanText_eq
      · exact tidy_join ((48 + d / 10 % 10) :: (48 + d % 10) :: []) (by simp)
          (by
            intro c hc
            simp only [List.mem_cons, List.not_mem_nil, or_false] at hc
            unfold isWsC
            omega)
          (77 :: 97 :: 114 :: 99 :: 104 :: 32 :: (48 + y / 1000 % 10) :: (48 + y / 100 % 10) :: (48 + y / 10 % 10) :: (48 + y % 10) :: []) htin (tidyHeadP_cons (by decide)) (by simp)
      · exact tidyHeadP_cons (by
          unfold isWsC
          omega)
    have h45 : ∀ c ∈ ((48 + d / 10 % 10) :: (48 + d % 10) :: 32 :: 77 :: 97 :: 114 :: 99 :: 104 :: 32 :: (48 + y / 1000 % 10) :: (48 + y / 100 % 10) :: (48 + y / 10 % 10) :: (48 + y % 10) :: [] : Str), c ≠ 45 := by
      intro c hc
      simp only [List.mem_cons, List.not_mem_nil, or_false] at hc
      omega
    have h47 : ∀ c ∈ ((48 + d / 10 % 10) :: (48 + d % 10) :: 32 :: 77 :: 97 :: 114 :: 99 :: 104 :: 32 :: (48 + y / 1000 % 10) :: (48 + y / 100 % 10) :: (48 + y / 10 % 10) :: (48 + y % 10) :: [] : Str), c ≠ 47 := by
      intro c hc
      simp only [List.mem_cons, List.not_mem_nil, or_false] at hc
      omega
    have h44 : ∀ c ∈ ((48 + d / 10 % 10) :: (48 + d % 10) :: 32 :: 77 :: 97 :: 114 :: 99 :: 104 :: 32 :: (48 + y / 1000 % 10) :: (48 + y / 100 % 10) :: (48 + y / 10 % 10) :: (48 + y % 10) :: [] : Str), c ≠ 44 := by
      intro c hc
      simp only [List.mem_cons, List.not_mem_nil, or_false] at hc
      omega
    have hp1 := searchIso_none h45
    have hp2 := searchSlash22_none h47
    have hp3 := searchSlash12_none h47
    have hp4 := p4_none_march (digitC_mod (d / 10)) (digitC_mod d)
      (digitC_mod (y / 1000)) (digitC_mod (y / 100)) (digitC_mod (y / 10)) (digitC_mod y)
    have hp5 := p5_none_march (digitC_mod (d / 10)) (digitC_mod d)
      (digitC_mod (y / 1000)) (digitC_mod (y / 100)) (digitC_mod (y / 10)) (digitC_mod y)
    have hmpf : monthFromPrefix monthsFull (77 :: 97 :: 114 :: 99 :: 104 :: 32 :: (48 + y / 1000 % 10) :: (48 + y / 100 % 10) :: (48 + y / 10 % 10) :: (48 + y % 10) :: []) =
        some (3, 5, 32 :: (48 + y / 1000 % 10) :: (48 + y / 100 % 10) :: (48 + y / 10 % 10) :: (48 + y % 10) :: []) := rfl
    have hst6 : matchDMonthYAt monthsFull ((48 + d / 10 % 10) :: (48 + d % 10) :: 32 :: 77 :: 97 :: 114 :: 99 :: 104 :: 32 :: (48 + y / 1000 % 10) :: (48 + y / 100 % 10) :: (48 + y / 10 % 10) :: (48 + y % 10) :: []) = some 13 :=
      matchDMonthY_at_start (digitC_mod (d / 10)) (digitC_mod d)
        (digitC_mod (y / 1000)) (digitC_mod (y / 100)) (digitC_mod (y / 10))
        (digitC_mod y) (by decide) hmpf
    have hs6 : searchWith (matchDMonthYAt monthsFull) ((48 + d / 10 % 10) :: (48 + d % 10) :: 32 :: 77 :: 97 :: 114 :: 99 :: 104 :: 32 :: (48 + y / 1000 % 10) :: (48 + y / 100 % 10) :: (48 + y / 10 % 10) :: (48 + y % 10) :: []) = some ((48 + d / 10 % 10) :: (48 + d % 10) :: 32 :: 77 :: 97 :: 114 :: 99 :: 104 :: 32 :: (48 + y / 1000 % 10) :: (48 + y / 100 % 10) :: (48 + y / 10 % 10) :: (48 + y % 10) :: []) :=
      searchWith_cons_some hst6
    have hrc := removeCommas_eq_self h44
    have hstrp : strpDBY monthsFull ((48 + d / 10 % 10) :: (48 + d % 10) :: 32 :: 77 :: 97 :: 114 :: 99 :: 104 :: 32 :: (48 + y / 1000 % 10) :: (48 + y / 100 % 10) :: (48 + y / 10 % 10) :: (48 + y % 10) :: []) = some ⟨y, 3, d⟩ :=
      strpDBY_compute (by decide) hmpf hv
    have htry : tryPatterns ((48 + d / 10 % 10) :: (48 + d % 10) :: 32 :: 77 :: 97 :: 114 :: 99 :: 104 :: 32 :: (48 + y / 1000 % 10) :: (48 + y / 100 % 10) :: (48 + y / 10 % 10) :: (48 + y % 10) :: []) = some (⟨y, 3, d⟩ : Date) := by
      simp only [tryPatterns, tryOne, hp1, hp2, hp3, hp4, hp5, hs6, hrc, hstrp,
        Option.orElse]
    unfold parse_date
    rw [if_neg (List.cons_ne_nil _ _), hclean, htry]
  · have hS : fmtDMonthY ⟨y, 4, d⟩ = (48 + d / 10 % 10) :: (48 + d % 10) :: 32 :: 65 :: 112 :: 114 :: 105 :: 108 :: 32 :: (48 + y / 1000 % 10) :: (48 + y / 100 % 10) :: (48 + y / 10 % 10) :: (48 + y % 10) :: [] := rfl
    rw [hS]
    have htin : tidy (65 :: 112 :: 114 :: 105 :: 108 :: 32 :: (48 + y / 1000 % 10) :: (48 + y / 100 % 10) :: (48 + y / 10 % 10) :: (48 + y % 10) :: []) :=
      tidy_join (65 :: 112 :: 114 :: 105 :: 108 :: []) (by simp) (by decide)
        ((48 + y / 1000 % 10) :: (48 + y / 100 % 10) :: (48 + y / 10 % 10) :: (48 + y % 10) :: []) (tidy_of_all_nonws _ (by
          intro c hc
          simp only [List.mem_cons, List.not_mem_nil, or_false] at hc
          unfold isWsC
          omega))
        (tidyHeadP_cons (by
          unfold isWsC
          omega)) (by simp)
    have hclean : cleanText ((48 + d / 10 % 10) :: (48 + d % 10) :: 32 :: 65 :: 112 :: 114 :: 105 :: 108 :: 32 :: (48 + y / 1000 % 10) :: (48 + y / 100 % 10) :: (48 + y / 10 % 10) :: (48 + y % 10) :: []) = (48 + d / 10 % 10) :: (48 + d % 10) :: 32 :: 65 :: 112 :: 114 :: 105 :: 108 :: 32 :: (48 + y / 1000 % 10) :: (48 + y / 100 % 10) :: (48 + y / 10 % 10) :: (48 + y % 10) :: [] := by
      apply cleanText_eq
      · exact tidy_join ((48 + d / 10 % 10) :: (48 + d % 10) :: []) (by simp)
          (by
            intro c hc
            simp only [List.mem_cons, List.not_mem_nil, or_false] at hc
            unfold isWsC
            omega)
          (65 :: 112 :: 114 :: 105 :: 108 :: 32 :: (48 + y / 1000 % 10) :: (48 + y / 100 % 10) :: (48 + y / 10 % 10) :: (48 + y % 10) :: []) htin (tidyHeadP_cons (by decide)) (by simp)
      · exact tidyHeadP_cons (by
          unfold isWsC
          omega)
    have h45 : ∀ c ∈ ((48 + d / 10 % 10) :: (48 + d % 10) :: 32 :: 65 :: 112 :: 114 :: 105 :: 108 :: 32 :: (48 + y / 1000 % 10) :: (48 + y / 100 % 10) :: (48 + y / 10 % 10) :: (48 + y % 10) :: [] : Str), c ≠ 45 := by
      intro c hc
      simp only [List.mem_cons, List.not_mem_nil, or_false] at hc
      omega
    have h47 : ∀ c ∈ ((48 + d / 10 % 10) :: (48 + d % 10) :: 32 :: 65 :: 112 :: 114 :: 105 :: 108 :: 32 :: (48 + y / 1000 % 10) :: (48 + y / 100 % 10) :: (48 + y / 10 % 10) :: (48 + y % 10) :: [] : Str), c ≠ 47 := by
      intro c hc
      simp only [List.mem_cons, List.not_mem_nil, or_false] at hc
      omega
    have h44 : ∀ c ∈ ((48 + d / 10 % 10) :: (48 + d % 10) :: 32 :: 65 :: 112 :: 114 :: 105 :: 108 :: 32 :: (48 + y / 1000 % 10) :: (48 + y / 100 % 10) :: (48 + y / 10 % 10) :: (48 + y % 10) :: [] : Str), c ≠ 44 := by
      intro c hc
      simp only [List.mem_cons, List.not_mem_nil, or_false] at hc
      omega
    have hp1 := searchIso_none h45
    have hp2 := searchSlash22_none h47
    have hp3 := searchSlash12_none h47
    have hp4 := p4_none_april (digitC_mod (d / 10)) (digitC_mod d)
      (digitC_mod (y / 1000)) (digitC_mod (y / 100)) (digitC_mod (y / 10)) (digitC_mod y)
    have hp5 := p5_none_april (digitC_mod (d / 10)) (digitC_mod d)
      (digitC_mod (y / 1000)) (digitC_mod (y / 100)) (digitC_mod (y / 10)) (digitC_mod y)
    have hmpf : monthFromPrefix monthsFull (65 :: 112 :: 114 :: 105 :: 108 :: 32 :: (48 + y / 1000 % 10) :: (48 + y / 100 % 10) :: (48 + y / 10 % 10) :: (48 + y % 10) :: []) =
        some (4, 5, 32 :: (48 + y / 1000 % 10) :: (48 + y / 100 % 10) :: (48 + y / 10 % 10) :: (48 + y % 10) :: []) := rfl
    have hst6 : matchDMonthYAt monthsFull ((48 + d / 10 % 10) :: (48 + d % 10) :: 32 :: 65 :: 112 :: 114 :: 105 :: 108 :: 32 :: (48 + y / 1000 % 10) :: (48 + y / 100 % 10) :: (48 + y / 10 % 10) :: (48 + y % 10) :: []) = some 13 :=
      matchDMonthY_at_start (digitC_mod (d / 10)) (digitC_mod d)
        (digitC_mod (y / 1000)) (digitC_mod (y / 100)) (digitC_mod (y / 10))
        (digitC_mod y) (by decide) hmpf
    have hs6 : searchWith (matchDMonthYAt monthsFull) ((48 + d / 10 % 10) :: (48 + d % 10) :: 32 :: 65 :: 112 :: 114 :: 105 :: 108 :: 32 :: (48 + y / 1000 % 10) :: (48 + y / 100 % 10) :: (48 + y / 10 % 10) :: (48 + y % 10) :: []) = some ((48 + d / 10 % 10) :: (48 + d % 10) :: 32 :: 65 :: 112 :: 114 :: 105 :: 108 :: 32 :: (48 + y / 1000 % 10) :: (48 + y / 100 % 10) :: (48 + y / 10 % 10) :: (48 + y % 10) :: []) :=
      searchWith_cons_some hst6
    have hrc := removeCommas_eq_self h44
    have hstrp : strpDBY monthsFull ((48 + d / 10 % 10) :: (48 + d % 10) :: 32 :: 65 :: 112 :: 114 :: 105 :: 108 :: 32 :: (48 + y / 1000 % 10) :: (48 + y / 100 % 10) :: (48 + y / 10 % 10) :: (48 + y % 10) :: []) = some ⟨y, 4, d⟩ :=
      strpDBY_compute (by decide) hmpf hv
    have htry : tryPatterns ((48 + d / 10 % 10) :: (48 + d % 10) :: 32 :: 65 :: 112 :: 114 :: 105 :: 108 :: 32 :: (48 + y / 1000 % 10) :: (48 + y / 100 % 10) :: (48 + y / 10 % 10) :: (48 + y % 10) :: []) = some (⟨y, 4, d⟩ : Date) := by
      simp only [tryPatterns, tryOne, hp1, hp2, hp3, hp4, hp5, hs6, hrc, hstrp,
        Option.orElse]
    unfold parse_date
    rw [if_neg (List.cons_ne_nil _ _), hclean, htry]
  · have hS : fmtDMonthY ⟨y, 5, d⟩ = (48 + d / 10 % 10) :: (48 + d % 10) :: 32 :: 77 :: 97 :: 121 :: 32 :: (48 + y / 1000 % 10) :: (48 + y / 100 % 10) :: (48 + y / 10 % 10) :: (48 + y % 10) :: [] := rfl
    rw [hS]
    have htin : tidy (77 :: 97 :: 121 :: 32 :: (48 + y / 1000 % 10) :: (48 + y / 100 % 10) :: (48 + y / 10 % 10) :: (48 + y % 10) :: []) :=
      tidy_join (77 :: 97 :: 121 :: []) (by simp) (by decide)
        ((48 + y / 1000 % 10) :: (48 + y / 100 % 10) :: (48 + y / 10 % 10) :: (48 + y % 10) :: []) (tidy_of_all_nonws _ (by
          intro c hc
          simp only [List.mem_cons, List.not_mem_nil, or_false] at hc
          unfold isWsC
          omega))
        (tidyHeadP_cons (by
          unfold isWsC
          omega)) (by simp)
    have hclean : cleanText ((48 + d / 10 % 10) :: (48 + d % 10) :: 32 :: 77 :: 97 :: 121 :: 32 :: (48 + y / 1000 % 10) :: (48 + y / 100 % 10) :: (48 + y / 10 % 10) :: (48 + y % 10) :: []) = (48 + d / 10 % 10) :: (48 + d % 10) :: 32 :: 77 :: 97 :: 121 :: 32 :: (48 + y / 1000 % 10) :: (48 + y / 100 % 10) :: (48 + y / 10 % 10) :: (48 + y % 10) :: [] := by
      apply cleanText_eq
      · exact tidy_join ((48 + d / 10 % 10) :: (48 + d % 10) :: []) (by simp)
          (by
            intro c hc
            simp only [List.mem_cons, List.not_mem_nil, or_false] at hc
            unfold isWsC
            omega)
          (77 :: 97 :: 121 :: 32 :: (48 + y / 1000 % 10) :: (48 + y / 100 % 10) :: (48 + y / 10 % 10) :: (48 + y % 10) :: []) htin (tidyHeadP_cons (by decide)) (by simp)
      · exact tidyHeadP_cons (by
          unfold isWsC
          omega)
    have h45 : ∀ c ∈ ((48 + d / 10 % 10) :: (48 + d % 10) :: 32 :: 77 :: 97 :: 121 :: 32 :: (48 + y / 1000 % 10) :: (48 + y / 100 % 10) :: (48 + y / 10 % 10) :: (48 + y % 10) :: [] : Str), c ≠ 45 := by
      intro c hc
      simp only [List.mem_cons, List.not_mem_nil, or_false] at hc
      omega
    have h47 : ∀ c ∈ ((48 + d / 10 % 10) :: (48 + d % 10) :: 32 :: 77 :: 97 :: 121 :: 32 :: (48 + y / 1000 % 10) :: (48 + y / 100 % 10) :: (48 + y / 10 % 10) :: (48 + y % 10) :: [] : Str), c ≠ 47 := by
      intro c hc
      simp only [List.mem_cons, List.not_mem_nil, or_false] at hc
      omega
    have h44 : ∀ c ∈ ((48 + d / 10 % 10) :: (48 + d % 10) :: 32 :: 77 :: 97 :: 121 :: 32 :: (48 + y / 1000 % 10) :: (48 + y / 100 % 10) :: (48 + y / 10 % 10) :: (48 + y % 10) :: [] : Str), c ≠ 44 := by
      intro c hc
      simp only [List.mem_cons, List.not_mem_nil, or_false] at hc
      omega
    have hp1 := searchIso_none h45
    have hp2 := searchSlash22_none h47
    have hp3 := searchSlash12_none h47
    have hp4 := p4_none_may (digitC_mod (d / 10)) (digitC_mod d)
      (digitC_mod (y / 1000)) (digitC_mod (y / 100)) (digitC_mod (y / 10)) (digitC_mod y)
    have hp5 := p5_none_may (digitC_mod (d / 10)) (digitC_mod d)
      (digitC_mod (y / 1000)) (digitC_mod (y / 100)) (digitC_mod (y / 10)) (digitC_mod y)
    have hmpf : monthFromPrefix monthsFull (77 :: 97 :: 121 :: 32 :: (48 + y / 1000 % 10) :: (48 + y / 100 % 10) :: (48 + y / 10 % 10) :: (48 + y % 10) :: []) =
        some (5, 3, 32 :: (48 + y / 1000 % 10) :: (48 + y / 100 % 10) :: (48 + y / 10 % 10) :: (48 + y % 10) :: []) := rfl
    have hst6 : matchDMonthYAt monthsFull ((48 + d / 10 % 10) :: (48 + d % 10) :: 32 :: 77 :: 97 :: 121 :: 32 :: (48 + y / 1000 % 10) :: (48 + y / 100 % 10) :: (48 + y / 10 % 10) :: (48 + y % 10) :: []) = some 11 :=
      matchDMonthY_at_start (digitC_mod (d / 10)) (digitC_mod d)
        (digitC_mod (y / 1000)) (digitC_mod (y / 100)) (digitC_mod (y / 10))
        (digitC_mod y) (by decide) hmpf
    have hs6 : searchWith (matchDMonthYAt monthsFull) ((48 + d / 10 % 10) :: (48 + d % 10) :: 32 :: 77 :: 97 :: 121 :: 32 :: (48 + y / 1000 % 10) :: (48 + y / 100 % 10) :: (48 + y / 10 % 10) :: (48 + y % 10) :: []) = some ((48 + d / 10 % 10) :: (48 + d % 10) :: 32 :: 77 :: 97 :: 121 :: 32 :: (48 + y / 1000 % 10) :: (48 + y / 100 % 10) :: (48 + y / 10 % 10) :: (48 + y % 10) :: []) :=
      searchWith_cons_some hst6
    have hrc := removeCommas_eq_self h44
    have hstrp : strpDBY monthsFull ((48 + d / 10 % 10) :: (48 + d % 10) :: 32 :: 77 :: 97 :: 121 :: 32 :: (48 + y / 1000 % 10) :: (48 + y / 100 % 10) :: (48 + y / 10 % 10) :: (48 + y % 10) :: []) = some ⟨y, 5, d⟩ :=
      strpDBY_compute (by decide) hmpf hv
    have htry : tryPatterns ((48 + d / 10 % 10) :: (48 + d % 10) :: 32 :: 77 :: 97 :: 121 :: 32 :: (48 + y / 1000 % 10) :: (48 + y / 100 % 10) :: (48 + y / 10 % 10) :: (48 + y % 10) :: []) = some (⟨y, 5, d⟩ : Date) := by
      simp only [tryPatterns, tryOne, hp1, hp2, hp3, hp4, hp5, hs6, hrc, hstrp,
        Option.orElse]
    unfold parse_date
    rw [if_neg (List.cons_ne_nil _ _), hclean, htry]
  · have hS : fmtDMonthY ⟨y, 6, d⟩ = (48 + d / 10 % 10) :: (48 + d % 10) :: 32 :: 74 :: 117 :: 110 :: 101 :: 32 :: (48 + y / 1000 % 10) :: (48 + y / 100 % 10) :: (48 + y / 10 % 10) :: (48 + y % 10) :: [] := rfl
    rw [hS]
    have htin : tidy (74 :: 117 :: 110 :: 101 :: 32 :: (48 + y / 1000 % 10) :: (48 + y / 100 % 10) :: (48 + y / 10 % 10) :: (48 + y % 10) :: []) :=
      tidy_join (74 :: 117 :: 110 :: 101 :: []) (by simp) (by decide)
        ((48 + y / 1000 % 10) :: (48 + y / 100 % 10) :: (48 + y / 10 % 10) :: (48 + y % 10) :: []) (tidy_of_all_nonws _ (by
          intro c hc
          simp only [List.mem_cons, List.not_mem_nil, or_false] at hc
          unfold isWsC
          omega))
        (tidyHeadP_cons (by
          unfold isWsC
          omega)) (by simp)
    have hclean : cleanText ((48 + d / 10 % 10) :: (48 + d % 10) :: 32 :: 74 :: 117 :: 110 :: 101 :: 32 :: (48 + y / 1000 % 10) :: (48 + y / 100 % 10) :: (48 + y / 10 % 10) :: (48 + y % 10) :: []) = (48 + d / 10 % 10) :: (48 + d % 10) :: 32 :: 74 :: 117 :: 110 :: 101 :: 32 :: (48 + y / 1000 % 10) :: (48 + y / 100 % 10) :: (48 + y / 10 % 10) :: (48 + y % 10) :: [] := by
      apply cleanText_eq
      · exact tidy_join ((48 + d / 10 % 10) :: (48 + d % 10) :: []) (by simp)
          (by
            intro c hc
            simp only [List.mem_cons, List.not_mem_nil, or_false] at hc
            unfold isWsC
            omega)
          (74 :: 117 :: 110 :: 101 :: 32 :: (48 + y / 1000 % 10) :: (48 + y / 100 % 10) :: (48 + y / 10 % 10) :: (48 + y % 10) :: []) htin (tidyHeadP_cons (by decide)) (by simp)
      · exact tidyHeadP_cons (by
          unfold isWsC
          omega)
    have h45 : ∀ c ∈ ((48 + d / 10 % 10) :: (48 + d % 10) :: 32 :: 74 :: 117 :: 110 :: 101 :: 32 :: (48 + y / 1000 % 10) :: (48 + y / 100 % 10) :: (48 + y / 10 % 10) :: (48 + y % 10) :: [] : Str), c ≠ 45 := by
      intro c hc
      simp only [List.mem_cons, List.not_mem_nil, or_false] at hc
      omega
    have h47 : ∀ c ∈ ((48 + d / 10 % 10) :: (48 + d % 10) :: 32 :: 74 :: 117 :: 110 :: 101 :: 32 :: (48 + y / 1000 % 10) :: (48 + y / 100 % 10) :: (48 + y / 10 % 10) :: (48 + y % 10) :: [] : Str), c ≠ 47 := by
      intro c hc
      simp only [List.mem_cons, List.not_mem_nil, or_false] at hc
      omega
    have h44 : ∀ c ∈ ((48 + d / 10 % 10) :: (48 + d % 10) :: 32 :: 74 :: 117 :: 110 :: 101 :: 32 :: (48 + y / 1000 % 10) :: (48 + y / 100 % 10) :: (48 + y / 10 % 10) :: (48 + y % 10) :: [] : Str), c ≠ 44 := by
      intro c hc
      simp only [List.mem_cons, List.not_mem_nil, or_false] at hc
      omega
    have hp1 := searchIso_none h45
    have hp2 := searchSlash22_none h47
    have hp3 := searchSlash12_none h47
    have hp4 := p4_none_june (digitC_mod (d / 10)) (digitC_mod d)
      (digitC_mod (y / 1000)) (digitC_mod (y / 100)) (digitC_mod (y / 10)) (digitC_mod y)
    have hp5 := p5_none_june (digitC_mod (d / 10)) (digitC_mod d)
      (digitC_mod (y / 1000)) (digitC_mod (y / 100)) (digitC_mod (y / 10)) (digitC_mod y)
    have hmpf : monthFromPrefix monthsFull (74 :: 117 :: 110 :: 101 :: 32 :: (48 + y / 1000 % 10) :: (48 + y / 100 % 10) :: (48 + y / 10 % 10) :: (48 + y % 10) :: []) =
        some (6, 4, 32 :: (48 + y / 1000 % 10) :: (48 + y / 100 % 10) :: (48 + y / 10 % 10) :: (48 + y % 10) :: []) := rfl
    have hst6 : matchDMonthYAt monthsFull ((48 + d / 10 % 10) :: (48 + d % 10) :: 32 :: 74 :: 117 :: 110 :: 101 :: 32 :: (48 + y / 1000 % 10) :: (48 + y / 100 % 10) :: (48 + y / 10 % 10) :: (48 + y % 10) :: []) = some 12 :=
      matchDMonthY_at_start (digitC_mod (d / 10)) (digitC_mod d)
        (digitC_mod (y / 1000)) (digitC_mod (y / 100)) (digitC_mod (y / 10))
        (digitC_mod y) (by decide) hmpf
    have hs6 : searchWith (matchDMonthYAt monthsFull) ((48 + d / 10 % 10) :: (48 + d % 10) :: 32 :: 74 :: 117 :: 110 :: 101 :: 32 :: (48 + y / 1000 % 10) :: (48 + y / 100 % 10) :: (48 + y / 10 % 10) :: (48 + y % 10) :: []) = some ((48 + d / 10 % 10) :: (48 + d % 10) :: 32 :: 74 :: 117 :: 110 :: 101 :: 32 :: (48 + y / 1000 % 10) :: (48 + y / 100 % 10) :: (48 + y / 10 % 10) :: (48 + y % 10) :: []) :=
      searchWith_cons_some hst6
    have hrc := removeCommas_eq_self h44
    have hstrp : strpDBY monthsFull ((48 + d / 10 % 10) :: (48 + d % 10) :: 32 :: 74 :: 117 :: 110 :: 101 :: 32 :: (48 + y / 1000 % 10) :: (48 + y / 100 % 10) :: (48 + y / 10 % 10) :: (48 + y % 10) :: []) = some ⟨y, 6, d⟩ :=
      strpDBY_compute (by decide) hmpf hv
    have htry : tryPatterns ((48 + d / 10 % 10) :: (48 + d % 10) :: 32 :: 74 :: 117 :: 110 :: 101 :: 32 :: (48 + y / 1000 % 10) :: (48 + y / 100 % 10) :: (48 + y / 10 % 10) :: (48 + y % 10) :: []) = some (⟨y, 6, d⟩ : Date) := by
      simp only [tryPatterns, tryOne, hp1, hp2, hp3, hp4, hp5, hs6, hrc, hstrp,
        Option.orElse]
    unfold parse_date
    rw [if_neg (List.cons_ne_nil _ _), hclean, htry]
  · have hS : fmtDMonthY ⟨y, 7, d⟩ = (48 + d / 10 % 10) :: (48 + d % 10) :: 32 :: 74 :: 117 :: 108 :: 121 :: 32 :: (48 + y / 1000 % 10) :: (48 + y / 100 % 10) :: (48 + y / 10 % 10) :: (48 + y % 10) :: [] := rfl
    rw [hS]
    have htin : tidy (74 :: 117 :: 108 :: 121 :: 32 :: (48 + y / 1000 % 10) :: (48 + y / 100 % 10) :: (48 + y / 10 % 10) :: (48 + y % 10) :: []) :=
      tidy_join (74 :: 117 :: 108 :: 121 :: []) (by simp) (by decide)
        ((48 + y / 1000 % 10) :: (48 + y / 100 % 10) :: (48 + y / 10 % 10) :: (48 + y % 10) :: []) (tidy_of_all_nonws _ (by
          intro c hc
          simp only [List.mem_cons, List.not_mem_nil, or_false] at hc
          unfold isWsC
          omega))
        (tidyHeadP_cons (by
          unfold isWsC
          omega)) (by simp)
    have hclean : cleanText ((48 + d / 10 % 10) :: (48 + d % 10) :: 32 :: 74 :: 117 :: 108 :: 121 :: 32 :: (48 + y / 1000 % 10) :: (48 + y / 100 % 10) :: (48 + y / 10 % 10) :: (48 + y % 10) :: []) = (48 + d / 10 % 10) :: (48 + d % 10) :: 32 :: 74 :: 117 :: 108 :: 121 :: 32 :: (48 + y / 1000 % 10) :: (48 + y / 100 % 10) :: (48 + y / 10 % 10) :: (48 + y % 10) :: [] := by
      apply cleanText_eq
      · exact tidy_join ((48 + d / 10 % 10) :: (48 + d % 10) :: []) (by simp)
          (by
            intro c hc
            simp only [List.mem_cons, List.not_mem_nil, or_false] at hc
            unfold isWsC
            omega)
          (74 :: 117 :: 108 :: 121 :: 32 :: (48 + y / 1000 % 10) :: (48 + y / 100 % 10) :: (48 + y / 10 % 10) :: (48 + y % 10) :: []) htin (tidyHeadP_cons (by decide)) (by simp)
      · exact tidyHeadP_cons (by
          unfold isWsC
          omega)
    have h45 : ∀ c ∈ ((48 + d / 10 % 10) :: (48 + d % 10) :: 32 :: 74 :: 117 :: 108 :: 121 :: 32 :: (48 + y / 1000 % 10) :: (48 + y / 100 % 10) :: (48 + y / 10 % 10) :: (48 + y % 10) :: [] : Str), c ≠ 45 := by
      intro c hc
      simp only [List.mem_cons, List.not_mem_nil, or_false] at hc
      omega
    have h47 : ∀ c ∈ ((48 + d / 10 % 10) :: (48 + d % 10) :: 32 :: 74 :: 117 :: 108 :: 121 :: 32 :: (48 + y / 1000 % 10) :: (48 + y / 100 % 10) :: (48 + y / 10 % 10) :: (48 + y % 10) :: [] : Str), c ≠ 47 := by
      intro c hc
      simp only [List.mem_cons, List.not_mem_nil, or_false] at hc
      omega
    have h44 : ∀ c ∈ ((48 + d / 10 % 10) :: (48 + d % 10) :: 32 :: 74 :: 117 :: 108 :: 121 :: 32 :: (48 + y / 1000 % 10) :: (48 + y / 100 % 10) :: (48 + y / 10 % 10) :: (48 + y % 10) :: [] : Str), c ≠ 44 := by
      intro c hc
      simp only [List.mem_cons, List.not_mem_nil, or_false] at hc
      omega
    have hp1 := searchIso_none h45
    have hp2 := searchSlash22_none h47
    have hp3 := searchSlash12_none h47
    have hp4 := p4_none_july (digitC_mod (d / 10)) (digitC_mod d)
      (digitC_mod (y / 1000)) (digitC_mod (y / 100)) (digitC_mod (y / 10)) (digitC_mod y)
    have hp5 := p5_none_july (digitC_mod (d / 10)) (digitC_mod d)
      (digitC_mod (y / 1000)) (digitC_mod (y / 100)) (digitC_mod (y / 10)) (digitC_mod y)
    have hmpf : monthFromPrefix monthsFull (74 :: 117 :: 108 :: 121 :: 32 :: (48 + y / 1000 % 10) :: (48 + y / 100 % 10) :: (48 + y / 10 % 10) :: (48 + y % 10) :: []) =
        some (7, 4, 32 :: (48 + y / 1000 % 10) :: (48 + y / 100 % 10) :: (48 + y / 10 % 10) :: (48 + y % 10) :: []) := rfl
    have hst6 : matchDMonthYAt monthsFull ((48 + d / 10 % 10) :: (48 + d % 10) :: 32 :: 74 :: 117 :: 108 :: 121 :: 32 :: (48 + y / 1000 % 10) :: (48 + y / 100 % 10) :: (48 + y / 10 % 10) :: (48 + y % 10) :: []) = some 12 :=
      matchDMonthY_at_start (digitC_mod (d / 10)) (digitC_mod d)
        (digitC_mod (y / 1000)) (digitC_mod (y / 100)) (digitC_mod (y / 10))
        (digitC_mod y) (by decide) hmpf
    have hs6 : searchWith (matchDMonthYAt monthsFull) ((48 + d / 10 % 10) :: (48 + d % 10) :: 32 :: 74 :: 117 :: 108 :: 121 :: 32 :: (48 + y / 1000 % 10) :: (48 + y / 100 % 10) :: (48 + y / 10 % 10) :: (48 + y % 10) :: []) = some ((48 + d / 10 % 10) :: (48 + d % 10) :: 32 :: 74 :: 117 :: 108 :: 121 :: 32 :: (48 + y / 1000 % 10) :: (48 + y / 100 % 10) :: (48 + y / 10 % 10) :: (48 + y % 10) :: []) :=
      searchWith_cons_some hst6
    have hrc := removeCommas_eq_self h44
    have hstrp : strpDBY monthsFull ((48 + d / 10 % 10) :: (48 + d % 10) :: 32 :: 74 :: 117 :: 108 :: 121 :: 32 :: (48 + y / 1000 % 10) :: (48 + y / 100 % 10) :: (48 + y / 10 % 10) :: (48 + y % 10) :: []) = some ⟨y, 7, d⟩ :=
      strpDBY_compute (by decide) hmpf hv
    have htry : tryPatterns ((48 + d / 10 % 10) :: (48 + d % 10) :: 32 :: 74 :: 117 :: 108 :: 121 :: 32 :: (48 + y / 1000 % 10) :: (48 + y / 100 % 10) :: (48 + y / 10 % 10) :: (48 + y % 10) :: []) = some (⟨y, 7, d⟩ : Date) := by
      simp only [tryPatterns, tryOne, hp1, hp2, hp3, hp4, hp5, hs6, hrc, hstrp,
        Option.orElse]
    unfold parse_date
    rw [if_neg (List.cons_ne_nil _ _), hclean, htry]
  · have hS : fmtDMonthY ⟨y, 8, d⟩ = (48 + d / 10 % 10) :: (48 + d % 10) :: 32 :: 65 :: 117 :: 103 :: 117 :: 115 :: 116 :: 32 :: (48 + y / 1000 % 10) :: (48 + y / 100 % 10) :: (48 + y / 10 % 10) :: (48 + y % 10) :: [] := rfl
    rw [hS]
    have htin : tidy (65 :: 117 :: 103 :: 117 :: 115 :: 116 :: 32 :: (48 + y / 1000 % 10) :: (48 + y / 100 % 10) :: (48 + y / 10 % 10) :: (48 + y % 10) :: []) :=
      tidy_join (65 :: 117 :: 103 :: 117 :: 115 :: 116 :: []) (by simp) (by decide)
        ((48 + y / 1000 % 10) :: (48 + y / 100 % 10) :: (48 + y / 10 % 10) :: (48 + y % 10) :: []) (tidy_of_all_nonws _ (by
          intro c hc
          simp only [List.mem_cons, List.not_mem_nil, or_false] at hc
          unfold isWsC
          omega))
        (tidyHeadP_cons (by
          unfold isWsC
          omega)) (by simp)
    have hclean : cleanText ((48 + d / 10 % 10) :: (48 + d % 10) :: 32 :: 65 :: 117 :: 103 :: 117 :: 115 :: 116 :: 32 :: (48 + y / 1000 % 10) :: (48 + y / 100 % 10) :: (48 + y / 10 % 10) :: (48 + y % 10) :: []) = (48 + d / 10 % 10) :: (48 + d % 10) :: 32 :: 65 :: 117 :: 103 :: 117 :: 115 :: 116 :: 32 :: (48 + y / 1000 % 10) :: (48 + y / 100 % 10) :: (48 + y / 10 % 10) :: (48 + y % 10) :: [] := by
      apply cleanText_eq
      · exact tidy_join ((48 + d / 10 % 10) :: (48 + d % 10) :: []) (by simp)
          (by
            intro c hc
            simp only [List.mem_cons, List.not_mem_nil, or_false] at hc
            unfold isWsC
            omega)
          (65 :: 117 :: 103 :: 117 :: 115 :: 116 :: 32 :: (48 + y / 1000 % 10) :: (48 + y / 100 % 10) :: (48 + y / 10 % 10) :: (48 + y % 10) :: []) htin (tidyHeadP_cons (by decide)) (by simp)
      · exact tidyHeadP_cons (by
          unfold isWsC
          omega)
    have h45 : ∀ c ∈ ((48 + d / 10 % 10) :: (48 + d % 10) :: 32 :: 65 :: 117 :: 103 :: 117 :: 115 :: 116 :: 32 :: (48 + y / 1000 % 10) :: (48 + y / 100 % 10) :: (48 + y / 10 % 10) :: (48 + y % 10) :: [] : Str), c ≠ 45 := by
      intro c hc
      simp only [List.mem_cons, List.not_mem_nil, or_false] at hc
      omega
    have h47 : ∀ c ∈ ((48 + d / 10 % 10) :: (48 + d % 10) :: 32 :: 65 :: 117 :: 103 :: 117 :: 115 :: 116 :: 32 :: (48 + y / 1000 % 10) :: (48 + y / 100 % 10) :: (48 + y / 10 % 10) :: (48 + y % 10) :: [] : Str), c ≠ 47 := by
      intro c hc
      simp only [List.mem_cons, List.not_mem_nil, or_false] at hc
      omega
    have h44 : ∀ c ∈ ((48 + d / 10 % 10) :: (48 + d % 10) :: 32 :: 65 :: 117 :: 103 :: 117 :: 115 :: 116 :: 32 :: (48 + y / 1000 % 10) :: (48 + y / 100 % 10) :: (48 + y / 10 % 10) :: (48 + y % 10) :: [] : Str), c ≠ 44 := by
      intro c hc
      simp only [List.mem_cons, List.not_mem_nil, or_false] at hc
      omega
    have hp1 := searchIso_none h45
    have hp2 := searchSlash22_none h47
    have hp3 := searchSlash12_none h47
    have hp4 := p4_none_august (digitC_mod (d / 10)) (digitC_mod d)
      (digitC_mod (y / 1000)) (digitC_mod (y / 100)) (digitC_mod (y / 10)) (digitC_mod y)
    have hp5 := p5_none_august (digitC_mod (d / 10)) (digitC_mod d)
      (digitC_mod (y / 1000)) (digitC_mod (y / 100)) (digitC_mod (y / 10)) (digitC_mod y)
    have hmpf : monthFromPrefix monthsFull (65 :: 117 :: 103 :: 117 :: 115 :: 116 :: 32 :: (48 + y / 1000 % 10) :: (48 + y / 100 % 10) :: (48 + y / 10 % 10) :: (48 + y % 10) :: []) =
        some (8, 6, 32 :: (48 + y / 1000 % 10) :: (48 + y / 100 % 10) :: (48 + y / 10 % 10) :: (48 + y % 10) :: []) := rfl
    have hst6 : matchDMonthYAt monthsFull ((48 + d / 10 % 10) :: (48 + d % 10) :: 32 :: 65 :: 117 :: 103 :: 117 :: 115 :: 116 :: 32 :: (48 + y / 1000 % 10) :: (48 + y / 100 % 10) :: (48 + y / 10 % 10) :: (48 + y % 10) :: []) = some 14 :=
      matchDMonthY_at_start (digitC_mod (d / 10)) (digitC_mod d)
        (digitC_mod (y / 1000)) (digitC_mod (y / 100)) (digitC_mod (y / 10))
        (digitC_mod y) (by decide) hmpf
    have hs6 : searchWith (matchDMonthYAt monthsFull) ((48 + d / 10 % 10) :: (48 + d % 10) :: 32 :: 65 :: 117 :: 103 :: 117 :: 115 :: 116 :: 32 :: (48 + y / 1000 % 10) :: (48 + y / 100 % 10) :: (48 + y / 10 % 10) :: (48 + y % 10) :: []) = some ((48 + d / 10 % 10) :: (48 + d % 10) :: 32 :: 65 :: 117 :: 103 :: 117 :: 115 :: 116 :: 32 :: (48 + y / 1000 % 10) :: (48 + y / 100 % 10) :: (48 + y / 10 % 10) :: (48 + y % 10) :: []) :=
      searchWith_cons_some hst6
    have hrc := removeCommas_eq_self h44
    have hstrp : strpDBY monthsFull ((48 + d / 10 % 10) :: (48 + d % 10) :: 32 :: 65 :: 117 :: 103 :: 117 :: 115 :: 116 :: 32 :: (48 + y / 1000 % 10) :: (48 + y / 100 % 10) :: (48 + y / 10 % 10) :: (48 + y % 10) :: []) = some ⟨y, 8, d⟩ :=
      strpDBY_compute (by decide) hmpf hv
    have htry : tryPatterns ((48 + d / 10 % 10) :: (48 + d % 10) :: 32 :: 65 :: 117 :: 103 :: 117 :: 115 :: 116 :: 32 :: (48 + y / 1000 % 10) :: (48 + y / 100 % 10) :: (48 + y / 10 % 10) :: (48 + y % 10) :: []) = some (⟨y, 8, d⟩ : Date) := by
      simp only [tryPatterns, tryOne, hp1, hp2, hp3, hp4, hp5, hs6, hrc, hstrp,
        Option.orElse]
    unfold parse_date
    rw [if_neg (List.cons_ne_nil _ _), hclean, htry]
  · have hS : fmtDMonthY ⟨y, 9, d⟩ = (48 + d / 10 % 10) :: (48 + d % 10) :: 32 :: 83 :: 101 :: 112 :: 116 :: 101 :: 109 :: 98 :: 101 :: 114 :: 32 :: (48 + y / 1000 % 10) :: (48 + y / 100 % 10) :: (48 + y / 10 % 10) :: (48 + y % 10) :: [] := rfl
    rw [hS]
    have htin : tidy (83 :: 101 :: 112 :: 116 :: 101 :: 109 :: 98 :: 101 :: 114 :: 32 :: (48 + y / 1000 % 10) :: (48 + y / 100 % 10) :: (48 + y / 10 % 10) :: (48 + y % 10) :: []) :=
      tidy_join (83 :: 101 :: 112 :: 116 :: 101 :: 109 :: 98 :: 101 :: 114 :: []) (by simp) (by decide)
        ((48 + y / 1000 % 10) :: (48 + y / 100 % 10) :: (48 + y / 10 % 10) :: (48 + y % 10) :: []) (tidy_of_all_nonws _ (by
          intro c hc
          simp only [List.mem_cons, List.not_mem_nil, or_false] at hc
          unfold isWsC
          omega))
        (tidyHeadP_cons (by
          unfold isWsC
          omega)) (by simp)
    have hclean : cleanText ((48 + d / 10 % 10) :: (48 + d % 10) :: 32 :: 83 :: 101 :: 112 :: 116 :: 101 :: 109 :: 98 :: 101 :: 114 :: 32 :: (48 + y / 1000 % 10) :: (48 + y / 100 % 10) :: (48 + y / 10 % 10) :: (48 + y % 10) :: []) = (48 + d / 10 % 10) :: (48 + d % 10) :: 32 :: 83 :: 101 :: 112 :: 116 :: 101 :: 109 :: 98 :: 101 :: 114 :: 32 :: (48 + y / 1000 % 10) :: (48 + y / 100 % 10) :: (48 + y / 10 % 10) :: (48 + y % 10) :: [] := by
      apply cleanText_eq
      · exact tidy_join ((48 + d / 10 % 10) :: (48 + d % 10) :: []) (by simp)
          (by
            intro c hc
            simp only [List.mem_cons, List.not_mem_nil, or_false] at hc
            unfold isWsC
            omega)
          (83 :: 101 :: 112 :: 116 :: 101 :: 109 :: 98 :: 101 :: 114 :: 32 :: (48 + y / 1000 % 10) :: (48 + y / 100 % 10) :: (48 + y / 10 % 10) :: (48 + y % 10) :: []) htin (tidyHeadP_cons (by decide)) (by simp)
      · exact tidyHeadP_cons (by
          unfold isWsC
          omega)
    have h45 : ∀ c ∈ ((48 + d / 10 % 10) :: (48 + d % 10) :: 32 :: 83 :: 101 :: 112 :: 116 :: 101 :: 109 :: 98 :: 101 :: 114 :: 32 :: (48 + y / 1000 % 10) :: (48 + y / 100 % 10) :: (48 + y / 10 % 10) :: (48 + y % 10) :: [] : Str), c ≠ 45 := by
      intro c hc
      simp only [List.mem_cons, List.not_mem_nil, or_false] at hc
      omega
    have h47 : ∀ c ∈ ((48 + d / 10 % 10) :: (48 + d % 10) :: 32 :: 83 :: 101 :: 112 :: 116 :: 101 :: 109 :: 98 :: 101 :: 114 :: 32 :: (48 + y / 1000 % 10) :: (48 + y / 100 % 10) :: (48 + y / 10 % 10) :: (48 + y % 10) :: [] : Str), c ≠ 47 := by
      intro c hc
      simp only [List.mem_cons, List.not_mem_nil, or_false] at hc
      omega
    have h44 : ∀ c ∈ ((48 + d / 10 % 10) :: (48 + d % 10) :: 32 :: 83 :: 101 :: 112 :: 116 :: 101 :: 109 :: 98 :: 101 :: 114 :: 32 :: (48 + y / 1000 % 10) :: (48 + y / 100 % 10) :: (48 + y / 10 % 10) :: (48 + y % 10) :: [] : Str), c ≠ 44 := by
      intro c hc
      simp only [List.mem_cons, List.not_mem_nil, or_false] at hc
      omega
    have hp1 := searchIso_none h45
    have hp2 := searchSlash22_none h47
    have hp3 := searchSlash12_none h47
    have hp4 := p4_none_september (digitC_mod (d / 10)) (digitC_mod d)
      (digitC_mod (y / 1000)) (digitC_mod (y / 100)) (digitC_mod (y / 10)) (digitC_mod y)
    have hp5 := p5_none_september (digitC_mod (d / 10)) (digitC_mod d)
      (digitC_mod (y / 1000)) (digitC_mod (y / 100)) (digitC_mod (y / 10)) (digitC_mod y)
    have hmpf : monthFromPrefix monthsFull (83 :: 101 :: 112 :: 116 :: 101 :: 109 :: 98 :: 101 :: 114 :: 32 :: (48 + y / 1000 % 10) :: (48 + y / 100 % 10) :: (48 + y / 10 % 10) :: (48 + y % 10) :: []) =
        some (9, 9, 32 :: (48 + y / 1000 % 10) :: (48 + y / 100 % 10) :: (48 + y / 10 % 10) :: (48 + y % 10) :: []) := rfl
    have hst6 : matchDMonthYAt monthsFull ((48 + d / 10 % 10) :: (48 + d % 10) :: 32 :: 83 :: 101 :: 112 :: 116 :: 101 :: 109 :: 98 :: 101 :: 114 :: 32 :: (48 + y / 1000 % 10) :: (48 + y / 100 % 10) :: (48 + y / 10 % 10) :: (48 + y % 10) :: []) = some 17 :=
      matchDMonthY_at_start (digitC_mod (d / 10)) (digitC_mod d)
        (digitC_mod (y / 1000)) (digitC_mod (y / 100)) (digitC_mod (y / 10))
        (digitC_mod y) (by decide) hmpf
    have hs6 : searchWith (matchDMonthYAt monthsFull) ((48 + d / 10 % 10) :: (48 + d % 10) :: 32 :: 83 :: 101 :: 112 :: 116 :: 101 :: 109 :: 98 :: 101 :: 114 :: 32 :: (48 + y / 1000 % 10) :: (48 + y / 100 % 10) :: (48 + y / 10 % 10) :: (48 + y % 10) :: []) = some ((48 + d / 10 % 10) :: (48 + d % 10) :: 32 :: 83 :: 101 :: 112 :: 116 :: 101 :: 109 :: 98 :: 101 :: 114 :: 32 :: (48 + y / 1000 % 10) :: (48 + y / 100 % 10) :: (48 + y / 10 % 10) :: (48 + y % 10) :: []) :=
      searchWith_cons_some hst6
    have hrc := removeCommas_eq_self h44
    have hstrp : strpDBY monthsFull ((48 + d / 10 % 10) :: (48 + d % 10) :: 32 :: 83 :: 101 :: 112 :: 116 :: 101 :: 109 :: 98 :: 101 :: 114 :: 32 :: (48 + y / 1000 % 10) :: (48 + y / 100 % 10) :: (48 + y / 10 % 10) :: (48 + y % 10) :: []) = some ⟨y, 9, d⟩ :=
      strpDBY_compute (by decide) hmpf hv
    have htry : tryPatterns ((48 + d / 10 % 10) :: (48 + d % 10) :: 32 :: 83 :: 101 :: 112 :: 116 :: 101 :: 109 :: 98 :: 101 :: 114 :: 32 :: (48 + y / 1000 % 10) :: (48 + y / 100 % 10) :: (48 + y / 10 % 10) :: (48 + y % 10) :: []) = some (⟨y, 9, d⟩ : Date) := by
      simp only [tryPatterns, tryOne, hp1, hp2, hp3, hp4, hp5, hs6, hrc, hstrp,
        Option.orElse]
    unfold parse_date
    rw [if_neg (List.cons_ne_nil _ _), hclean, htry]
  · have hS : fmtDMonthY ⟨y, 10, d⟩ = (48 + d / 10 % 10) :: (48 + d % 10) :: 32 :: 79 :: 99 :: 116 :: 111 :: 98 :: 101 :: 114 :: 32 :: (48 + y / 1000 % 10) :: (48 + y / 100 % 10) :: (48 + y / 10 % 10) :: (48 + y % 10) :: [] := rfl
    rw [hS]
    have htin : tidy (79 :: 99 :: 116 :: 111 :: 98 :: 101 :: 114 :: 32 :: (48 + y / 1000 % 10) :: (48 + y / 100 % 10) :: (48 + y / 10 % 10) :: (48 + y % 10) :: []) :=
      tidy_join (79 :: 99 :: 116 :: 111 :: 98 :: 101 :: 114 :: []) (by simp) (by decide)
        ((48 + y / 1000 % 10) :: (48 + y / 100 % 10) :: (48 + y / 10 % 10) :: (48 + y % 10) :: []) (tidy_of_all_nonws _ (by
          intro c hc
          simp only [List.mem_cons, List.not_mem_nil, or_false] at hc
          unfold isWsC
          omega))
        (tidyHeadP_cons (by
          unfold isWsC
          omega)) (by simp)
    have hclean : cleanText ((48 + d / 10 % 10) :: (48 + d % 10) :: 32 :: 79 :: 99 :: 116 :: 111 :: 98 :: 101 :: 114 :: 32 :: (48 + y / 1000 % 10) :: (48 + y / 100 % 10) :: (48 + y / 10 % 10) :: (48 + y % 10) :: []) = (48 + d / 10 % 10) :: (48 + d % 10) :: 32 :: 79 :: 99 :: 116 :: 111 :: 98 :: 101 :: 114 :: 32 :: (48 + y / 1000 % 10) :: (48 + y / 100 % 10) :: (48 + y / 10 % 10) :: (48 + y % 10) :: [] := by
      apply cleanText_eq
      · exact tidy_join ((48 + d / 10 % 10) :: (48 + d % 10) :: []) (by simp)
          (by
            intro c hc
            simp only [List.mem_cons, List.not_mem_nil, or_false] at hc
            unfold isWsC
            omega)
          (79 :: 99 :: 116 :: 111 :: 98 :: 101 :: 114 :: 32 :: (48 + y / 1000 % 10) :: (48 + y / 100 % 10) :: (48 + y / 10 % 10) :: (48 + y % 10) :: []) htin (tidyHeadP_cons (by decide)) (by simp)
      · exact tidyHeadP_cons (by
          unfold isWsC
          omega)
    have h45 : ∀ c ∈ ((48 + d / 10 % 10) :: (48 + d % 10) :: 32 :: 79 :: 99 :: 116 :: 111 :: 98 :: 101 :: 114 :: 32 :: (48 + y / 1000 % 10) :: (48 + y / 100 % 10) :: (48 + y / 10 % 10) :: (48 + y % 10) :: [] : Str), c ≠ 45 := by
      intro c hc
      simp only [List.mem_cons, List.not_mem_nil, or_false] at hc
      omega
    have h47 : ∀ c ∈ ((48 + d / 10 % 10) :: (48 + d % 10) :: 32 :: 79 :: 99 :: 116 :: 111 :: 98 :: 101 :: 114 :: 32 :: (48 + y / 1000 % 10) :: (48 + y / 100 % 10) :: (48 + y / 10 % 10) :: (48 + y % 10) :: [] : Str), c ≠ 47 := by
      intro c hc
      simp only [List.mem_cons, List.not_mem_nil, or_false] at hc
      omega
    have h44 : ∀ c ∈ ((48 + d / 10 % 10) :: (48 + d % 10) :: 32 :: 79 :: 99 :: 116 :: 111 :: 98 :: 101 :: 114 :: 32 :: (48 + y / 1000 % 10) :: (48 + y / 100 % 10) :: (48 + y / 10 % 10) :: (48 + y % 10) :: [] : Str), c ≠ 44 := by
      intro c hc
      simp only [List.mem_cons, List.not_mem_nil, or_false] at hc
      omega
    have hp1 := searchIso_none h45
    have hp2 := searchSlash22_none h47
    have hp3 := searchSlash12_none h47
    have hp4 := p4_none_october (digitC_mod (d / 10)) (digitC_mod d)
      (digitC_mod (y / 1000)) (digitC_mod (y / 100)) (digitC_mod (y / 10)) (digitC_mod y)
    have hp5 := p5_none_october (digitC_mod (d / 10)) (digitC_mod d)
      (digitC_mod (y / 1000)) (digitC_mod (y / 100)) (digitC_mod (y / 10)) (digitC_mod y)
    have hmpf : monthFromPrefix monthsFull (79 :: 99 :: 116 :: 111 :: 98 :: 101 :: 114 :: 32 :: (48 + y / 1000 % 10) :: (48 + y / 100 % 10) :: (48 + y / 10 % 10) :: (48 + y % 10) :: []) =
        some (10, 7, 32 :: (48 + y / 1000 % 10) :: (48 + y / 100 % 10) :: (48 + y / 10 % 10) :: (48 + y % 10) :: []) := rfl
    have hst6 : matchDMonthYAt monthsFull ((48 + d / 10 % 10) :: (48 + d % 10) :: 32 :: 79 :: 99 :: 116 :: 111 :: 98 :: 101 :: 114 :: 32 :: (48 + y / 1000 % 10) :: (48 + y / 100 % 10) :: (48 + y / 10 % 10) :: (48 + y % 10) :: []) = some 15 :=
      matchDMonthY_at_start (digitC_mod (d / 10)) (digitC_mod d)
        (digitC_mod (y / 1000)) (digitC_mod (y / 100)) (digitC_mod (y / 10))
        (digitC_mod y) (by decide) hmpf
    have hs6 : searchWith (matchDMonthYAt monthsFull) ((48 + d / 10 % 10) :: (48 + d % 10) :: 32 :: 79 :: 99 :: 116 :: 111 :: 98 :: 101 :: 114 :: 32 :: (48 + y / 1000 % 10) :: (48 + y / 100 % 10) :: (48 + y / 10 % 10) :: (48 + y % 10) :: []) = some ((48 + d / 10 % 10) :: (48 + d % 10) :: 32 :: 79 :: 99 :: 116 :: 111 :: 98 :: 101 :: 114 :: 32 :: (48 + y / 1000 % 10) :: (48 + y / 100 % 10) :: (48 + y / 10 % 10) :: (48 + y % 10) :: []) :=
      searchWith_cons_some hst6
    have hrc := removeCommas_eq_self h44
    have hstrp : strpDBY monthsFull ((48 + d / 10 % 10) :: (48 + d % 10) :: 32 :: 79 :: 99 :: 116 :: 111 :: 98 :: 101 :: 114 :: 32 :: (48 + y / 1000 % 10) :: (48 + y / 100 % 10) :: (48 + y / 10 % 10) :: (48 + y % 10) :: []) = some ⟨y, 10, d⟩ :=
      strpDBY_compute (by decide) hmpf hv
    have htry : tryPatterns ((48 + d / 10 % 10) :: (48 + d % 10) :: 32 :: 79 :: 99 :: 116 :: 111 :: 98 :: 101 :: 114 :: 32 :: (48 + y / 1000 % 10) :: (48 + y / 100 % 10) :: (48 + y / 10 % 10) :: (48 + y % 10) :: []) = some (⟨y, 10, d⟩ : Date) := by
      simp only [tryPatterns, tryOne, hp1, hp2, hp3, hp4, hp5, hs6, hrc, hstrp,
        Option.orElse]
    unfold parse_date
    rw [if_neg (List.cons_ne_nil _ _), hclean, htry]
  · have hS : fmtDMonthY ⟨y, 11, d⟩ = (48 + d / 10 % 10) :: (48 + d % 10) :: 32 :: 78 :: 111 :: 118 :: 101 :: 109 :: 98 :: 101 :: 114 :: 32 :: (48 + y / 1000 % 10) :: (48 + y / 100 % 10) :: (48 + y / 10 % 10) :: (48 + y % 10) :: [] := rfl
    rw [hS]
    have htin : tidy (78 :: 111 :: 118 :: 101 :: 109 :: 98 :: 101 :: 114 :: 32 :: (48 + y / 1000 % 10) :: (48 + y / 100 % 10) :: (48 + y / 10 % 10) :: (48 + y % 10) :: []) :=
      tidy_join (78 :: 111 :: 118 :: 101 :: 109 :: 98 :: 101 :: 114 :: []) (by simp) (by decide)
        ((48 + y / 1000 % 10) :: (48 + y / 100 % 10) :: (48 + y / 10 % 10) :: (48 + y % 10) :: []) (tidy_of_all_nonws _ (by
          intro c hc
          simp only [List.mem_cons, List.not_mem_nil, or_false] at hc
          unfold isWsC
          omega))
        (tidyHeadP_cons (by
          unfold isWsC
          omega)) (by simp)
    have hclean : cleanText ((48 + d / 10 % 10) :: (48 + d % 10) :: 32 :: 78 :: 111 :: 118 :: 101 :: 109 :: 98 :: 101 :: 114 :: 32 :: (48 + y / 1000 % 10) :: (48 + y / 100 % 10) :: (48 + y / 10 % 10) :: (48 + y % 10) :: []) = (48 + d / 10 % 10) :: (48 + d % 10) :: 32 :: 78 :: 111 :: 118 :: 101 :: 109 :: 98 :: 101 :: 114 :: 32 :: (48 + y / 1000 % 10) :: (48 + y / 100 % 10) :: (48 + y / 10 % 10) :: (48 + y % 10) :: [] := by
      apply cleanText_eq
      · exact tidy_join ((48 + d / 10 % 10) :: (48 + d % 10) :: []) (by simp)
          (by
            intro c hc
            simp only [List.mem_cons, List.not_mem_nil, or_false] at hc
            unfold isWsC
            omega)
          (78 :: 111 :: 118 :: 101 :: 109 :: 98 :: 101 :: 114 :: 32 :: (48 + y / 1000 % 10) :: (48 + y / 100 % 10) :: (48 + y / 10 % 10) :: (48 + y % 10) :: []) htin (tidyHeadP_cons (by decide)) (by simp)
      · exact tidyHeadP_cons (by
          unfold isWsC
          omega)
    have h45 : ∀ c ∈ ((48 + d / 10 % 10) :: (48 + d % 10) :: 32 :: 78 :: 111 :: 118 :: 101 :: 109 :: 98 :: 101 :: 114 :: 32 :: (48 + y / 1000 % 10) :: (48 + y / 100 % 10) :: (48 + y / 10 % 10) :: (48 + y % 10) :: [] : Str), c ≠ 45 := by
      intro c hc
      simp only [List.mem_cons, List.not_mem_nil, or_false] at hc
      omega
    have h47 : ∀ c ∈ ((48 + d / 10 % 10) :: (48 + d % 10) :: 32 :: 78 :: 111 :: 118 :: 101 :: 109 :: 98 :: 101 :: 114 :: 32 :: (48 + y / 1000 % 10) :: (48 + y / 100 % 10) :: (48 + y / 10 % 10) :: (48 + y % 10) :: [] : Str), c ≠ 47 := by
      intro c hc
      simp only [List.mem_cons, List.not_mem_nil, or_false] at hc
      omega
    have h44 : ∀ c ∈ ((48 + d / 10 % 10) :: (48 + d % 10) :: 32 :: 78 :: 111 :: 118 :: 101 :: 109 :: 98 :: 101 :: 114 :: 32 :: (48 + y / 1000 % 10) :: (48 + y / 100 % 10) :: (48 + y / 10 % 10) :: (48 + y % 10) :: [] : Str), c ≠ 44 := by
      intro c hc
      simp only [List.mem_cons, List.not_mem_nil, or_false] at hc
      omega
    have hp1 := searchIso_none h45
    have hp2 := searchSlash22_none h47
    have hp3 := searchSlash12_none h47
    have hp4 := p4_none_november (digitC_mod (d / 10)) (digitC_mod d)
      (digitC_mod (y / 1000)) (digitC_mod (y / 100)) (digitC_mod (y / 10)) (digitC_mod y)
    have hp5 := p5_none_november (digitC_mod (d / 10)) (digitC_mod d)
      (digitC_mod (y / 1000)) (digitC_mod (y / 100)) (digitC_mod (y / 10)) (digitC_mod y)
    have hmpf : monthFromPrefix monthsFull (78 :: 111 :: 118 :: 101 :: 109 :: 98 :: 101 :: 114 :: 32 :: (48 + y / 1000 % 10) :: (48 + y / 100 % 10) :: (48 + y / 10 % 10) :: (48 + y % 10) :: []) =
        some (11, 8, 32 :: (48 + y / 1000 % 10) :: (48 + y / 100 % 10) :: (48 + y / 10 % 10) :: (48 + y % 10) :: []) := rfl
    have hst6 : matchDMonthYAt monthsFull ((48 + d / 10 % 10) :: (48 + d % 10) :: 32 :: 78 :: 111 :: 118 :: 101 :: 109 :: 98 :: 101 :: 114 :: 32 :: (48 + y / 1000 % 10) :: (48 + y / 100 % 10) :: (48 + y / 10 % 10) :: (48 + y % 10) :: []) = some 16 :=
      matchDMonthY_at_start (digitC_mod (d / 10)) (digitC_mod d)
        (digitC_mod (y / 1000)) (digitC_mod (y / 100)) (digitC_mod (y / 10))
        (digitC_mod y) (by decide) hmpf
    have hs6 : searchWith (matchDMonthYAt monthsFull) ((48 + d / 10 % 10) :: (48 + d % 10) :: 32 :: 78 :: 111 :: 118 :: 101 :: 109 :: 98 :: 101 :: 114 :: 32 :: (48 + y / 1000 % 10) :: (48 + y / 100 % 10) :: (48 + y / 10 % 10) :: (48 + y % 10) :: []) = some ((48 + d / 10 % 10) :: (48 + d % 10) :: 32 :: 78 :: 111 :: 118 :: 101 :: 109 :: 98 :: 101 :: 114 :: 32 :: (48 + y / 1000 % 10) :: (48 + y / 100 % 10) :: (48 + y / 10 % 10) :: (48 + y % 10) :: []) :=
      searchWith_cons_some hst6
    have hrc := removeCommas_eq_self h44
    have hstrp : strpDBY monthsFull ((48 + d / 10 % 10) :: (48 + d % 10) :: 32 :: 78 :: 111 :: 118 :: 101 :: 109 :: 98 :: 101 :: 114 :: 32 :: (48 + y / 1000 % 10) :: (48 + y / 100 % 10) :: (48 + y / 10 % 10) :: (48 + y % 10) :: []) = some ⟨y, 11, d⟩ :=
      strpDBY_compute (by decide) hmpf hv
    have htry : tryPatterns ((48 + d / 10 % 10) :: (48 + d % 10) :: 32 :: 78 :: 111 :: 118 :: 101 :: 109 :: 98 :: 101 :: 114 :: 32 :: (48 + y / 1000 % 10) :: (48 + y / 100 % 10) :: (48 + y / 10 % 10) :: (48 + y % 10) :: []) = some (⟨y, 11, d⟩ : Date) := by
      simp only [tryPatterns, tryOne, hp1, hp2, hp3, hp4, hp5, hs6, hrc, hstrp,
        Option.orElse]
    unfold parse_date
    rw [if_neg (List.cons_ne_nil _ _), hclean, htry]
  · have hS : fmtDMonthY ⟨y, 12, d⟩ = (48 + d / 10 % 10) :: (48 + d % 10) :: 32 :: 68 :: 101 :: 99 :: 101 :: 109 :: 98 :: 101 :: 114 :: 32 :: (48 + y / 1000 % 10) :: (48 + y / 100 % 10) :: (48 + y / 10 % 10) :: (48 + y % 10) :: [] := rfl
    rw [hS]
    have htin : tidy (68 :: 101 :: 99 :: 101 :: 109 :: 98 :: 101 :: 114 :: 32 :: (48 + y / 1000 % 10) :: (48 + y / 100 % 10) :: (48 + y / 10 % 10) :: (48 + y % 10) :: []) :=
      tidy_join (68 :: 101 :: 99 :: 101 :: 109 :: 98 :: 101 :: 114 :: []) (by simp) (by decide)
        ((48 + y / 1000 % 10) :: (48 + y / 100 % 10) :: (48 + y / 10 % 10) :: (48 + y % 10) :: []) (tidy_of_all_nonws _ (by
          intro c hc
          simp only [List.mem_cons, List.not_mem_nil, or_false] at hc
          unfold isWsC
          omega))
        (tidyHeadP_cons (by
          unfold isWsC
          omega)) (by simp)
    have hclean : cleanText ((48 + d / 10 % 10) :: (48 + d % 10) :: 32 :: 68 :: 101 :: 99 :: 101 :: 109 :: 98 :: 101 :: 114 :: 32 :: (48 + y / 1000 % 10) :: (48 + y / 100 % 10) :: (48 + y / 10 % 10) :: (48 + y % 10) :: []) = (48 + d / 10 % 10) :: (48 + d % 10) :: 32 :: 68 :: 101 :: 99 :: 101 :: 109 :: 98 :: 101 :: 114 :: 32 :: (48 + y / 1000 % 10) :: (48 + y / 100 % 10) :: (48 + y / 10 % 10) :: (48 + y % 10) :: [] := by
      apply cleanText_eq
      · exact tidy_join ((48 + d / 10 % 10) :: (48 + d % 10) :: []) (by simp)
          (by
            intro c hc
            simp only [List.mem_cons, List.not_mem_nil, or_false] at hc
            unfold isWsC
            omega)
          (68 :: 101 :: 99 :: 101 :: 109 :: 98 :: 101 :: 114 :: 32 :: (48 + y / 1000 % 10) :: (48 + y / 100 % 10) :: (48 + y / 10 % 10) :: (48 + y % 10) :: []) htin (tidyHeadP_cons (by decide)) (by simp)
      · exact tidyHeadP_cons (by
          unfold isWsC
          omega)
    have h45 : ∀ c ∈ ((48 + d / 10 % 10) :: (48 + d % 10) :: 32 :: 68 :: 101 :: 99 :: 101 :: 109 :: 98 :: 101 :: 114 :: 32 :: (48 + y / 1000 % 10) :: (48 + y / 100 % 10) :: (48 + y / 10 % 10) :: (48 + y % 10) :: [] : Str), c ≠ 45 := by
      intro c hc
      simp only [List.mem_cons, List.not_mem_nil, or_false] at hc
      omega
    have h47 : ∀ c ∈ ((48 + d / 10 % 10) :: (48 + d % 10) :: 32 :: 68 :: 101 :: 99 :: 101 :: 109 :: 98 :: 101 :: 114 :: 32 :: (48 + y / 1000 % 10) :: (48 + y / 100 % 10) :: (48 + y / 10 % 10) :: (48 + y % 10) :: [] : Str), c ≠ 47 := by
      intro c hc
      simp only [List.mem_cons, List.not_mem_nil, or_false] at hc
      omega
    have h44 : ∀ c ∈ ((48 + d / 10 % 10) :: (48 + d % 10) :: 32 :: 68 :: 101 :: 99 :: 101 :: 109 :: 98 :: 101 :: 114 :: 32 :: (48 + y / 1000 % 10) :: (48 + y / 100 % 10) :: (48 + y / 10 % 10) :: (48 + y % 10) :: [] : Str), c ≠ 44 := by
      intro c hc
      simp only [List.mem_cons, List.not_mem_nil, or_false] at hc
      omega
    have hp1 := searchIso_none h45
    have hp2 := searchSlash22_none h47
    have hp3 := searchSlash12_none h47
    have hp4 := p4_none_december (digitC_mod (d / 10)) (digitC_mod d)
      (digitC_mod (y / 1000)) (digitC_mod (y / 100)) (digitC_mod (y / 10)) (digitC_mod y)
    have hp5 := p5_none_december (digitC_mod (d / 10)) (digitC_mod d)
      (digitC_mod (y / 1000)) (digitC_mod (y / 100)) (digitC_mod (y / 10)) (digitC_mod y)
    have hmpf : monthFromPrefix monthsFull (68 :: 101 :: 99 :: 101 :: 109 :: 98 :: 101 :: 114 :: 32 :: (48 + y / 1000 % 10) :: (48 + y / 100 % 10) :: (48 + y / 10 % 10) :: (48 + y % 10) :: []) =
        some (12, 8, 32 :: (48 + y / 1000 % 10) :: (48 + y / 100 % 10) :: (48 + y / 10 % 10) :: (48 + y % 10) :: []) := rfl
    have hst6 : matchDMonthYAt monthsFull ((48 + d / 10 % 10) :: (48 + d % 10) :: 32 :: 68 :: 101 :: 99 :: 101 :: 109 :: 98 :: 101 :: 114 :: 32 :: (48 + y / 1000 % 10) :: (48 + y / 100 % 10) :: (48 + y / 10 % 10) :: (48 + y % 10) :: []) = some 16 :=
      matchDMonthY_at_start (digitC_mod (d / 10)) (digitC_mod d)
        (digitC_mod (y / 1000)) (digitC_mod (y / 100)) (digitC_mod (y / 10))
        (digitC_mod y) (by decide) hmpf
    have hs6 : searchWith (matchDMonthYAt monthsFull) ((48 + d / 10 % 10) :: (48 + d % 10) :: 32 :: 68 :: 101 :: 99 :: 101 :: 109 :: 98 :: 101 :: 114 :: 32 :: (48 + y / 1000 % 10) :: (48 + y / 100 % 10) :: (48 + y / 10 % 10) :: (48 + y % 10) :: []) = some ((48 + d / 10 % 10) :: (48 + d % 10) :: 32 :: 68 :: 101 :: 99 :: 101 :: 109 :: 98 :: 101 :: 114 :: 32 :: (48 + y / 1000 % 10) :: (48 + y / 100 % 10) :: (48 + y / 10 % 10) :: (48 + y % 10) :: []) :=
      searchWith_cons_some hst6
    have hrc := removeCommas_eq_self h44
    have hstrp : strpDBY monthsFull ((48 + d / 10 % 10) :: (48 + d % 10) :: 32 :: 68 :: 101 :: 99 :: 101 :: 109 :: 98 :: 101 :: 114 :: 32 :: (48 + y / 1000 % 10) :: (48 + y / 100 % 10) :: (48 + y / 10 % 10) :: (48 + y % 10) :: []) = some ⟨y, 12, d⟩ :=
      strpDBY_compute (by decide) hmpf hv
    have htry : tryPatterns ((48 + d / 10 % 10) :: (48 + d % 10) :: 32 :: 68 :: 101 :: 99 :: 101 :: 109 :: 98 :: 101 :: 114 :: 32 :: (48 + y / 1000 % 10) :: (48 + y / 100 % 10) :: (48 + y / 10 % 10) :: (48 + y % 10) :: []) = some (⟨y, 12, d⟩ : Date) := by
      simp only [tryPatterns, tryOne, hp1, hp2, hp3, hp4, hp5, hs6, hrc, hstrp,
        Option.orElse]
    unfold parse_date
    rw [if_neg (List.cons_ne_nil _ _), hclean, htry]

/-- Claim C9 (counterexample): the renderings of 2025-01-05 under the
formats "Month D, Year" (`January 05, 2025`), its abbreviated variant
(`Jan 05, 2025`), and "Month YYYY" (`January 2025`) do not round-trip
through `parse_date`: the matched text has its comma stripped while the
strptime format still requires one (and "Month YYYY" matches no pattern at
all), so the current date — here 1999-09-09 — is returned instead of
2025-01-05. -/
theorem parse_date_comma_formats_not_roundtrip :
    parse_date (chars "January 05, 2025") ⟨1999, 9, 9⟩ = ⟨1999, 9, 9⟩ ∧
    parse_date (chars "Jan 05, 2025") ⟨1999, 9, 9⟩ = ⟨1999, 9, 9⟩ ∧
    parse_date (chars "January 2025") ⟨1999, 9, 9⟩ = ⟨1999, 9, 9⟩ ∧
    (⟨1999, 9, 9⟩ : Date) ≠ ⟨2025, 1, 5⟩ := by
  exact ⟨by decide, by decide, by decide, by decide⟩

/-- Claim C9 (amended): for every valid calendar date, `parse_date`
round-trips the formats "YYYY-MM-DD", "MM/DD/YYYY" and "D Month YYYY"; the
"Month D, Year" formats and "Month YYYY" do not round-trip (see the
counterexample), so they are excluded. -/
theorem parse_date_roundtrip_amended (y m d : Nat) (hv : validDate y m d) :
    (∀ now : Date, parse_date (fmtIso ⟨y, m, d⟩) now = ⟨y, m, d⟩) ∧
    (∀ now : Date, parse_date (fmtMdY ⟨y, m, d⟩) now = ⟨y, m, d⟩) ∧
    (∀ now : Date, parse_date (fmtDMonthY ⟨y, m, d⟩) now = ⟨y, m, d⟩) :=
  ⟨fun now => parse_date_roundtrip_iso hv now,
   fun now => parse_date_roundtrip_mdy hv now,
   fun now => parse_date_roundtrip_dmonthy hv now⟩

/-- Witness for C9: the amended round-trip at 2025-03-05. -/
theorem parse_date_roundtrip_witness :
    parse_date (fmtIso ⟨2025, 3, 5⟩) ⟨1999, 9, 9⟩ = ⟨2025, 3, 5⟩ ∧
    parse_date (fmtMdY ⟨2025, 3, 5⟩) ⟨1999, 9, 9⟩ = ⟨2025, 3, 5⟩ ∧
    parse_date (fmtDMonthY ⟨2025, 3, 5⟩) ⟨1999, 9, 9⟩ = ⟨2025, 3, 5⟩ :=
  ⟨(parse_date_roundtrip_amended 2025 3 5 (by decide)).1 ⟨1999, 9, 9⟩,
   (parse_date_roundtrip_amended 2025 3 5 (by decide)).2.1 ⟨1999, 9, 9⟩,
   (parse_date_roundtrip_amended 2025 3 5 (by decide)).2.2 ⟨1999, 9, 9⟩⟩
